import Mathlib

/-!
Menu and navigation layer of the Ghost ESP companion app (`src/menu.c`).

A shallow embedding of `menu.c`: the command catalog, the navigation state, the
command dispatcher, the Back handler and the list input handler, followed by
theorems about them.

Conventions of the embedding.

* A C string is the Lean `String` of its bytes before the terminating NUL (the
  catalog and the on-screen keyboard are ASCII, one `Char` per byte), so
  `strlen` is `String.length`.  A `const char*` that may be `NULL` is an
  `Option String`.
* Indices and view identifiers are unsigned machine integers in C and natural
  numbers here; no arithmetic of `menu.c` on them can wrap for an index below
  its table length, and the theorems say so where they need it.
* The serial transport, the widget toolkit and the settings store are
  collaborators declared in headers outside `menu.c`.  They are modelled by the
  small records below, at the interface the specification gives for them.
* The four file-scope cycle indices of `menu.c` are carried in the same record
  as the fields of `AppState` that `menu.c` uses.
-/

namespace GhostEsp

/-! ## Declarations taken from headers outside `menu.c` -/

/-- Constants that `menu.c` uses and that are declared in headers outside it: the
capture folder macro and the size of the `connect_ssid` array of `AppState`.  They are
parameters of the embedding. -/
structure HeaderDecls where
  GHOST_ESP_APP_FOLDER_PCAPS : String
  connect_ssid_size : Nat
deriving DecidableEq, Repr

/-! ## Data model -/

/-- One entry of a category table (`MenuCommand`). -/
structure MenuCommand where
  label : String
  command : String
  capture_prefix : Option String := none
  file_ext : Option String := none
  folder : Option String := none
  needs_input : Bool := false
  input_text : Option String := none
  needs_confirmation : Bool := false
  confirm_header : Option String := none
  confirm_text : Option String := none
  details_header : Option String := none
  details_text : Option String := none
deriving DecidableEq, Repr

/-- One entry of the sniff variant table (`SniffCommandDef`). -/
structure SniffCommandDef where
  label : String
  command : String
  capture_prefix : Option String
deriving DecidableEq, Repr

/-- One entry of the beacon-spam, BLE-spam and RGB variant tables (`BeaconSpamDef`). -/
structure BeaconSpamDef where
  label : String
  command : String
deriving DecidableEq, Repr

/-- The transient confirmation context (`MenuCommandContext`): `state` records whether
the `AppState*` it holds is set, `command` is the descriptor pointer (absent when null). -/
structure MenuCommandContext where
  state : Bool
  command : Option MenuCommand
deriving DecidableEq, Repr

/-! ## Variant tables -/

/-- Table sniff_commands of menu.c. -/
def sniff_commands : List SniffCommandDef := [
  { label := "< Sniff WPS >", command := "capture -wps\n", capture_prefix := some "wps_capture" },
  { label := "< Sniff Raw Packets >", command := "capture -raw\n", capture_prefix := some "raw_capture" },
  { label := "< Sniff Probes >", command := "capture -p\n", capture_prefix := some "probe_capture" },
  { label := "< Sniff Deauth >", command := "capture -deauth\n", capture_prefix := some "deauth_capture" },
  { label := "< Sniff Beacons >", command := "capture -beacon\n", capture_prefix := some "beacon_capture" },
  { label := "< Sniff EAPOL >", command := "capture -eapol\n", capture_prefix := some "eapol_capture" },
  { label := "< Sniff Pwn >", command := "capture -pwn\n", capture_prefix := some "pwn_capture" } ]

/-- Table beacon_spam_commands of menu.c. -/
def beacon_spam_commands : List BeaconSpamDef := [
  { label := "< Beacon Spam (List) >", command := "beaconspam -l\n" },
  { label := "< Beacon Spam (Random) >", command := "beaconspam -r\n" },
  { label := "< Beacon Spam (Rickroll) >", command := "beaconspam -rr\n" },
  { label := "< Beacon Spam (Custom) >", command := "beaconspam" } ]

/-- Table ble_spam_commands of menu.c. -/
def ble_spam_commands : List BeaconSpamDef := [
  { label := "< BLE Spam (Apple) >", command := "blespam -apple\n" },
  { label := "< BLE Spam (Microsoft) >", command := "blespam -ms\n" },
  { label := "< BLE Spam (Samsung) >", command := "blespam -samsung\n" },
  { label := "< BLE Spam (Google) >", command := "blespam -google\n" },
  { label := "< BLE Spam (Random) >", command := "blespam -random\n" } ]

/-- Table rgbmode_commands of menu.c. -/
def rgbmode_commands : List BeaconSpamDef := [
  { label := "< LED: Rainbow >", command := "rgbmode rainbow\n" },
  { label := "< LED: Police >", command := "rgbmode police\n" },
  { label := "< LED: Strobe >", command := "rgbmode strobe\n" },
  { label := "< LED: Off >", command := "rgbmode off\n" },
  { label := "< LED: Red >", command := "rgbmode red\n" },
  { label := "< LED: Green >", command := "rgbmode green\n" },
  { label := "< LED: Blue >", command := "rgbmode blue\n" },
  { label := "< LED: Yellow >", command := "rgbmode yellow\n" },
  { label := "< LED: Purple >", command := "rgbmode purple\n" },
  { label := "< LED: Cyan >", command := "rgbmode cyan\n" },
  { label := "< LED: Orange >", command := "rgbmode orange\n" },
  { label := "< LED: White >", command := "rgbmode white\n" },
  { label := "< LED: Pink >", command := "rgbmode pink\n" } ]

/-- Reading `sniff_commands[i]`.  Past the end of the table the read is undefined in C;
the embedding then yields an entry with empty strings and no capture prefix, and the
theorems that depend on a read assume the index below the table length. -/
def sniff_at (i : Nat) : SniffCommandDef :=
  sniff_commands.getD i { label := "", command := "", capture_prefix := none }

/-- Reading entry `i` of one of the `BeaconSpamDef` tables; past the end see `sniff_at`. -/
def variant_at (table : List BeaconSpamDef) (i : Nat) : BeaconSpamDef :=
  table.getD i { label := "", command := "" }

/-! ## Command catalog -/

/-- Table wifi_scanning_commands of menu.c (14 descriptors). -/
def wifi_scanning_commands : List MenuCommand := [
  { label := "Scan WiFi APs",
    command := "scanap\n",
    details_header := some "WiFi AP Scanner",
    details_text := some "Scans for WiFi APs:\n- SSID names\n- Signal levels\n- Security type\n- Channel info\n" },
  { label := "Scan WiFi Stations",
    command := "scansta\n",
    details_header := some "Station Scanner",
    details_text := some "Scans for clients:\n- MAC addresses\n- Network SSID\n- Signal level\nRange: ~50-100m\n" },
  { label := "Scan All (AP+STA)",
    command := "scanall\n",
    details_header := some "Scan All",
    details_text := some "Combined AP/Station scan\nand display results.\n" },
  { label := "List APs",
    command := "list -a\n",
    details_header := some "List Access Points",
    details_text := some "Shows list of APs found\nduring last scan with:\n- Network details\n- Channel info\n- Security type\n" },
  { label := "List Stations",
    command := "list -s\n",
    details_header := some "List Stations",
    details_text := some "Shows list of clients\nfound during last scan:\n- Device MAC address\n- Connected network\n- Signal strength\n" },
  { label := "Select AP",
    command := "select -a",
    needs_input := true,
    input_text := some "AP Number",
    details_header := some "Select Access Point",
    details_text := some "Select an AP by number\nfrom the scanned list\nfor targeting with\nother commands.\n" },
  { label := "Select Station",
    command := "select -s",
    needs_input := true,
    input_text := some "Station Number",
    details_header := some "Select Station",
    details_text := some "Target a station by number\nfrom the scan list for attacks." },
  { label := "Pineapple Detect",
    command := "pineap\n",
    details_header := some "Pineapple Detection",
    details_text := some "Detects WiFi Pineapple devices\n" },
  { label := "Channel Congestion",
    command := "congestion\n",
    details_header := some "Channel Congestion",
    details_text := some "Display Wi-Fi channel\ncongestion chart.\n" },
  { label := "Scan Ports",
    command := "scanports",
    needs_input := true,
    input_text := some "local or IP [options]",
    details_header := some "Port Scanner",
    details_text := some "Scan ports on local net\nor specific IP.\nOptions: -C, -A, range\nEx: local -C\nEx: 192.168.1.1 80-1000" },
  { label := "Listen Probes (Hop)",
    command := "listenprobes\n",
    details_header := some "Listen for Probes",
    details_text := some "Listen for and log probe requests\nwhile hopping channels." },
  { label := "Listen Probes (Chan)",
    command := "listenprobes",
    needs_input := true,
    input_text := some "Channel (1-165)",
    details_header := some "Listen on Channel",
    details_text := some "Listen for probe requests on a\nspecific channel." },
  { label := "Stop Listen Probes",
    command := "listenprobes stop\n",
    details_header := some "Stop Listening",
    details_text := some "Stops the probe listener." },
  { label := "Stop Scan",
    command := "stopscan\n",
    details_header := some "Stop Scan",
    details_text := some "Stops AP or Station scan." } ]

/-- Table wifi_capture_commands of menu.c (1 descriptors). -/
def wifi_capture_commands (h : HeaderDecls) : List MenuCommand := [
  { label := "< Sniff WPS >",
    command := "capture -wps\n",
    capture_prefix := some "wps_capture",
    file_ext := some "pcap",
    folder := some h.GHOST_ESP_APP_FOLDER_PCAPS,
    details_header := some "Variable Sniff",
    details_text := some "Use Left/Right to change:\n- WPS traffic\n- Raw packets\n- Probe requests\n- Deauth frames\n- Beacon frames\n- EAPOL/Handshakes\n" } ]

/-- Table wifi_attack_commands of menu.c (13 descriptors). -/
def wifi_attack_commands : List MenuCommand := [
  { label := "< Beacon Spam (List) >",
    command := "beaconspam -l\n",
    needs_input := false,
    input_text := some "SSID Name",
    details_header := some "Variable Beacon Spam",
    details_text := some "Use Left/Right to change:\n- List mode\n- Random names\n- Rickroll mode\n- Custom SSID\nRange: ~50-100m\n" },
  { label := "Deauth",
    command := "attack -d\n",
    details_header := some "Deauth Attack",
    details_text := some "Sends deauth frames to\ndisconnect clients from\nselected network.\nRange: ~50-100m\n" },
  { label := "EAPOL Logoff",
    command := "attack -e\n",
    details_header := some "EAPOL Logoff Attack",
    details_text := some "Sends EAPOL logoff frames to\ndisconnect clients." },
  { label := "SAE Handshake Flood",
    command := "attack -s\n",
    details_header := some "SAE Flood Attack",
    details_text := some "Floods WPA3 networks with\nSAE handshakes. Select a WPA3 AP first." },
  { label := "DHCP Starve Start",
    command := "dhcpstarve",
    needs_input := true,
    input_text := some "start [threads]",
    details_header := some "DHCP Starve Attack",
    details_text := some "Exhausts DHCP server's IP pool.\nInput: start [threads]\ne.g., 'start' or 'start 5'" },
  { label := "DHCP Starve Stop",
    command := "dhcpstarve stop\n",
    details_header := some "Stop DHCP Starve",
    details_text := some "Stops the DHCP starvation attack." },
  { label := "Stop Deauth/SAE/EAPOL",
    command := "stopdeauth\n",
    details_header := some "Stop Attacks",
    details_text := some "Stops Deauth, SAE Flood,\nand EAPOL Logoff attacks." },
  { label := "Add SSID to Beacon List",
    command := "beaconadd",
    needs_input := true,
    input_text := some "SSID",
    details_header := some "Add to Beacon List",
    details_text := some "Add an SSID to the list used\nby Beacon List Spam." },
  { label := "Remove SSID from Beacon List",
    command := "beaconremove",
    needs_input := true,
    input_text := some "SSID",
    details_header := some "Remove from Beacon List",
    details_text := some "Remove an SSID from the\nbeacon spam list." },
  { label := "Clear Beacon List",
    command := "beaconclear\n",
    details_header := some "Clear Beacon List",
    details_text := some "Clears all SSIDs from the\nbeacon spam list." },
  { label := "Show Beacon List",
    command := "beaconshow\n",
    details_header := some "Show Beacon List",
    details_text := some "Displays all SSIDs in the\nbeacon spam list." },
  { label := "Start Beacon List Spam",
    command := "beaconspamlist\n",
    details_header := some "Beacon List Spam",
    details_text := some "Starts beacon spam using the\ncustom list of SSIDs." },
  { label := "Stop Beacon Spam",
    command := "stopspam\n",
    details_header := some "Stop Beacon Spam",
    details_text := some "Stops any active beacon spam." } ]

/-- Table wifi_network_commands of menu.c (10 descriptors). -/
def wifi_network_commands : List MenuCommand := [
  { label := "Evil Portal",
    command := "startportal",
    needs_input := true,
    input_text := some "<filepath> <SSID> <PSK (leave blank for open)>",
    details_header := some "Evil Portal",
    details_text := some "Captive portal for\ncredential harvest.\nConfigure in WebUI:\n- Portal settings\n- Landing page\n" },
  { label := "List Portals",
    command := "listportals\n",
    details_header := some "List Portals",
    details_text := some "Show all available HTML portals\non the SD card." },
  { label := "Connect To WiFi",
    command := "connect",
    needs_input := true,
    input_text := some "SSID",
    details_header := some "WiFi Connect",
    details_text := some "Connect ESP to WiFi:\nEnter SSID followed by password.\n" },
  { label := "Cast Random Video",
    command := "dialconnect\n",
    needs_confirmation := true,
    confirm_header := some "Cast Video",
    confirm_text := some "Make sure you've connected\nto WiFi first via the\n'Connect to WiFi' option.\n",
    details_header := some "Video Cast",
    details_text := some "Casts random videos\nto nearby Cast/DIAL\nenabled devices.\nRange: ~50m\n" },
  { label := "Printer Power",
    command := "powerprinter\n",
    needs_confirmation := true,
    confirm_header := some "Printer Power",
    confirm_text := some "You need to configure\n settings in the WebUI\n for this command.\n",
    details_header := some "WiFi Printer",
    details_text := some "Control power state\nof network printers.\nConfigure in WebUI:\n- Printer IP/Port\n- Protocol type\n" },
  { label := "Scan Local Network",
    command := "scanlocal\n",
    needs_confirmation := true,
    confirm_header := some "Local Network Scan",
    confirm_text := some "Make sure you've connected\nto WiFi first via the\n'Connect to WiFi' option.\n",
    details_header := some "Network Scanner",
    details_text := some "Scans local network for:\n- Printers\n- Smart devices\n- Cast devices\n- Requires WiFi connection\n" },
  { label := "Set WebUI Creds",
    command := "apcred",
    needs_input := true,
    input_text := some "MySSID MyPassword",
    details_header := some "Set AP Credentials",
    details_text := some "Set custom WebUI AP:\nFormat:\nMySSID MyPassword\nExample: GhostNet,spooky123\n" },
  { label := "Reset WebUI Creds",
    command := "apcred -r\n",
    needs_confirmation := true,
    confirm_header := some "Reset AP Credentials",
    confirm_text := some "Reset WebUI AP to\ndefault credentials?\nSSID: GhostNet\nPassword: GhostNet\n",
    details_header := some "Reset AP Credentials",
    details_text := some "Restores default WebUI AP:\nSSID: GhostNet\nPassword: GhostNet\nRequires ESP reboot\n" },
  { label := "Stop Evil Portal",
    command := "stopportal\n",
    details_header := some "Stop Evil Portal",
    details_text := some "Stops the Evil Portal." },
  { label := "TP-Link Smart Plug",
    command := "tplinktest",
    needs_input := true,
    input_text := some "on | off | loop",
    details_header := some "TP-Link Control",
    details_text := some "Control TP-Link smart plugs\non the local network." } ]

/-- Table wifi_settings_commands of menu.c (13 descriptors). -/
def wifi_settings_commands : List MenuCommand := [
  { label := "< LED: Rainbow >",
    command := "rgbmode rainbow\n",
    confirm_header := some "LED Effects",
    details_header := some "LED Effects",
    details_text := some "Control LED effects:\n- rainbow, police, strobe, off, or fixed colors\nCycle with Left/Right to select an effect\n" },
  { label := "Set RGB Pins",
    command := "setrgbpins",
    needs_input := true,
    input_text := some "<red> <green> <blue>",
    details_header := some "Set RGB Pins",
    details_text := some "Change RGB LED pins.\nRequires restart.\nUse same value for all\npins for single-pin LED." },
  { label := "Show SD Pin Config",
    command := "sd_config",
    details_header := some "SD Pin Config",
    details_text := some "Show current SD GPIO\npin configuration for\nMMC and SPI modes." },
  { label := "Set SD Pins (MMC)",
    command := "sd_pins_mmc",
    needs_input := true,
    input_text := some "<clk> <cmd> <d0..d3>",
    details_header := some "Set SD Pins (MMC)",
    details_text := some "Set GPIO pins for SDMMC.\nRequires restart.\nOnly if firmware built\nfor SDMMC mode." },
  { label := "Set SD Pins (SPI)",
    command := "sd_pins_spi",
    needs_input := true,
    input_text := some "<cs> <clk> <miso> <mosi>",
    details_header := some "Set SD Pins (SPI)",
    details_text := some "Set GPIO pins for SPI.\nRequires restart.\nOnly if firmware built\nfor SPI mode." },
  { label := "Save SD Pin Config",
    command := "sd_save_config",
    needs_confirmation := true,
    confirm_header := some "Save SD Config",
    confirm_text := some "Save current SD pin\nconfig to SD card?\nRequires SD mounted.",
    details_header := some "Save SD Pin Config",
    details_text := some "Save current SD pin\nconfig (both modes) to\nSD card (sd_config.conf)." },
  { label := "Set Timezone",
    command := "timezone",
    needs_input := true,
    input_text := some "TZ String",
    details_header := some "Set Timezone",
    details_text := some "Set timezone for the clock.\ne.g. 'EST5EDT,M3.2.0,M11.1.0'" },
  { label := "Set Web Auth",
    command := "webauth",
    needs_input := true,
    input_text := some "on | off",
    details_header := some "Set Web Auth",
    details_text := some "Enable or disable Web\nUI authentication." },
  { label := "Set WiFi Country",
    command := "setcountry",
    needs_input := true,
    input_text := some "Country Code (e.g. US)",
    details_header := some "Set WiFi Country",
    details_text := some "Set the WiFi country code.\nMay require ESP32-C5." },
  { label := "Show Help",
    command := "help\n",
    details_header := some "Help",
    details_text := some "Show complete command list." },
  { label := "Reboot Device",
    command := "reboot\n",
    needs_confirmation := true,
    confirm_header := some "Reboot Device",
    confirm_text := some "Are you sure you want to reboot?",
    details_header := some "Reboot",
    details_text := some "Restart the ESP device." },
  { label := "Enable/Disable AP",
    command := "apenable",
    needs_input := true,
    input_text := some "on | off",
    details_header := some "AP Enable/Disable",
    details_text := some "Enable or disable the Access Point\nacross reboots." },
  { label := "Show Chip Info",
    command := "chipinfo\n",
    details_header := some "Chip Info",
    details_text := some "Show chip and memory info." } ]

/-- Descriptor wifi_stop_command of menu.c. -/
def wifi_stop_command : MenuCommand :=
  { label := "Stop All WiFi",
    command := "stop\n",
    details_header := some "Stop WiFi Operations",
    details_text := some "Stops all active WiFi\noperations including:\n- Scanning\n- Beacon Spam\n- Deauth Attacks\n- Packet Captures\n- Evil Portal\n" }

/-- Table ble_scanning_commands of menu.c (10 descriptors). -/
def ble_scanning_commands (h : HeaderDecls) : List MenuCommand := [
  { label := "Skimmer Detection",
    command := "capture -skimmer\n",
    capture_prefix := some "skimmer_scan",
    file_ext := some "pcap",
    folder := some h.GHOST_ESP_APP_FOLDER_PCAPS,
    details_header := some "Skimmer Scanner",
    details_text := some "Detects potential\ncard skimmers by\nanalyzing BLE\nsignatures and\nknown patterns.\n" },
  { label := "Find the Flippers",
    command := "blescan -f\n",
    details_header := some "Flipper Scanner",
    details_text := some "Scans for Flippers:\n- Device name\n- BT address\n- Signal level\nRange: ~50m\n" },
  { label := "AirTag Scanner",
    command := "blescan -a\n",
    details_header := some "AirTag Scanner",
    details_text := some "Detects nearby Apple\nAirTags and shows:\n- Device ID\n- Signal strength\n- Last seen time\n" },
  { label := "List AirTags",
    command := "listairtags\n",
    details_header := some "List AirTags",
    details_text := some "List discovered AirTags." },
  { label := "Select AirTag",
    command := "select -airtag",
    needs_input := true,
    input_text := some "AirTag Number",
    details_header := some "Select AirTag",
    details_text := some "Target an AirTag by number\nfrom the scan list." },
  { label := "List Flippers",
    command := "listflippers\n",
    details_header := some "List Flippers",
    details_text := some "List discovered Flipper Devices\nin range." },
  { label := "Select Flipper",
    command := "selectflipper",
    needs_input := true,
    input_text := some "Flipper Number",
    details_header := some "Select Flipper",
    details_text := some "Select a Flipper by number." },
  { label := "Detect BLE Spam",
    command := "blescan -ds\n",
    details_header := some "BLE Spam Detection",
    details_text := some "Detects Bluetooth spam devices\nin the area." },
  { label := "View All BLE Traffic",
    command := "blescan -r\n",
    details_header := some "BLE Raw Traffic",
    details_text := some "View all Bluetooth Low Energy\ntraffic in range." },
  { label := "Stop BLE Scanning",
    command := "blescan -s\n",
    details_header := some "Stop BLE Scan",
    details_text := some "Stops any active BLE scanning." } ]

/-- Table ble_capture_commands of menu.c (1 descriptors). -/
def ble_capture_commands (h : HeaderDecls) : List MenuCommand := [
  { label := "BLE Raw Capture",
    command := "capture -ble\n",
    capture_prefix := some "ble_raw_capture",
    file_ext := some "pcap",
    folder := some h.GHOST_ESP_APP_FOLDER_PCAPS,
    details_header := some "BLE Raw Capture",
    details_text := some "Captures raw BLE\ntraffic and data.\nRange: ~10-30m\n" } ]

/-- Table ble_attack_commands of menu.c (4 descriptors). -/
def ble_attack_commands : List MenuCommand := [
  { label := "< BLE Spam (Apple) >",
    command := "blespam -apple\n",
    details_header := some "Variable BLE Spam",
    details_text := some "Use Left/Right to change:\n- Apple device spam\n- Microsoft Swift Pair\n- Samsung Galaxy Watch\n- Google Fast Pair\n- Random spam (all types)\nRange: ~50m\n" },
  { label := "Spoof Selected AirTag",
    command := "spoofairtag\n",
    details_header := some "Spoof AirTag",
    details_text := some "Spoof the selected AirTag." },
  { label := "Stop BLE Spam",
    command := "blespam -s\n",
    details_header := some "Stop BLE Spam",
    details_text := some "Stops BLE advertisement\nspam attacks." },
  { label := "Stop AirTag Spoof",
    command := "stopspoof\n",
    details_header := some "Stop Spoofing",
    details_text := some "Stops AirTag spoofing." } ]

/-- Table ble_chameleon_commands of menu.c (10 descriptors). -/
def ble_chameleon_commands : List MenuCommand := [
  { label := "Connect",
    command := "chameleon connect\n",
    details_header := some "Connect to Chameleon",
    details_text := some "Scan and connect to\nChameleon Ultra device\nvia Bluetooth.\nMust be done first." },
  { label := "Device Status",
    command := "chameleon status\n",
    details_header := some "Device Status",
    details_text := some "Show connection status,\ndevice info, firmware\nversion, and current\noperating mode." },
  { label := "Battery Level",
    command := "chameleon battery\n",
    details_header := some "Battery Check",
    details_text := some "Display current battery\nlevel and charging\nstatus of Chameleon\nUltra device." },
  { label := "Reader Mode",
    command := "chameleon reader\n",
    details_header := some "Reader Mode",
    details_text := some "Switch to reader mode\nfor scanning and\nanalyzing cards.\nRequired for scanning." },
  { label := "Scan HF (13.56MHz)",
    command := "chameleon scanhf\n",
    details_header := some "HF Card Scanner",
    details_text := some "Quick scan for 13.56MHz\ncards (MIFARE, NTAG,\nISO14443 Type A/B).\nShows basic card info." },
  { label := "Read HF Card",
    command := "chameleon readhf\n",
    details_header := some "Full HF Analysis",
    details_text := some "Comprehensive card\nanalysis with automated\nattacks for MIFARE\nClassic and NTAG cards." },
  { label := "NTAG Detect",
    command := "chameleon ntagdetect\n",
    details_header := some "NTAG Detection",
    details_text := some "Identify NTAG card type\n(213/215/216) and\ncheck protection\nstatus and memory." },
  { label := "Save Card Dump",
    command := "chameleon savedump",
    needs_input := true,
    input_text := some "Filename",
    details_header := some "Save Card Data",
    details_text := some "Save scanned card data\nto SD card with custom\nfilename for later\nanalysis." },
  { label := "Emulator Mode",
    command := "chameleon emulator\n",
    details_header := some "Emulator Mode",
    details_text := some "Switch to emulator mode\nfor card simulation\nand tag emulation.\nLoad cards first." },
  { label := "Disconnect",
    command := "chameleon disconnect\n",
    details_header := some "Disconnect",
    details_text := some "Safely disconnect from\nChameleon Ultra device\nand free Bluetooth\nconnection." } ]

/-- Descriptor ble_stop_command of menu.c. -/
def ble_stop_command : MenuCommand :=
  { label := "Stop All BLE",
    command := "stop\n",
    details_header := some "Stop BLE Operations",
    details_text := some "Stops all active BLE\noperations including:\n- BLE Scanning\n- Skimmer Detection\n- Packet Captures\n- Device Detection\n" }

/-- Table gps_commands of menu.c (4 descriptors). -/
def gps_commands : List MenuCommand := [
  { label := "GPS Info",
    command := "gpsinfo\n",
    details_header := some "GPS Information",
    details_text := some "Shows GPS details:\n- Position (Lat/Long)\n- Altitude & Speed\n- Direction & Quality\n- Satellite Status\n" },
  { label := "Start Wardriving",
    command := "startwd\n",
    details_header := some "Wardrive Mode",
    details_text := some "Maps WiFi networks:\n- Network info\n- GPS location\n- Signal levels\nSaves as CSV\n" },
  { label := "BLE Wardriving",
    command := "blewardriving\n",
    details_header := some "BLE Wardriving",
    details_text := some "Maps BLE devices:\n- Device info\n- GPS location\n- Signal levels\nSaves as CSV\n" },
  { label := "Stop All GPS",
    command := "stop\n",
    details_header := some "Stop GPS Operations",
    details_text := some "Stops all active GPS\noperations including:\n- GPS Info Updates\n- WiFi Wardriving\n- BLE Wardriving\n" } ]

/-! ## Collaborators -/

/-- Modelled from the spec: the serial transport (`uart_utils.h`), which is outside
`menu.c`.  `esp_connected` is the answer of the connection-liveness query,
`file_opens` the answer the transport gives when asked to open a capture sink, `sent`
the byte strings handed to `send`, one element per call and oldest first, and `opened`
the capture sinks requested so far (prefix, extension, folder). -/
structure UartContext where
  esp_connected : Bool
  file_opens : Bool
  sent : List String
  opened : List (String × String × String)
deriving DecidableEq, Repr

/-- A row of a list view: its label and the id it was added with. -/
structure SubmenuItem where
  label : String
  index : Nat
deriving DecidableEq, Repr

/-- Modelled from the spec: the toolkit's list view, with the operations
reset / setHeader / addItem / setSelected / getSelected / changeItemLabel.  Every row
is added with `submenu_callback` and the application state as its callback, so the
callback is not recorded.  `selected` is the id of the highlighted row. -/
structure Submenu where
  header : Option String
  items : List SubmenuItem
  selected : Nat
deriving DecidableEq, Repr

/-- Modelled from the spec: the main menu widget (`main_menu.h`); `help_callback` records
that `show_menu_help` has been registered. -/
structure MainMenu where
  header : Option String
  items : List SubmenuItem
  help_callback : Bool
deriving DecidableEq, Repr

/-- Modelled from the spec: the toolkit's text-input view.  `result_callback` records that
`text_input_result_callback` is registered on `input_buffer`, `buffer_size` and
`clear_default_text` are the last two arguments of that registration. -/
structure TextInput where
  header : Option String
  result_callback : Bool
  buffer_size : Nat
  clear_default_text : Bool
deriving DecidableEq, Repr

/-- The callbacks `menu.c` registers on the modal view, each with the context it is
registered with (the application state for the last two). -/
inductive ModalCallback where
  | unset
  | confirmation_ok_callback (cmd_ctx : MenuCommandContext)
  | confirmation_cancel_callback (cmd_ctx : MenuCommandContext)
  | app_info_ok_callback
  | error_callback
deriving DecidableEq, Repr

/-- Modelled from the spec: the modal confirmation view (`confirmation_view.h`). -/
structure ConfirmationView where
  header : Option String
  text : Option String
  ok_callback : ModalCallback
  cancel_callback : ModalCallback
deriving DecidableEq, Repr

/-- Modelled from the spec: the view dispatcher, which switches the active view by
integer id and can be stopped. -/
structure ViewDispatcher where
  current_view : Nat
  stopped : Bool
deriving DecidableEq, Repr

/-- The part of the settings store that `menu.c` reads. -/
structure Settings where
  stop_on_back_index : Nat
deriving DecidableEq, Repr

/-- The fields of `AppState` that `menu.c` uses, followed by the four file-scope cycle
indices of `menu.c`. -/
structure AppState where
  view_dispatcher : ViewDispatcher
  main_menu : MainMenu
  wifi_menu : Submenu
  ble_menu : Submenu
  gps_menu : Submenu
  wifi_scanning_menu : Submenu
  wifi_capture_menu : Submenu
  wifi_attack_menu : Submenu
  wifi_network_menu : Submenu
  wifi_settings_menu : Submenu
  ble_scanning_menu : Submenu
  ble_capture_menu : Submenu
  ble_attack_menu : Submenu
  ble_chameleon_menu : Submenu
  text_input : TextInput
  confirmation_view : ConfirmationView
  uart_context : UartContext
  settings : Settings
  current_view : Nat
  previous_view : Nat
  current_index : Nat
  last_wifi_category_index : Nat
  last_wifi_scanning_index : Nat
  last_wifi_capture_index : Nat
  last_wifi_attack_index : Nat
  last_wifi_network_index : Nat
  last_wifi_settings_index : Nat
  last_ble_category_index : Nat
  last_ble_scanning_index : Nat
  last_ble_capture_index : Nat
  last_ble_attack_index : Nat
  last_ble_chameleon_index : Nat
  last_gps_index : Nat
  came_from_settings : Bool
  connect_input_stage : Nat
  connect_ssid : String
  input_buffer : String
  uart_command : Option String
  textBoxBuffer : Option String
  buffer_length : Nat
  current_rgb_index : Nat
  current_sniff_index : Nat
  current_beacon_index : Nat
  current_ble_spam_index : Nat
deriving DecidableEq, Repr

/-- The kind of an input event (`InputType` of the toolkit). -/
inductive InputType where
  | InputTypePress | InputTypeRelease | InputTypeShort | InputTypeLong | InputTypeRepeat
  | InputTypeMAX
deriving DecidableEq, Repr

/-- The key of an input event (`InputKey` of the toolkit). -/
inductive InputKey where
  | InputKeyUp | InputKeyDown | InputKeyRight | InputKeyLeft | InputKeyOk | InputKeyBack
  | InputKeyMAX
deriving DecidableEq, Repr

/-- An input event. -/
structure InputEvent where
  type : InputType
  key : InputKey
deriving DecidableEq, Repr

/-! ### Operations of the collaborators -/

/-- The transport's `send`: one more byte string on the wire. -/
def uart_send (uart : UartContext) (bytes : String) : UartContext :=
  { uart with sent := uart.sent ++ [bytes] }

/-- The transport's connection-liveness query. -/
def uart_is_esp_connected (uart : UartContext) : Bool :=
  uart.esp_connected

/-- The view dispatcher's switch. -/
def view_dispatcher_switch_to_view (vd : ViewDispatcher) (view_id : Nat) : ViewDispatcher :=
  { vd with current_view := view_id }

/-- The view dispatcher's stop. -/
def view_dispatcher_stop (vd : ViewDispatcher) : ViewDispatcher :=
  { vd with stopped := true }

/-- Modelled from the spec: `uart_receive_data` of `uart_utils.c`, which is outside
`menu.c`.  The specification gives it as `openCaptureSink(prefix, extension, folder) ->
bool` with `false` meaning failure: the request is recorded, the answer is the
transport's, on success the terminal view is shown and on failure the view is unchanged.
It does not write the navigation fields of the state. -/
def uart_receive_data (state : AppState) (pfx ext folder : String) : Bool × AppState :=
  let uart := { state.uart_context with opened := state.uart_context.opened ++ [(pfx, ext, folder)] }
  if uart.file_opens then
    (true, { state with uart_context := uart,
                        view_dispatcher := view_dispatcher_switch_to_view state.view_dispatcher 5 })
  else
    (false, { state with uart_context := uart })

/-- List view: reset. -/
def submenu_reset (_menu : Submenu) : Submenu :=
  { header := none, items := [], selected := 0 }

/-- List view: set the header. -/
def submenu_set_header (menu : Submenu) (header : String) : Submenu :=
  { menu with header := some header }

/-- List view: add a row with a label and an id. -/
def submenu_add_item (menu : Submenu) (label : String) (index : Nat) : Submenu :=
  { menu with items := menu.items ++ [{ label := label, index := index }] }

/-- List view: highlight the row with the given id. -/
def submenu_set_selected_item (menu : Submenu) (index : Nat) : Submenu :=
  { menu with selected := index }

/-- List view: the id of the highlighted row. -/
def submenu_get_selected_item (menu : Submenu) : Nat :=
  menu.selected

/-- Replace the label of the first row with the given id, leaving every other row as it
is. -/
def change_label (index : Nat) (label : String) : List SubmenuItem → List SubmenuItem
  | [] => []
  | it :: rest =>
    if it.index = index then { it with label := label } :: rest
    else it :: change_label index label rest

/-- List view: change the label of the row with the given id. -/
def submenu_change_item_label (menu : Submenu) (index : Nat) (label : String) : Submenu :=
  { menu with items := change_label index label menu.items }

/-- The label shown by the row with the given id, if there is such a row. -/
def submenu_label (menu : Submenu) (index : Nat) : Option String :=
  (menu.items.find? (fun it => it.index == index)).map (fun it => it.label)

/-- Main menu widget: reset. -/
def main_menu_reset (_menu : MainMenu) : MainMenu :=
  { header := none, items := [], help_callback := false }

/-- Main menu widget: set the header. -/
def main_menu_set_header (menu : MainMenu) (header : String) : MainMenu :=
  { menu with header := some header }

/-- Main menu widget: add a row. -/
def main_menu_add_item (menu : MainMenu) (label : String) (index : Nat) : MainMenu :=
  { menu with items := menu.items ++ [{ label := label, index := index }] }

/-- Main menu widget: register the help callback. -/
def main_menu_set_help_callback (menu : MainMenu) : MainMenu :=
  { menu with help_callback := true }

/-- Text input: reset. -/
def text_input_reset (_ti : TextInput) : TextInput :=
  { header := none, result_callback := false, buffer_size := 0, clear_default_text := false }

/-- Text input: set the header. -/
def text_input_set_header_text (ti : TextInput) (text : Option String) : TextInput :=
  { ti with header := text }

/-- Text input: register `text_input_result_callback` on `input_buffer`. -/
def text_input_set_result_callback (ti : TextInput) (buffer_size : Nat) (clear : Bool) :
    TextInput :=
  { ti with result_callback := true, buffer_size := buffer_size, clear_default_text := clear }

/-- Modal view: set the header. -/
def confirmation_view_set_header (v : ConfirmationView) (header : Option String) :
    ConfirmationView :=
  { v with header := header }

/-- Modal view: set the body text. -/
def confirmation_view_set_text (v : ConfirmationView) (text : Option String) :
    ConfirmationView :=
  { v with text := text }

/-- Modal view: set the OK callback. -/
def confirmation_view_set_ok_callback (v : ConfirmationView) (cb : ModalCallback) :
    ConfirmationView :=
  { v with ok_callback := cb }

/-- Modal view: set the Cancel callback. -/
def confirmation_view_set_cancel_callback (v : ConfirmationView) (cb : ModalCallback) :
    ConfirmationView :=
  { v with cancel_callback := cb }

/-- What `snprintf(buffer, size, ...)` leaves in `buffer`: the formatted text cut to
`size - 1` bytes. -/
def snprintf (size : Nat) (formatted : String) : String :=
  ⟨formatted.data.take (size - 1)⟩

/-- The first `len` bytes of a C string (the `memcpy` and terminating NUL of the SSID
capture). -/
def take_bytes (len : Nat) (text : String) : String :=
  ⟨text.data.take len⟩

/-- A `const char*` passed to `%s`, as a string.  Passing `NULL` is undefined in C; the
embedding prints nothing for it. -/
def c_str (p : Option String) : String :=
  p.getD ""

/-! ## The functions of `menu.c` -/

/-- Function `send_uart_command`. -/
def send_uart_command (command : String) (state : AppState) : AppState :=
  { state with uart_context := uart_send state.uart_context command }

/-- Function `send_uart_command_with_text`: the command, a blank, the text and a newline,
formatted into a buffer of 256 bytes. -/
def send_uart_command_with_text (command : Option String) (text : String) (state : AppState) :
    AppState :=
  let buffer := snprintf 256 (c_str command ++ " " ++ text ++ "\n")
  { state with uart_context := uart_send state.uart_context buffer }

/-- Function `show_menu`, on the list view `menu`; the caller stores the returned list
view back into the field it was taken from. -/
def show_menu (state : AppState) (commands : List MenuCommand) (command_count : Nat)
    (header : String) (menu : Submenu) (view_id : Nat) : Submenu × AppState :=
  let menu := submenu_reset menu
  let menu := submenu_set_header menu header
  let menu := (commands.take command_count).enum.foldl
    (fun m ic => submenu_add_item m ic.2.label ic.1) menu
  let last_index :=
    match view_id with
    | 1 => state.last_wifi_category_index
    | 10 => state.last_wifi_scanning_index
    | 11 => state.last_wifi_capture_index
    | 12 => state.last_wifi_attack_index
    | 13 => state.last_wifi_network_index
    | 14 => state.last_wifi_settings_index
    | 2 => state.last_ble_category_index
    | 20 => state.last_ble_scanning_index
    | 21 => state.last_ble_capture_index
    | 22 => state.last_ble_attack_index
    | 23 => state.last_ble_chameleon_index
    | 3 => state.last_gps_index
    | _ => 0
  let menu := if last_index < command_count then submenu_set_selected_item menu last_index else menu
  (menu, { state with
    view_dispatcher := view_dispatcher_switch_to_view state.view_dispatcher view_id,
    current_view := view_id,
    previous_view := view_id })

/-- Function `show_wifi_scanning_menu`. -/
def show_wifi_scanning_menu (state : AppState) : AppState :=
  let r := show_menu state wifi_scanning_commands wifi_scanning_commands.length
    "Scanning & Probing" state.wifi_scanning_menu 10
  { r.2 with wifi_scanning_menu := r.1 }

/-- Function `show_wifi_capture_menu`. -/
def show_wifi_capture_menu (h : HeaderDecls) (state : AppState) : AppState :=
  let r := show_menu state (wifi_capture_commands h) (wifi_capture_commands h).length
    "Packet Capture" state.wifi_capture_menu 11
  { r.2 with wifi_capture_menu := r.1 }

/-- Function `show_wifi_attack_menu`. -/
def show_wifi_attack_menu (state : AppState) : AppState :=
  let r := show_menu state wifi_attack_commands wifi_attack_commands.length
    "Attacks" state.wifi_attack_menu 12
  { r.2 with wifi_attack_menu := r.1 }

/-- Function `show_wifi_network_menu`. -/
def show_wifi_network_menu (state : AppState) : AppState :=
  let r := show_menu state wifi_network_commands wifi_network_commands.length
    "Portal & Network" state.wifi_network_menu 13
  { r.2 with wifi_network_menu := r.1 }

/-- Function `show_wifi_settings_menu`. -/
def show_wifi_settings_menu (state : AppState) : AppState :=
  let r := show_menu state wifi_settings_commands wifi_settings_commands.length
    "Settings & Hardware" state.wifi_settings_menu 14
  { r.2 with wifi_settings_menu := r.1 }

/-- Function `show_ble_scanning_menu`. -/
def show_ble_scanning_menu (h : HeaderDecls) (state : AppState) : AppState :=
  let r := show_menu state (ble_scanning_commands h) (ble_scanning_commands h).length
    "Scanning & Detection" state.ble_scanning_menu 20
  { r.2 with ble_scanning_menu := r.1 }

/-- Function `show_ble_capture_menu`. -/
def show_ble_capture_menu (h : HeaderDecls) (state : AppState) : AppState :=
  let r := show_menu state (ble_capture_commands h) (ble_capture_commands h).length
    "Packet Capture" state.ble_capture_menu 21
  { r.2 with ble_capture_menu := r.1 }

/-- Function `show_ble_attack_menu`. -/
def show_ble_attack_menu (state : AppState) : AppState :=
  let r := show_menu state ble_attack_commands ble_attack_commands.length
    "Attacks & Spoofing" state.ble_attack_menu 22
  { r.2 with ble_attack_menu := r.1 }

/-- Function `show_ble_chameleon_menu`. -/
def show_ble_chameleon_menu (state : AppState) : AppState :=
  let r := show_menu state ble_chameleon_commands ble_chameleon_commands.length
    "Chameleon RFID/NFC" state.ble_chameleon_menu 23
  { r.2 with ble_chameleon_menu := r.1 }

/-- Function `show_wifi_menu`. -/
def show_wifi_menu (state : AppState) : AppState :=
  let menu := submenu_reset state.wifi_menu
  let menu := submenu_set_header menu "WiFi Commands"
  let menu := submenu_add_item menu "Scanning & Probing" 0
  let menu := submenu_add_item menu "Packet Capture" 1
  let menu := submenu_add_item menu "Attacks" 2
  let menu := submenu_add_item menu "Evil Portal & Network" 3
  let menu := submenu_add_item menu wifi_stop_command.label 4
  let menu := submenu_set_selected_item menu state.last_wifi_category_index
  { state with
    wifi_menu := menu,
    view_dispatcher := view_dispatcher_switch_to_view state.view_dispatcher 1,
    current_view := 1 }

/-- Function `show_ble_menu`. -/
def show_ble_menu (state : AppState) : AppState :=
  let menu := submenu_reset state.ble_menu
  let menu := submenu_set_header menu "BLE Commands"
  let menu := submenu_add_item menu "Scanning & Detection >" 0
  let menu := submenu_add_item menu "Packet Capture >" 1
  let menu := submenu_add_item menu "Attacks & Spoofing >" 2
  let menu := submenu_add_item menu "Chameleon RFID/NFC >" 3
  let menu := submenu_add_item menu ble_stop_command.label 4
  let menu := submenu_set_selected_item menu state.last_ble_category_index
  { state with
    ble_menu := menu,
    view_dispatcher := view_dispatcher_switch_to_view state.view_dispatcher 2,
    current_view := 2 }

/-- Function `show_gps_menu`. -/
def show_gps_menu (state : AppState) : AppState :=
  let state := { state with came_from_settings := false }
  let r := show_menu state gps_commands gps_commands.length "GPS Commands:" state.gps_menu 3
  { r.2 with gps_menu := r.1 }

/-- Function `show_main_menu`. -/
def show_main_menu (state : AppState) : AppState :=
  let menu := main_menu_reset state.main_menu
  let menu := main_menu_set_header menu ""
  let menu := main_menu_add_item menu "WiFi" 0
  let menu := main_menu_add_item menu "BLE" 1
  let menu := main_menu_add_item menu "GPS" 2
  let menu := main_menu_add_item menu " SET" 3
  let menu := main_menu_set_help_callback menu
  { state with
    main_menu := menu,
    came_from_settings := false,
    view_dispatcher := view_dispatcher_switch_to_view state.view_dispatcher 0,
    current_view := 0 }

/-- The capture test of `menu.c`: `capture_prefix || file_ext || folder`. -/
def has_capture (command : MenuCommand) : Bool :=
  command.capture_prefix.isSome || command.file_ext.isSome || command.folder.isSome

/-- Function `confirmation_ok_callback`.  The context is absent when the pointer is null;
freeing it has no counterpart here. -/
def confirmation_ok_callback (context : Option MenuCommandContext) (state : AppState) :
    AppState :=
  match context with
  | some { state := true, command := some command } =>
    if has_capture command then
      let r := uart_receive_data state (c_str command.capture_prefix) (c_str command.file_ext)
        (c_str command.folder)
      if !r.1 then r.2
      else send_uart_command command.command r.2
    else
      let state := send_uart_command command.command state
      (uart_receive_data state "" "" "").2
  | _ => state

/-- Function `confirmation_cancel_callback`. -/
def confirmation_cancel_callback (context : Option MenuCommandContext) (state : AppState) :
    AppState :=
  match context with
  | some { state := true, command := _ } =>
    match state.previous_view with
    | 1 => show_wifi_menu state
    | 2 => show_ble_menu state
    | 3 => show_gps_menu state
    | _ => show_main_menu state
  | _ => state

/-- Function `app_info_ok_callback`. -/
def app_info_ok_callback (state : AppState) : AppState :=
  { state with
    view_dispatcher := view_dispatcher_switch_to_view state.view_dispatcher state.previous_view,
    current_view := state.previous_view }

/-- Function `show_command_details`. -/
def show_command_details (state : AppState) (command : MenuCommand) : AppState :=
  if command.details_header.isNone || command.details_text.isNone then state
  else
    let state := { state with previous_view := state.current_view }
    let cv := confirmation_view_set_header state.confirmation_view command.details_header
    let cv := confirmation_view_set_text cv command.details_text
    let cv := confirmation_view_set_ok_callback cv ModalCallback.app_info_ok_callback
    let cv := confirmation_view_set_cancel_callback cv ModalCallback.app_info_ok_callback
    { state with
      confirmation_view := cv,
      view_dispatcher := view_dispatcher_switch_to_view state.view_dispatcher 7,
      current_view := 7 }

/-- Function `error_callback`. -/
def error_callback (state : AppState) : AppState :=
  { state with
    view_dispatcher := view_dispatcher_switch_to_view state.view_dispatcher state.previous_view,
    current_view := state.previous_view }

/-- Function `text_input_result_callback`; the submitted text is in `input_buffer`. -/
def text_input_result_callback (h : HeaderDecls) (input_state : AppState) : AppState :=
  if input_state.connect_input_stage = 1 then
    let len := input_state.input_buffer.length
    let len := if len ≥ h.connect_ssid_size then h.connect_ssid_size - 1 else len
    let ti := text_input_reset input_state.text_input
    let ti := text_input_set_header_text ti (some "PASSWORD")
    let ti := text_input_set_result_callback ti 128 true
    { input_state with
      connect_ssid := take_bytes len input_state.input_buffer,
      connect_input_stage := 2,
      text_input := ti,
      view_dispatcher := view_dispatcher_switch_to_view input_state.view_dispatcher 6 }
  else
    let input_state :=
      if input_state.connect_input_stage = 2 then
        let buffer := snprintf 256
          ("connect \"" ++ input_state.connect_ssid ++ "\" \"" ++ input_state.input_buffer ++ "\"\n")
        { input_state with
          uart_context := uart_send input_state.uart_context buffer,
          connect_input_stage := 0,
          connect_ssid := "" }
      else
        send_uart_command_with_text input_state.uart_command input_state.input_buffer input_state
    (uart_receive_data input_state "" "" "").2

/-- The text-input view delivering a text: the toolkit writes it into `input_buffer` and
calls the registered result callback. -/
def submit_text (h : HeaderDecls) (text : String) (state : AppState) : AppState :=
  text_input_result_callback h { state with input_buffer := text }

/-- The statements shared by the three text-input branches of `execute_menu_command`:
remember the previous view, reset the text input, set its header and callback, show
view 6. -/
def begin_text_input (state : AppState) (header : Option String) : AppState :=
  let state := { state with previous_view := state.current_view }
  let ti := text_input_reset state.text_input
  let ti := text_input_set_header_text ti header
  let ti := text_input_set_result_callback ti 128 true
  { state with
    text_input := ti,
    view_dispatcher := view_dispatcher_switch_to_view state.view_dispatcher 6,
    current_view := 6 }

/-- The statements shared by the plain variant branches of `execute_menu_command`:
remember the previous view, show the terminal view, set the current view to 5, send. -/
def show_terminal_and_send (state : AppState) (command : String) : AppState :=
  let state := { state with previous_view := state.current_view }
  let state := (uart_receive_data state "" "" "").2
  let state := { state with current_view := 5 }
  send_uart_command command state

/-- Function `execute_menu_command`. -/
def execute_menu_command (h : HeaderDecls) (state : AppState) (command : MenuCommand) :
    AppState :=
  if !uart_is_esp_connected state.uart_context then
    let state := { state with previous_view := state.current_view }
    let cv := confirmation_view_set_header state.confirmation_view (some "Connection Error")
    let cv := confirmation_view_set_text cv (some "No response from ESP!\nIs a command running?\nRestart the app.\nRestart ESP.\nCheck UART Pins.\nReflash if issues persist.\nYou can disable this check in the settings menu.\n\n")
    let cv := confirmation_view_set_ok_callback cv ModalCallback.error_callback
    let cv := confirmation_view_set_cancel_callback cv ModalCallback.error_callback
    { state with
      confirmation_view := cv,
      view_dispatcher := view_dispatcher_switch_to_view state.view_dispatcher 7,
      current_view := 7 }
  else if command.needs_input && command.command == "connect" then
    let state := { state with connect_input_stage := 1, uart_command := some command.command }
    begin_text_input state (some "SSID")
  else if command.needs_input then
    let state := { state with uart_command := some command.command }
    begin_text_input state command.input_text
  else if command.needs_confirmation then
    let cmd_ctx : MenuCommandContext := { state := true, command := some command }
    let cv := confirmation_view_set_header state.confirmation_view command.confirm_header
    let cv := confirmation_view_set_text cv command.confirm_text
    let cv := confirmation_view_set_ok_callback cv (ModalCallback.confirmation_ok_callback cmd_ctx)
    let cv := confirmation_view_set_cancel_callback cv
      (ModalCallback.confirmation_cancel_callback cmd_ctx)
    { state with
      confirmation_view := cv,
      view_dispatcher := view_dispatcher_switch_to_view state.view_dispatcher 7 }
  else if state.current_view = 11 ∧ state.current_index = 0 then
    let current_sniff := sniff_at state.current_sniff_index
    match current_sniff.capture_prefix with
    | some pfx =>
      let state := { state with previous_view := state.current_view }
      let r := uart_receive_data state pfx "pcap" h.GHOST_ESP_APP_FOLDER_PCAPS
      if !r.1 then r.2
      else
        let state := send_uart_command current_sniff.command r.2
        { state with current_view := 5 }
    | none => show_terminal_and_send state current_sniff.command
  else if state.current_view = 12 ∧ state.current_index = 0 then
    let current_beacon := variant_at beacon_spam_commands state.current_beacon_index
    if state.current_beacon_index = beacon_spam_commands.length - 1 then
      let state := { state with uart_command := some current_beacon.command }
      begin_text_input state (some "SSID Name")
    else show_terminal_and_send state current_beacon.command
  else if state.current_view = 14 ∧ state.current_index = 0 then
    let current_rgb := variant_at rgbmode_commands state.current_rgb_index
    show_terminal_and_send state current_rgb.command
  else if state.current_view = 22 ∧ state.current_index = 0 then
    let current_ble_spam := variant_at ble_spam_commands state.current_ble_spam_index
    show_terminal_and_send state current_ble_spam.command
  else if has_capture command then
    let state := { state with previous_view := state.current_view }
    let r := uart_receive_data state (c_str command.capture_prefix) (c_str command.file_ext)
      (c_str command.folder)
    if !r.1 then r.2
    else
      let state := send_uart_command command.command r.2
      { state with current_view := 5 }
  else
    let state := { state with previous_view := state.current_view }
    let state := (uart_receive_data state "" "" "").2
    let state := send_uart_command command.command state
    { state with current_view := 5 }

/-- Function `handle_wifi_menu`. -/
def handle_wifi_menu (h : HeaderDecls) (state : AppState) (index : Nat) : AppState :=
  let r : Option MenuCommand × AppState :=
    match state.current_view with
    | 10 =>
      if index < wifi_scanning_commands.length then
        (wifi_scanning_commands.get? index, { state with last_wifi_scanning_index := index })
      else (none, state)
    | 11 =>
      if index < (wifi_capture_commands h).length then
        ((wifi_capture_commands h).get? index, { state with last_wifi_capture_index := index })
      else (none, state)
    | 12 =>
      if index < wifi_attack_commands.length then
        (wifi_attack_commands.get? index, { state with last_wifi_attack_index := index })
      else (none, state)
    | 13 =>
      if index < wifi_network_commands.length then
        (wifi_network_commands.get? index, { state with last_wifi_network_index := index })
      else (none, state)
    | 14 =>
      if index < wifi_settings_commands.length then
        (wifi_settings_commands.get? index, { state with last_wifi_settings_index := index })
      else (none, state)
    | _ => (none, state)
  match r.1 with
  | some command => execute_menu_command h r.2 command
  | none => r.2

/-- Function `handle_ble_menu`. -/
def handle_ble_menu (h : HeaderDecls) (state : AppState) (index : Nat) : AppState :=
  let r : Option MenuCommand × AppState :=
    match state.current_view with
    | 20 =>
      if index < (ble_scanning_commands h).length then
        ((ble_scanning_commands h).get? index, { state with last_ble_scanning_index := index })
      else (none, state)
    | 21 =>
      if index < (ble_capture_commands h).length then
        ((ble_capture_commands h).get? index, { state with last_ble_capture_index := index })
      else (none, state)
    | 22 =>
      if index < ble_attack_commands.length then
        (ble_attack_commands.get? index, { state with last_ble_attack_index := index })
      else (none, state)
    | 23 =>
      if index < ble_chameleon_commands.length then
        (ble_chameleon_commands.get? index, { state with last_ble_chameleon_index := index })
      else (none, state)
    | _ => (none, state)
  match r.1 with
  | some command => execute_menu_command h r.2 command
  | none => r.2

/-- Function `handle_gps_menu`. -/
def handle_gps_menu (h : HeaderDecls) (state : AppState) (index : Nat) : AppState :=
  match gps_commands.get? index with
  | some command => execute_menu_command h { state with last_gps_index := index } command
  | none => state

/-- Function `submenu_callback`. -/
def submenu_callback (h : HeaderDecls) (state : AppState) (index : Nat) : AppState :=
  let state := { state with current_index := index }
  match state.current_view with
  | 0 =>
    match index with
    | 0 => show_wifi_menu state
    | 1 => show_ble_menu state
    | 2 => show_gps_menu state
    | 3 =>
      { state with
        view_dispatcher := view_dispatcher_switch_to_view state.view_dispatcher 8,
        current_view := 8,
        previous_view := 8 }
    | _ => state
  | 1 =>
    let state := { state with last_wifi_category_index := index }
    match index with
    | 0 => show_wifi_scanning_menu state
    | 1 => show_wifi_capture_menu h state
    | 2 => show_wifi_attack_menu state
    | 3 => show_wifi_network_menu state
    | 4 => execute_menu_command h state wifi_stop_command
    | _ => state
  | 2 =>
    let state := { state with last_ble_category_index := index }
    match index with
    | 0 => show_ble_scanning_menu h state
    | 1 => show_ble_capture_menu h state
    | 2 => show_ble_attack_menu state
    | 3 => show_ble_chameleon_menu state
    | 4 => execute_menu_command h state ble_stop_command
    | _ => state
  | 3 => handle_gps_menu h state index
  | 20 | 21 | 22 | 23 => handle_ble_menu h state index
  | _ => state

/-- Function `show_menu_help`. -/
def show_menu_help (state : AppState) (_index : Nat) : AppState :=
  let state := { state with previous_view := state.current_view }
  let help_text := "=== Controls ===\nHold [Ok]\n    Show command details\nBack button returns to\nprevious menu\n\n=== File Locations ===\nPCAP files: /pcaps\nGPS data: /wardrive\n\n=== Tips ===\n- One capture at a time\n  for best performance\n- Hold OK on any command\n  to see range & details\n\n=== Settings ===\nConfigure options in\nSET menu including:\n- Auto-stop behavior\n- LED settings\n\nJoin the Discord\nfor support and\nto stay updated!\n"
  let cv := confirmation_view_set_header state.confirmation_view (some "Quick Help")
  let cv := confirmation_view_set_text cv (some help_text)
  let cv := confirmation_view_set_ok_callback cv ModalCallback.app_info_ok_callback
  let cv := confirmation_view_set_cancel_callback cv ModalCallback.app_info_ok_callback
  { state with
    confirmation_view := cv,
    view_dispatcher := view_dispatcher_switch_to_view state.view_dispatcher 7,
    current_view := 7 }

/-- The two identical `switch(state->previous_view)` blocks of `back_event_callback` (views
5 and 6): show the list view that is the previous view and re-select its remembered row,
or show the main menu.  In the view-5 block `case 23` is missing, which `with_23` tells
apart. -/
def restore_previous_menu (h : HeaderDecls) (with_23 : Bool) (state : AppState) : AppState :=
  match state.previous_view with
  | 1 =>
    let state := show_wifi_menu state
    { state with wifi_menu := submenu_set_selected_item state.wifi_menu state.last_wifi_category_index }
  | 10 =>
    let state := show_wifi_scanning_menu state
    { state with wifi_scanning_menu :=
        submenu_set_selected_item state.wifi_scanning_menu state.last_wifi_scanning_index }
  | 11 =>
    let state := show_wifi_capture_menu h state
    { state with wifi_capture_menu :=
        submenu_set_selected_item state.wifi_capture_menu state.last_wifi_capture_index }
  | 12 =>
    let state := show_wifi_attack_menu state
    { state with wifi_attack_menu :=
        submenu_set_selected_item state.wifi_attack_menu state.last_wifi_attack_index }
  | 13 =>
    let state := show_wifi_network_menu state
    { state with wifi_network_menu :=
        submenu_set_selected_item state.wifi_network_menu state.last_wifi_network_index }
  | 14 =>
    let state := show_wifi_settings_menu state
    { state with wifi_settings_menu :=
        submenu_set_selected_item state.wifi_settings_menu state.last_wifi_settings_index }
  | 2 =>
    let state := show_ble_menu state
    { state with ble_menu := submenu_set_selected_item state.ble_menu state.last_ble_category_index }
  | 20 =>
    let state := show_ble_scanning_menu h state
    { state with ble_scanning_menu :=
        submenu_set_selected_item state.ble_scanning_menu state.last_ble_scanning_index }
  | 21 =>
    let state := show_ble_capture_menu h state
    { state with ble_capture_menu :=
        submenu_set_selected_item state.ble_capture_menu state.last_ble_capture_index }
  | 22 =>
    let state := show_ble_attack_menu state
    { state with ble_attack_menu :=
        submenu_set_selected_item state.ble_attack_menu state.last_ble_attack_index }
  | 23 =>
    if with_23 then
      let state := show_ble_chameleon_menu state
      { state with ble_chameleon_menu :=
          submenu_set_selected_item state.ble_chameleon_menu state.last_ble_chameleon_index }
    else show_main_menu state
  | 3 =>
    let state := show_gps_menu state
    { state with gps_menu := submenu_set_selected_item state.gps_menu state.last_gps_index }
  | _ => show_main_menu state

/-- Function `back_event_callback`; the state is passed by value, so the null check of
the context has no counterpart. -/
def back_event_callback (h : HeaderDecls) (state : AppState) : Bool × AppState :=
  let current_view := state.current_view
  if current_view = 7 then (false, state)
  else if current_view = 5 then
    let state :=
      if state.settings.stop_on_back_index ≠ 0 then send_uart_command wifi_stop_command.command state
      else state
    let state :=
      if state.textBoxBuffer.isSome then { state with textBoxBuffer := some "", buffer_length := 0 }
      else state
    if state.previous_view = 8 ∨ state.previous_view = 4 then
      (true, { state with
        view_dispatcher := view_dispatcher_switch_to_view state.view_dispatcher state.previous_view,
        current_view := state.previous_view })
    else (true, restore_previous_menu h false state)
  else if current_view = 8 then
    (true, { show_main_menu state with current_view := 0 })
  else if current_view = 4 then
    (true, { state with
      view_dispatcher := view_dispatcher_switch_to_view state.view_dispatcher 8,
      current_view := 8 })
  else if current_view ≥ 1 ∧ current_view ≤ 3 then
    (true, { show_main_menu state with current_view := 0 })
  else if current_view ≥ 10 ∧ current_view ≤ 14 then
    if state.came_from_settings then
      (true, { state with
        view_dispatcher := view_dispatcher_switch_to_view state.view_dispatcher 8,
        current_view := 8 })
    else
      let state := show_wifi_menu state
      let state := { state with
        wifi_menu := submenu_set_selected_item state.wifi_menu state.last_wifi_category_index }
      (true, { state with current_view := 1 })
  else if current_view ≥ 20 ∧ current_view ≤ 23 then
    let state := show_ble_menu state
    let state := { state with
      ble_menu := submenu_set_selected_item state.ble_menu state.last_ble_category_index }
    (true, { state with current_view := 2 })
  else if current_view = 6 then
    let state :=
      if state.settings.stop_on_back_index ≠ 0 then send_uart_command wifi_stop_command.command state
      else state
    let state := { state with uart_command := none }
    (true, restore_previous_menu h true state)
  else if current_view = 0 then
    (true, { state with view_dispatcher := view_dispatcher_stop state.view_dispatcher })
  else (true, state)

/-- The list view, the way to store it back, the command table and its length that the
first `switch` of `menu_input_handler` selects for the current view; `none` where that
switch returns `false` (views 1 and 2 and every view without a command list). -/
def menu_context (h : HeaderDecls) (state : AppState) :
    Option (Submenu × (Submenu → AppState → AppState) × List MenuCommand) :=
  match state.current_view with
  | 20 => some (state.ble_scanning_menu, fun m s => { s with ble_scanning_menu := m },
      ble_scanning_commands h)
  | 21 => some (state.ble_capture_menu, fun m s => { s with ble_capture_menu := m },
      ble_capture_commands h)
  | 22 => some (state.ble_attack_menu, fun m s => { s with ble_attack_menu := m },
      ble_attack_commands)
  | 23 => some (state.ble_chameleon_menu, fun m s => { s with ble_chameleon_menu := m },
      ble_chameleon_commands)
  | 3 => some (state.gps_menu, fun m s => { s with gps_menu := m }, gps_commands)
  | 10 => some (state.wifi_scanning_menu, fun m s => { s with wifi_scanning_menu := m },
      wifi_scanning_commands)
  | 11 => some (state.wifi_capture_menu, fun m s => { s with wifi_capture_menu := m },
      wifi_capture_commands h)
  | 12 => some (state.wifi_attack_menu, fun m s => { s with wifi_attack_menu := m },
      wifi_attack_commands)
  | 13 => some (state.wifi_network_menu, fun m s => { s with wifi_network_menu := m },
      wifi_network_commands)
  | 14 => some (state.wifi_settings_menu, fun m s => { s with wifi_settings_menu := m },
      wifi_settings_commands)
  | _ => none

/-- The Up case of `menu_input_handler` (short press and repeat): the new highlighted
row. -/
def key_up (current_index commands_count : Nat) : Nat :=
  if current_index > 0 then current_index - 1 else commands_count - 1

/-- The Down case of `menu_input_handler` (short press and repeat): the new highlighted
row. -/
def key_down (current_index commands_count : Nat) : Nat :=
  if current_index < commands_count - 1 then current_index + 1 else 0

/-- The step of a cycle index under Right or Left, as written four times in
`menu_input_handler`. -/
def cycle_index (key : InputKey) (current count : Nat) : Nat :=
  if key = InputKey.InputKeyRight then (current + 1) % count
  else if current = 0 then count - 1 else current - 1

/-- The writes of the remembered selection in the short-press OK case of
`menu_input_handler`. -/
def save_last_selection (state : AppState) (current_index : Nat) : AppState :=
  if state.current_view ≥ 10 ∧ state.current_view ≤ 14 then
    match state.current_view with
    | 10 => { state with last_wifi_scanning_index := current_index }
    | 11 => { state with last_wifi_capture_index := current_index }
    | 12 => { state with last_wifi_attack_index := current_index }
    | 13 => { state with last_wifi_network_index := current_index }
    | 14 => { state with last_wifi_settings_index := current_index }
    | _ => state
  else if state.current_view ≥ 20 ∧ state.current_view ≤ 22 then
    match state.current_view with
    | 20 => { state with last_ble_scanning_index := current_index }
    | 21 => { state with last_ble_capture_index := current_index }
    | 22 => { state with last_ble_attack_index := current_index }
    | _ => state
  else if state.current_view = 3 then { state with last_gps_index := current_index }
  else state

/-- Function `menu_input_handler`; the event, the state and the list views are values, so
the null checks have no counterpart.  The result is `consumed` and the state afterwards. -/
def menu_input_handler (h : HeaderDecls) (event : InputEvent) (state : AppState) :
    Bool × AppState :=
  match menu_context h state with
  | none => (false, state)
  | some (current_menu, store, commands) =>
    let commands_count := commands.length
    let current_index := submenu_get_selected_item current_menu
    match event.type with
    | InputType.InputTypeShort =>
      match event.key with
      | InputKey.InputKeyUp =>
        (true, store (submenu_set_selected_item current_menu (key_up current_index commands_count))
          state)
      | InputKey.InputKeyDown =>
        (true, store
          (submenu_set_selected_item current_menu (key_down current_index commands_count)) state)
      | InputKey.InputKeyOk =>
        match commands.get? current_index with
        | some command =>
          let state := { state with current_index := current_index }
          let state := save_last_selection state current_index
          (true, execute_menu_command h state command)
        | none => (false, state)
      | InputKey.InputKeyBack =>
        if state.current_view ≥ 10 ∧ state.current_view ≤ 14 then
          if state.came_from_settings then
            (true, { state with
              view_dispatcher := view_dispatcher_switch_to_view state.view_dispatcher 8,
              current_view := 8 })
          else
            let state := show_wifi_menu state
            let state := { state with
              wifi_menu := submenu_set_selected_item state.wifi_menu state.last_wifi_category_index }
            (true, { state with current_view := 1 })
        else if state.current_view ≥ 20 ∧ state.current_view ≤ 22 then
          let state := show_ble_menu state
          let state := { state with
            ble_menu := submenu_set_selected_item state.ble_menu state.last_ble_category_index }
          (true, { state with current_view := 2 })
        else if state.current_view ≥ 1 ∧ state.current_view ≤ 3 then
          (true, { show_main_menu state with current_view := 0 })
        else (true, state)
      | InputKey.InputKeyRight | InputKey.InputKeyLeft =>
        if state.current_view = 11 ∧ current_index = 0 then
          let next := cycle_index event.key state.current_sniff_index sniff_commands.length
          let state := { state with current_sniff_index := next }
          (true, store (submenu_change_item_label current_menu current_index
            (sniff_at state.current_sniff_index).label) state)
        else if state.current_view = 12 ∧ current_index = 0 then
          let next := cycle_index event.key state.current_beacon_index beacon_spam_commands.length
          let state := { state with current_beacon_index := next }
          (true, store (submenu_change_item_label current_menu current_index
            (variant_at beacon_spam_commands state.current_beacon_index).label) state)
        else if state.current_view = 14 ∧ current_index = 0 then
          let next := cycle_index event.key state.current_rgb_index rgbmode_commands.length
          let state := { state with current_rgb_index := next }
          (true, store (submenu_change_item_label current_menu current_index
            (variant_at rgbmode_commands state.current_rgb_index).label) state)
        else if state.current_view = 22 ∧ current_index = 0 then
          let next := cycle_index event.key state.current_ble_spam_index ble_spam_commands.length
          let state := { state with current_ble_spam_index := next }
          (true, store (submenu_change_item_label current_menu current_index
            (variant_at ble_spam_commands state.current_ble_spam_index).label) state)
        else (false, state)
      | InputKey.InputKeyMAX => (false, state)
    | InputType.InputTypeLong =>
      match event.key with
      | InputKey.InputKeyOk =>
        match commands.get? current_index with
        | some command =>
          if command.details_header.isSome && command.details_text.isSome then
            (true, show_command_details state command)
          else (false, state)
        | none => (false, state)
      | _ => (false, state)
    | InputType.InputTypeRepeat =>
      match event.key with
      | InputKey.InputKeyUp =>
        (true, store (submenu_set_selected_item current_menu (key_up current_index commands_count))
          state)
      | InputKey.InputKeyDown =>
        (true, store
          (submenu_set_selected_item current_menu (key_down current_index commands_count)) state)
      | _ => (false, state)
    | _ => (false, state)

/-! ## The state at application start -/

/-- An empty list view. -/
def Submenu.empty : Submenu := { header := none, items := [], selected := 0 }

/-- A state as it is at application start, before any menu is shown: zero-initialised
navigation fields and cycle indices, empty widgets, and a transport with the given
answers that has sent nothing. -/
def initial_state (esp_connected file_opens : Bool) (stop_on_back_index : Nat) : AppState :=
  { view_dispatcher := { current_view := 0, stopped := false },
    main_menu := { header := none, items := [], help_callback := false },
    wifi_menu := Submenu.empty, ble_menu := Submenu.empty, gps_menu := Submenu.empty,
    wifi_scanning_menu := Submenu.empty, wifi_capture_menu := Submenu.empty,
    wifi_attack_menu := Submenu.empty, wifi_network_menu := Submenu.empty,
    wifi_settings_menu := Submenu.empty, ble_scanning_menu := Submenu.empty,
    ble_capture_menu := Submenu.empty, ble_attack_menu := Submenu.empty,
    ble_chameleon_menu := Submenu.empty,
    text_input := { header := none, result_callback := false, buffer_size := 0,
                    clear_default_text := false },
    confirmation_view := { header := none, text := none, ok_callback := ModalCallback.unset,
                           cancel_callback := ModalCallback.unset },
    uart_context := { esp_connected := esp_connected, file_opens := file_opens, sent := [],
                      opened := [] },
    settings := { stop_on_back_index := stop_on_back_index },
    current_view := 0, previous_view := 0, current_index := 0,
    last_wifi_category_index := 0, last_wifi_scanning_index := 0, last_wifi_capture_index := 0,
    last_wifi_attack_index := 0, last_wifi_network_index := 0, last_wifi_settings_index := 0,
    last_ble_category_index := 0, last_ble_scanning_index := 0, last_ble_capture_index := 0,
    last_ble_attack_index := 0, last_ble_chameleon_index := 0, last_gps_index := 0,
    came_from_settings := false, connect_input_stage := 0, connect_ssid := "",
    input_buffer := "", uart_command := none, textBoxBuffer := none, buffer_length := 0,
    current_rgb_index := 0, current_sniff_index := 0, current_beacon_index := 0,
    current_ble_spam_index := 0 }

/-- Header declarations used for concrete runs. -/
def sample_decls : HeaderDecls :=
  { GHOST_ESP_APP_FOLDER_PCAPS := "/ext/apps_data/ghost_esp/pcaps", connect_ssid_size := 128 }

/-! ## Definitions used by the statements -/

/-- The modal view running one of its registered callbacks with the context it was
registered with. -/
def run_modal_callback (cb : ModalCallback) (state : AppState) : AppState :=
  match cb with
  | ModalCallback.unset => state
  | ModalCallback.confirmation_ok_callback cmd_ctx => confirmation_ok_callback (some cmd_ctx) state
  | ModalCallback.confirmation_cancel_callback cmd_ctx =>
    confirmation_cancel_callback (some cmd_ctx) state
  | ModalCallback.app_info_ok_callback => app_info_ok_callback state
  | ModalCallback.error_callback => error_callback state

/-- The user pressing OK on the modal view. -/
def modal_ok (state : AppState) : AppState :=
  run_modal_callback state.confirmation_view.ok_callback state

/-- The user pressing Cancel on the modal view. -/
def modal_cancel (state : AppState) : AppState :=
  run_modal_callback state.confirmation_view.cancel_callback state

/-- The variable sniff slot: view 11, row 0. -/
def sniff_slot (state : AppState) : Prop :=
  state.current_view = 11 ∧ state.current_index = 0

/-- The three variant slots that send their variant without a capture sink: row 0 of the
beacon-spam page (12), of the RGB page (14) and of the BLE-spam page (22). -/
def plain_variant_slot (state : AppState) : Prop :=
  (state.current_view = 12 ∨ state.current_view = 14 ∨ state.current_view = 22) ∧
    state.current_index = 0

/-- A short press of a key on the active list view. -/
def press (h : HeaderDecls) (key : InputKey) (state : AppState) : AppState :=
  (menu_input_handler h { type := InputType.InputTypeShort, key := key } state).2

/-- A connect flow abandoned with Back: from the main menu into WiFi, Portal & Network,
down to Connect To WiFi, OK (the SSID prompt opens), then Back. -/
def abandoned_connect : AppState :=
  (back_event_callback sample_decls
    (press sample_decls InputKey.InputKeyOk
      (press sample_decls InputKey.InputKeyDown
        (press sample_decls InputKey.InputKeyDown
          (submenu_callback sample_decls
            (submenu_callback sample_decls (show_main_menu (initial_state true true 0)) 0)
            3))))).2

/-- The Evil Portal descriptor: entry 0 of wifi_network_commands, which needs input. -/
def evil_portal : MenuCommand :=
  wifi_network_commands.getD 0 wifi_stop_command

/-- The first two steps of the terminal-view block of `back_event_callback`: the stop
command when the stop-on-back setting is non-zero, then the reset of the text buffer. -/
def terminal_exit (state : AppState) : AppState :=
  let state :=
    if state.settings.stop_on_back_index ≠ 0 then send_uart_command wifi_stop_command.command state
    else state
  if state.textBoxBuffer.isSome then { state with textBoxBuffer := some "", buffer_length := 0 }
  else state

/-- The first two steps of the text-input block of `back_event_callback`: the stop command
when the stop-on-back setting is non-zero, then the pending command cleared. -/
def text_input_exit (state : AppState) : AppState :=
  let state :=
    if state.settings.stop_on_back_index ≠ 0 then send_uart_command wifi_stop_command.command state
    else state
  { state with uart_command := none }

/-- The terminal view reached from the Chameleon page: the page is shown, OK is pressed on
its first row (Connect) with the transport connected. -/
def chameleon_terminal : AppState :=
  press sample_decls InputKey.InputKeyOk (show_ble_chameleon_menu (initial_state true true 0))

/-- The operations of `menu.c`: its functions that act on the application state, each with
the arguments it is called with other than the state.  The text-input callback carries the
text the toolkit has written into `input_buffer`. -/
inductive Op where
  | send_uart_command (command : String)
  | send_uart_command_with_text (command : Option String) (text : String)
  | confirmation_ok_callback (context : Option MenuCommandContext)
  | confirmation_cancel_callback (context : Option MenuCommandContext)
  | app_info_ok_callback
  | show_command_details (command : MenuCommand)
  | error_callback
  | text_input_result_callback (text : String)
  | execute_menu_command (command : MenuCommand)
  | show_wifi_scanning_menu
  | show_wifi_capture_menu
  | show_wifi_attack_menu
  | show_wifi_network_menu
  | show_wifi_settings_menu
  | show_ble_scanning_menu
  | show_ble_capture_menu
  | show_ble_attack_menu
  | show_ble_chameleon_menu
  | show_wifi_menu
  | show_ble_menu
  | show_gps_menu
  | handle_wifi_menu (index : Nat)
  | handle_ble_menu (index : Nat)
  | handle_gps_menu (index : Nat)
  | submenu_callback (index : Nat)
  | show_menu_help (index : Nat)
  | back_event_callback
  | show_main_menu
  | menu_input_handler (event : InputEvent)
deriving DecidableEq, Repr

/-- The state after one operation of `menu.c`. -/
def apply_op (h : HeaderDecls) (op : Op) (state : AppState) : AppState :=
  match op with
  | Op.send_uart_command command => send_uart_command command state
  | Op.send_uart_command_with_text command text => send_uart_command_with_text command text state
  | Op.confirmation_ok_callback context => confirmation_ok_callback context state
  | Op.confirmation_cancel_callback context => confirmation_cancel_callback context state
  | Op.app_info_ok_callback => app_info_ok_callback state
  | Op.show_command_details command => show_command_details state command
  | Op.error_callback => error_callback state
  | Op.text_input_result_callback text => submit_text h text state
  | Op.execute_menu_command command => execute_menu_command h state command
  | Op.show_wifi_scanning_menu => show_wifi_scanning_menu state
  | Op.show_wifi_capture_menu => show_wifi_capture_menu h state
  | Op.show_wifi_attack_menu => show_wifi_attack_menu state
  | Op.show_wifi_network_menu => show_wifi_network_menu state
  | Op.show_wifi_settings_menu => show_wifi_settings_menu state
  | Op.show_ble_scanning_menu => show_ble_scanning_menu h state
  | Op.show_ble_capture_menu => show_ble_capture_menu h state
  | Op.show_ble_attack_menu => show_ble_attack_menu state
  | Op.show_ble_chameleon_menu => show_ble_chameleon_menu state
  | Op.show_wifi_menu => show_wifi_menu state
  | Op.show_ble_menu => show_ble_menu state
  | Op.show_gps_menu => show_gps_menu state
  | Op.handle_wifi_menu index => handle_wifi_menu h state index
  | Op.handle_ble_menu index => handle_ble_menu h state index
  | Op.handle_gps_menu index => handle_gps_menu h state index
  | Op.submenu_callback index => submenu_callback h state index
  | Op.show_menu_help index => show_menu_help state index
  | Op.back_event_callback => (back_event_callback h state).2
  | Op.show_main_menu => show_main_menu state
  | Op.menu_input_handler event => (menu_input_handler h event state).2

/-- The state after a sequence of operations of `menu.c`, first to last. -/
def run_ops (h : HeaderDecls) (ops : List Op) (state : AppState) : AppState :=
  ops.foldl (fun st op => apply_op h op st) state

/-- The navigation invariant behind the came_from_settings flag: whenever the main menu is
the current view or the remembered previous view, the flag is false. -/
def nav_inv (state : AppState) : Prop :=
  (state.current_view = 0 ∨ state.previous_view = 0) → state.came_from_settings = false

/-- A step from `before` to `after` that is harmless for `nav_inv`: it clears the flag, or it
keeps the flag and can put view 0 into current_view or previous_view only if one of the two
held it before. -/
def nav_step (before after : AppState) : Prop :=
  after.came_from_settings = false ∨
    (after.came_from_settings = before.came_from_settings ∧
      (after.current_view = 0 → before.current_view = 0 ∨ before.previous_view = 0) ∧
      (after.previous_view = 0 → before.current_view = 0 ∨ before.previous_view = 0))

/-- A step from `before` to `after` that reaches the main menu only with the flag cleared:
it clears the flag, or current_view is 0 afterwards only if it was 0 before. -/
def main_step (before after : AppState) : Prop :=
  after.came_from_settings = false ∨ (after.current_view = 0 → before.current_view = 0)

/-- A state on the Settings & Hardware page (view 14) with the came_from_settings flag
set. -/
def flagged_settings_page : AppState :=
  { show_wifi_settings_menu (initial_state true true 0) with came_from_settings := true }

/-- The confirmation prompt of Cast Random Video: the Portal & Network page is shown, row 3
is highlighted with three presses of Down, and OK is pressed with the transport
connected. -/
def cast_video_prompt : AppState :=
  press sample_decls InputKey.InputKeyOk
    (press sample_decls InputKey.InputKeyDown
      (press sample_decls InputKey.InputKeyDown
        (press sample_decls InputKey.InputKeyDown
          (show_wifi_network_menu (initial_state true true 0)))))

/-- The sniff page left and entered again after one cycle step: the page is shown from the
WiFi category list, Right is pressed once on row 0, Back is pressed, and row 1 of the
category list is selected again. -/
def reentered_sniff_page : AppState :=
  submenu_callback sample_decls
    (press sample_decls InputKey.InputKeyBack
      (press sample_decls InputKey.InputKeyRight
        (submenu_callback sample_decls (show_wifi_menu (initial_state true true 0)) 1)))
    1

/-- The catalog: the five WiFi tables, the four BLE tables, the GPS table and the two stop
descriptors. -/
def catalog (h : HeaderDecls) : List MenuCommand :=
  wifi_scanning_commands ++ wifi_capture_commands h ++ wifi_attack_commands ++
    wifi_network_commands ++ wifi_settings_commands ++
    ble_scanning_commands h ++ ble_capture_commands h ++ ble_attack_commands ++
    ble_chameleon_commands ++ gps_commands ++ [wifi_stop_command, ble_stop_command]

/-- The capture triple of a descriptor is set together: the three fields are all present
or all absent. -/
def capture_triple_ok (command : MenuCommand) : Bool :=
  (command.capture_prefix.isSome && command.file_ext.isSome && command.folder.isSome) ||
    (command.capture_prefix.isNone && command.file_ext.isNone && command.folder.isNone)

/-- The last byte of the string is a newline. -/
def ends_with_newline (s : String) : Bool :=
  s.data.getLast? == some '\n'

/-- The Device Settings page with row 2, Show SD Pin Config, highlighted: the page is shown
and Down is pressed twice, transport connected. -/
def sd_config_row : AppState :=
  press sample_decls InputKey.InputKeyDown
    (press sample_decls InputKey.InputKeyDown
      (show_wifi_settings_menu (initial_state true true 0)))

/-- The Chameleon page with row 3 highlighted: the page is shown and Down is pressed three
times, transport connected. -/
def chameleon_row3 : AppState :=
  press sample_decls InputKey.InputKeyDown
    (press sample_decls InputKey.InputKeyDown
      (press sample_decls InputKey.InputKeyDown
        (show_ble_chameleon_menu (initial_state true true 0))))

/-- The remembered-selection slot that belongs to a leaf list view. -/
def remembered_selection (view : Nat) (state : AppState) : Nat :=
  match view with
  | 3 => state.last_gps_index
  | 10 => state.last_wifi_scanning_index
  | 11 => state.last_wifi_capture_index
  | 12 => state.last_wifi_attack_index
  | 13 => state.last_wifi_network_index
  | 14 => state.last_wifi_settings_index
  | 20 => state.last_ble_scanning_index
  | 21 => state.last_ble_capture_index
  | 22 => state.last_ble_attack_index
  | 23 => state.last_ble_chameleon_index
  | _ => 0

/-- The twelve remembered-selection slots of the state. -/
def remembered_slots (state : AppState) : List Nat :=
  [state.last_wifi_category_index, state.last_wifi_scanning_index,
    state.last_wifi_capture_index, state.last_wifi_attack_index,
    state.last_wifi_network_index, state.last_wifi_settings_index,
    state.last_ble_category_index, state.last_ble_scanning_index,
    state.last_ble_capture_index, state.last_ble_attack_index,
    state.last_ble_chameleon_index, state.last_gps_index]

/-- The four cycle indices of the variant tables. -/
def cycle_indices (state : AppState) : List Nat :=
  [state.current_sniff_index, state.current_beacon_index, state.current_rgb_index,
    state.current_ble_spam_index]

/-- The number of rows of a list view: the main menu, the two category lists, the GPS list
and the leaf pages; 0 for every view that is not a list. -/
def row_count (h : HeaderDecls) (view : Nat) : Nat :=
  match view with
  | 0 => 4
  | 1 => 5
  | 2 => 5
  | 3 => gps_commands.length
  | 10 => wifi_scanning_commands.length
  | 11 => (wifi_capture_commands h).length
  | 12 => wifi_attack_commands.length
  | 13 => wifi_network_commands.length
  | 14 => wifi_settings_commands.length
  | 20 => (ble_scanning_commands h).length
  | 21 => (ble_capture_commands h).length
  | 22 => ble_attack_commands.length
  | 23 => ble_chameleon_commands.length
  | _ => 0

/-- Every cycle index is below the length of its variant table. -/
def cycle_inv (state : AppState) : Prop :=
  state.current_sniff_index < sniff_commands.length ∧
  state.current_beacon_index < beacon_spam_commands.length ∧
  state.current_rgb_index < rgbmode_commands.length ∧
  state.current_ble_spam_index < ble_spam_commands.length

/-- A step from `before` to `after` that keeps every cycle index below the length of its
table. -/
def cycle_step (before after : AppState) : Prop :=
  cycle_inv before → cycle_inv after

/-! ## Frame lemmas: the show functions leave the transport alone -/

theorem show_menu_uart (state : AppState) (commands : List MenuCommand) (n : Nat)
    (header : String) (menu : Submenu) (v : Nat) :
    (show_menu state commands n header menu v).2.uart_context = state.uart_context := rfl

theorem show_wifi_menu_uart (state : AppState) :
    (show_wifi_menu state).uart_context = state.uart_context := rfl

theorem show_ble_menu_uart (state : AppState) :
    (show_ble_menu state).uart_context = state.uart_context := rfl

theorem show_gps_menu_uart (state : AppState) :
    (show_gps_menu state).uart_context = state.uart_context := rfl

theorem show_main_menu_uart (state : AppState) :
    (show_main_menu state).uart_context = state.uart_context := rfl

/-- Canceling a confirmation never touches the transport, whatever the context. -/
theorem confirmation_cancel_uart (context : Option MenuCommandContext) (state : AppState) :
    (confirmation_cancel_callback context state).uart_context = state.uart_context := by
  unfold confirmation_cancel_callback
  split
  · split <;> rfl
  · rfl

/-! ## C1 -/

/-- C1: with the transport connected, executing a descriptor with needs_confirmation set and
needs_input clear leaves the transport untouched (nothing sent, no sink requested) and
registers confirmation_ok_callback and confirmation_cancel_callback on the context holding
the state and this descriptor; pressing Cancel afterwards runs confirmation_cancel_callback
on that context and again sends nothing.  So only the OK callback can send the command. -/
theorem execute_confirmation_sends_nothing (h : HeaderDecls) (state : AppState)
    (command : MenuCommand)
    (hconn : state.uart_context.esp_connected = true)
    (hconf : command.needs_confirmation = true)
    (hinput : command.needs_input = false) :
    (execute_menu_command h state command).uart_context = state.uart_context ∧
    (execute_menu_command h state command).confirmation_view.ok_callback =
      ModalCallback.confirmation_ok_callback { state := true, command := some command } ∧
    (execute_menu_command h state command).confirmation_view.cancel_callback =
      ModalCallback.confirmation_cancel_callback { state := true, command := some command } ∧
    modal_cancel (execute_menu_command h state command) =
      confirmation_cancel_callback (some { state := true, command := some command })
        (execute_menu_command h state command) ∧
    (modal_cancel (execute_menu_command h state command)).uart_context.sent =
      state.uart_context.sent := by
  have hex : execute_menu_command h state command =
      { state with
        confirmation_view :=
          { header := command.confirm_header, text := command.confirm_text,
            ok_callback :=
              ModalCallback.confirmation_ok_callback { state := true, command := some command },
            cancel_callback :=
              ModalCallback.confirmation_cancel_callback
                { state := true, command := some command } },
        view_dispatcher := view_dispatcher_switch_to_view state.view_dispatcher 7 } := by
    simp [execute_menu_command, uart_is_esp_connected, hconn, hconf, hinput,
      confirmation_view_set_header, confirmation_view_set_text,
      confirmation_view_set_ok_callback, confirmation_view_set_cancel_callback]
  rw [hex]
  refine ⟨rfl, rfl, rfl, rfl, ?_⟩
  simp only [modal_cancel, run_modal_callback, confirmation_cancel_uart]

/-- Witness of C1 on the Reboot Device descriptor. -/
theorem execute_confirmation_sends_nothing_witness :
    (initial_state true true 0).uart_context.esp_connected = true ∧
    (wifi_settings_commands.getD 10 wifi_stop_command).needs_confirmation = true ∧
    (modal_cancel (execute_menu_command sample_decls (initial_state true true 0)
      (wifi_settings_commands.getD 10 wifi_stop_command))).uart_context.sent = [] :=
  ⟨rfl, rfl, (execute_confirmation_sends_nothing sample_decls (initial_state true true 0)
    (wifi_settings_commands.getD 10 wifi_stop_command) rfl rfl rfl).2.2.2.2⟩

/-! ## C2 -/

/-- C2: when the transport reports not connected, executing any descriptor leaves the
transport untouched, sets the modal header to Connection Error, registers error_callback for
OK and Cancel, sets previous_view to the view that was active and current_view to 7; pressing
OK or Cancel then sets current_view back to the view that was active, again without touching
the transport. -/
theorem execute_not_connected (h : HeaderDecls) (state : AppState) (command : MenuCommand)
    (hdisc : state.uart_context.esp_connected = false) :
    (execute_menu_command h state command).uart_context = state.uart_context ∧
    (execute_menu_command h state command).confirmation_view.header = some "Connection Error" ∧
    (execute_menu_command h state command).confirmation_view.ok_callback =
      ModalCallback.error_callback ∧
    (execute_menu_command h state command).confirmation_view.cancel_callback =
      ModalCallback.error_callback ∧
    (execute_menu_command h state command).previous_view = state.current_view ∧
    (execute_menu_command h state command).current_view = 7 ∧
    (modal_ok (execute_menu_command h state command)).current_view = state.current_view ∧
    (modal_cancel (execute_menu_command h state command)).current_view = state.current_view ∧
    (modal_ok (execute_menu_command h state command)).uart_context = state.uart_context ∧
    (modal_cancel (execute_menu_command h state command)).uart_context = state.uart_context := by
  simp [execute_menu_command, uart_is_esp_connected, hdisc, modal_ok, modal_cancel,
    run_modal_callback, error_callback, confirmation_view_set_header,
    confirmation_view_set_text, confirmation_view_set_ok_callback,
    confirmation_view_set_cancel_callback]

/-- Witness of C2: the Deauth row of the attack page with the transport disconnected. -/
theorem execute_not_connected_witness :
    (show_wifi_attack_menu (initial_state false true 0)).uart_context.esp_connected = false ∧
    (execute_menu_command sample_decls (show_wifi_attack_menu (initial_state false true 0))
      (wifi_attack_commands.getD 1 wifi_stop_command)).current_view = 7 ∧
    (modal_ok (execute_menu_command sample_decls (show_wifi_attack_menu (initial_state false true 0))
      (wifi_attack_commands.getD 1 wifi_stop_command))).current_view = 12 :=
  ⟨rfl, (execute_not_connected sample_decls (show_wifi_attack_menu (initial_state false true 0))
      (wifi_attack_commands.getD 1 wifi_stop_command) rfl).2.2.2.2.2.1,
    (execute_not_connected sample_decls (show_wifi_attack_menu (initial_state false true 0))
      (wifi_attack_commands.getD 1 wifi_stop_command) rfl).2.2.2.2.2.2.1⟩

/-! ## C3 -/

/-- C3: a capture-bearing dispatch is a descriptor with any capture field set, or the
variable sniff slot (view 11, row 0, cycle index inside its table), that reaches the opening
of its capture sink: needs_input is clear and the dispatch is not made from row 0 of the
beacon-spam, RGB or BLE-spam page.  With the transport connected and the sink failing to
open, execute_menu_command sends nothing and current_view on return is current_view on
entry. -/
theorem execute_capture_open_fails (h : HeaderDecls) (state : AppState) (command : MenuCommand)
    (hconn : state.uart_context.esp_connected = true)
    (hfail : state.uart_context.file_opens = false)
    (hinput : command.needs_input = false)
    (hcap : has_capture command = true ∨ sniff_slot state)
    (hplain : ¬ plain_variant_slot state)
    (hidx : sniff_slot state → state.current_sniff_index < sniff_commands.length) :
    (execute_menu_command h state command).uart_context.sent = state.uart_context.sent ∧
    (execute_menu_command h state command).current_view = state.current_view := by
  by_cases hconf : command.needs_confirmation = true
  · simp [execute_menu_command, uart_is_esp_connected, hconn, hconf, hinput]
  · by_cases hs : sniff_slot state
    · have hlt := hidx hs
      obtain ⟨pfx, hp⟩ : ∃ pfx, SniffCommandDef.capture_prefix (sniff_at state.current_sniff_index) = some pfx := by
        have : state.current_sniff_index < 7 := hlt
        unfold sniff_at sniff_commands
        interval_cases state.current_sniff_index <;> simp
      obtain ⟨hv, hi⟩ := hs
      simp [execute_menu_command, uart_is_esp_connected, hconn, hconf, hinput, hv, hi, hp,
        uart_receive_data, hfail]
    · have hc : has_capture command = true := hcap.resolve_right hs
      have h11 : ¬ (state.current_view = 11 ∧ state.current_index = 0) := hs
      have h12 : ¬ (state.current_view = 12 ∧ state.current_index = 0) :=
        fun hh => hplain ⟨Or.inl hh.1, hh.2⟩
      have h14 : ¬ (state.current_view = 14 ∧ state.current_index = 0) :=
        fun hh => hplain ⟨Or.inr (Or.inl hh.1), hh.2⟩
      have h22 : ¬ (state.current_view = 22 ∧ state.current_index = 0) :=
        fun hh => hplain ⟨Or.inr (Or.inr hh.1), hh.2⟩
      simp only [execute_menu_command, uart_is_esp_connected, hconn, hinput, hc,
        uart_receive_data, hfail, if_neg h11, if_neg h12, if_neg h14, if_neg h22]
      simp [hconf]

/-- Witness of C3: the BLE raw capture row with the sink failing to open. -/
theorem execute_capture_open_fails_witness :
    has_capture ((ble_capture_commands sample_decls).getD 0 wifi_stop_command) = true ∧
    (execute_menu_command sample_decls (show_ble_capture_menu sample_decls
        (initial_state true false 0))
      ((ble_capture_commands sample_decls).getD 0 wifi_stop_command)).uart_context.sent = [] ∧
    (execute_menu_command sample_decls (show_ble_capture_menu sample_decls
        (initial_state true false 0))
      ((ble_capture_commands sample_decls).getD 0 wifi_stop_command)).current_view = 21 :=
  ⟨rfl, execute_capture_open_fails sample_decls
    (show_ble_capture_menu sample_decls (initial_state true false 0))
    ((ble_capture_commands sample_decls).getD 0 wifi_stop_command) rfl rfl rfl (Or.inl rfl)
    (by unfold plain_variant_slot; decide) (fun _ => by decide)⟩

/-! ## Frame lemmas for the capture sink -/

theorem uart_receive_data_sent (state : AppState) (pfx ext folder : String) :
    (uart_receive_data state pfx ext folder).2.uart_context.sent = state.uart_context.sent := by
  cases hopen : state.uart_context.file_opens <;> simp [uart_receive_data, hopen]

theorem uart_receive_data_current_view (state : AppState) (pfx ext folder : String) :
    (uart_receive_data state pfx ext folder).2.current_view = state.current_view := by
  cases hopen : state.uart_context.file_opens <;> simp [uart_receive_data, hopen]

theorem uart_receive_data_previous_view (state : AppState) (pfx ext folder : String) :
    (uart_receive_data state pfx ext folder).2.previous_view = state.previous_view := by
  cases hopen : state.uart_context.file_opens <;> simp [uart_receive_data, hopen]

theorem uart_receive_data_text_input (state : AppState) (pfx ext folder : String) :
    (uart_receive_data state pfx ext folder).2.text_input = state.text_input := by
  cases hopen : state.uart_context.file_opens <;> simp [uart_receive_data, hopen]

/-! ## String lemmas for the formatting steps -/

theorem snprintf_fits (size : Nat) (text : String) (hfit : text.length ≤ size - 1) :
    snprintf size text = text := by
  unfold snprintf
  have : text.data.length ≤ size - 1 := hfit
  rw [List.take_of_length_le this]

/-- C5, the code at the failing input: after a connect flow abandoned with Back the page
Portal & Network is shown again with the transport connected and nothing sent, but
connect_input_stage is still 1.  Executing Evil Portal then shows view 6 with its prompt
and remembers startportal, and submitting the text x sends nothing at all: the submission is
taken for the SSID of the connect flow, the stage becomes 2 and the prompt PASSWORD, where
the claim has the single send of startportal x and a newline. -/
theorem stale_connect_stage_swallows_input :
    abandoned_connect.current_view = 13 ∧
    abandoned_connect.uart_context.esp_connected = true ∧
    abandoned_connect.uart_context.sent = [] ∧
    abandoned_connect.connect_input_stage = 1 ∧
    evil_portal.needs_input = true ∧
    evil_portal.command = "startportal" ∧
    (execute_menu_command sample_decls abandoned_connect evil_portal).current_view = 6 ∧
    (execute_menu_command sample_decls abandoned_connect evil_portal).text_input.header =
      evil_portal.input_text ∧
    (execute_menu_command sample_decls abandoned_connect evil_portal).uart_command =
      some "startportal" ∧
    (submit_text sample_decls "x"
      (execute_menu_command sample_decls abandoned_connect evil_portal)).uart_context.sent = [] ∧
    (submit_text sample_decls "x"
      (execute_menu_command sample_decls abandoned_connect evil_portal)).connect_input_stage = 2 ∧
    (submit_text sample_decls "x"
      (execute_menu_command sample_decls abandoned_connect evil_portal)).text_input.header =
      some "PASSWORD" := by
  refine ⟨?_, ?_, ?_, ?_, ?_, ?_, ?_, ?_, ?_, ?_, ?_, ?_⟩ <;> decide

/-- The text-input flow where no connect flow is in progress: for a descriptor that needs
input and is not the connect command, with the stage neither 1 nor 2 and the command and
the text together at most 253 bytes, the submission adds exactly one send, the command, a
blank, the text and a newline. -/
theorem text_input_flow_sends (h : HeaderDecls) (state : AppState) (command : MenuCommand)
    (text : String)
    (hconn : state.uart_context.esp_connected = true)
    (hinput : command.needs_input = true)
    (hne : command.command ≠ "connect")
    (h1 : state.connect_input_stage ≠ 1) (h2 : state.connect_input_stage ≠ 2)
    (hfit : command.command.length + text.length ≤ 253) :
    (execute_menu_command h state command).uart_context.sent = state.uart_context.sent ∧
    (execute_menu_command h state command).current_view = 6 ∧
    (execute_menu_command h state command).text_input.header = command.input_text ∧
    (execute_menu_command h state command).uart_command = some command.command ∧
    (submit_text h text (execute_menu_command h state command)).uart_context.sent =
      state.uart_context.sent ++ [command.command ++ " " ++ text ++ "\n"] := by
  have hline : snprintf 256 (command.command ++ " " ++ text ++ "\n") =
      command.command ++ " " ++ text ++ "\n" := by
    apply snprintf_fits
    simp only [String.length_append]
    have e1 : " ".length = 1 := by decide
    have e2 : "\n".length = 1 := by decide
    omega
  simp [submit_text, text_input_result_callback, execute_menu_command, uart_is_esp_connected,
    hconn, hinput, hne, h1, h2, begin_text_input, uart_receive_data_sent,
    send_uart_command_with_text, uart_send, text_input_reset, text_input_set_header_text,
    text_input_set_result_callback, c_str, hline]

/-! ## C6 -/

/-- Short-press OK on row 0 of the sniff page with the transport connected and the sink
opening: the variant of the cycle index is sent after its sink is requested. -/
theorem press_ok_sniff_slot (h : HeaderDecls) (state : AppState)
    (hconn : state.uart_context.esp_connected = true)
    (hv : state.current_view = 11) (hsel : state.wifi_capture_menu.selected = 0)
    (hopen : state.uart_context.file_opens = true)
    (hidx : state.current_sniff_index < sniff_commands.length) :
    (press h InputKey.InputKeyOk state).uart_context.sent =
      state.uart_context.sent ++ [(sniff_at state.current_sniff_index).command] ∧
    (press h InputKey.InputKeyOk state).uart_context.opened =
      state.uart_context.opened ++
        [(c_str (SniffCommandDef.capture_prefix (sniff_at state.current_sniff_index)), "pcap",
          h.GHOST_ESP_APP_FOLDER_PCAPS)] ∧
    (press h InputKey.InputKeyOk state).previous_view = 11 ∧
    (press h InputKey.InputKeyOk state).current_view = 5 := by
  obtain ⟨pfx, hp⟩ : ∃ pfx,
      SniffCommandDef.capture_prefix (sniff_at state.current_sniff_index) = some pfx := by
    have : state.current_sniff_index < 7 := hidx
    unfold sniff_at sniff_commands
    interval_cases state.current_sniff_index <;> simp
  simp [press, menu_input_handler, menu_context, hv, hsel, submenu_get_selected_item,
    wifi_capture_commands, save_last_selection, execute_menu_command,
    uart_is_esp_connected, hconn, hp, uart_receive_data, hopen, send_uart_command,
    uart_send, c_str]

/-- C6: short-press OK on row 0 of a cyclable page with the transport connected sends the
command of the variant the cycle index selects, once, sets previous_view to the page and
current_view to 5.  On the sniff page (11) this holds for every index of sniff_commands
when the capture sink opens, and the sink is requested with that variant's prefix, the
extension pcap and the capture folder; on the beacon-spam page (12) for every index but the
last (custom) one; on the RGB page (14) and the BLE-spam page (22) for every index of their
tables.  At index 0 on view 11 the bytes sent are capture -wps and a newline. -/
theorem variant_slot_dispatch (h : HeaderDecls) (state : AppState)
    (hconn : state.uart_context.esp_connected = true) :
    (state.current_view = 11 → state.wifi_capture_menu.selected = 0 →
      state.uart_context.file_opens = true →
      state.current_sniff_index < sniff_commands.length →
      (press h InputKey.InputKeyOk state).uart_context.sent =
        state.uart_context.sent ++ [(sniff_at state.current_sniff_index).command] ∧
      (press h InputKey.InputKeyOk state).uart_context.opened =
        state.uart_context.opened ++
          [(c_str (SniffCommandDef.capture_prefix (sniff_at state.current_sniff_index)), "pcap",
            h.GHOST_ESP_APP_FOLDER_PCAPS)] ∧
      (press h InputKey.InputKeyOk state).previous_view = 11 ∧
      (press h InputKey.InputKeyOk state).current_view = 5 ∧
      (state.current_sniff_index = 0 →
        (press h InputKey.InputKeyOk state).uart_context.sent =
          state.uart_context.sent ++ ["capture -wps\n"])) ∧
    (state.current_view = 12 → state.wifi_attack_menu.selected = 0 →
      state.current_beacon_index < beacon_spam_commands.length - 1 →
      (press h InputKey.InputKeyOk state).uart_context.sent =
        state.uart_context.sent ++
          [(variant_at beacon_spam_commands state.current_beacon_index).command] ∧
      (press h InputKey.InputKeyOk state).previous_view = 12 ∧
      (press h InputKey.InputKeyOk state).current_view = 5) ∧
    (state.current_view = 14 → state.wifi_settings_menu.selected = 0 →
      state.current_rgb_index < rgbmode_commands.length →
      (press h InputKey.InputKeyOk state).uart_context.sent =
        state.uart_context.sent ++ [(variant_at rgbmode_commands state.current_rgb_index).command] ∧
      (press h InputKey.InputKeyOk state).previous_view = 14 ∧
      (press h InputKey.InputKeyOk state).current_view = 5) ∧
    (state.current_view = 22 → state.ble_attack_menu.selected = 0 →
      state.current_ble_spam_index < ble_spam_commands.length →
      (press h InputKey.InputKeyOk state).uart_context.sent =
        state.uart_context.sent ++
          [(variant_at ble_spam_commands state.current_ble_spam_index).command] ∧
      (press h InputKey.InputKeyOk state).previous_view = 22 ∧
      (press h InputKey.InputKeyOk state).current_view = 5) := by
  refine ⟨?_, ?_, ?_, ?_⟩
  · intro hv hsel hopen hidx
    obtain ⟨hsent, hopened, hprev, hcur⟩ := press_ok_sniff_slot h state hconn hv hsel hopen hidx
    refine ⟨hsent, hopened, hprev, hcur, ?_⟩
    intro h0
    rw [hsent, h0]
    rfl
  · intro hv hsel hidx
    have hne : state.current_beacon_index ≠ beacon_spam_commands.length - 1 := by omega
    simp [press, menu_input_handler, menu_context, hv, hsel, submenu_get_selected_item,
      wifi_attack_commands, save_last_selection, execute_menu_command,
      uart_is_esp_connected, hconn, hne, show_terminal_and_send, uart_receive_data_sent,
      uart_receive_data_previous_view, send_uart_command, uart_send]
  · intro hv hsel _
    simp [press, menu_input_handler, menu_context, hv, hsel, submenu_get_selected_item,
      wifi_settings_commands, save_last_selection, execute_menu_command,
      uart_is_esp_connected, hconn, show_terminal_and_send, uart_receive_data_sent,
      uart_receive_data_previous_view, send_uart_command, uart_send]
  · intro hv hsel _
    simp [press, menu_input_handler, menu_context, hv, hsel, submenu_get_selected_item,
      ble_attack_commands, save_last_selection, execute_menu_command,
      uart_is_esp_connected, hconn, show_terminal_and_send, uart_receive_data_sent,
      uart_receive_data_previous_view, send_uart_command, uart_send]

/-- Witness of C6: the freshly shown sniff page at cycle index 0. -/
theorem variant_slot_dispatch_witness :
    (show_wifi_capture_menu sample_decls (initial_state true true 0)).current_view = 11 ∧
    (press sample_decls InputKey.InputKeyOk
      (show_wifi_capture_menu sample_decls (initial_state true true 0))).uart_context.sent =
      [] ++ ["capture -wps\n"] :=
  ⟨rfl, ((variant_slot_dispatch sample_decls
    (show_wifi_capture_menu sample_decls (initial_state true true 0)) rfl).1
    rfl rfl rfl (by decide)).2.2.2.2 rfl⟩

/-! ## C7 -/

theorem cycle_index_right (current count : Nat) :
    cycle_index InputKey.InputKeyRight current count = (current + 1) % count := by
  simp [cycle_index]

theorem cycle_index_left (current count : Nat) (hlt : current < count) :
    cycle_index InputKey.InputKeyLeft current count = (current + count - 1) % count := by
  simp only [cycle_index, if_neg (by decide : ¬ InputKey.InputKeyLeft = InputKey.InputKeyRight)]
  by_cases h0 : current = 0
  · subst h0
    simp only [if_true, Nat.zero_add]
    exact (Nat.mod_eq_of_lt (by omega)).symm
  · simp only [if_neg h0]
    have hrew : current + count - 1 = (current - 1) + count := by omega
    rw [hrew, Nat.add_mod_right, Nat.mod_eq_of_lt (by omega)]

theorem change_label_other (index other : Nat) (label : String) (hne : other ≠ index)
    (items : List SubmenuItem) :
    (change_label index label items).find? (fun it => it.index == other) =
      items.find? (fun it => it.index == other) := by
  induction items with
  | nil => rfl
  | cons it rest ih =>
    unfold change_label
    by_cases hi : it.index = index
    · have : ¬ (index = other) := fun e => hne e.symm
      simp [hi, List.find?_cons, this]
    · simp only [if_neg hi, List.find?_cons, ih]

theorem change_label_same (index : Nat) (label : String) (items : List SubmenuItem)
    (hex : (items.find? (fun it => it.index == index)).isSome = true) :
    ((change_label index label items).find? (fun it => it.index == index)).map
      (fun it => it.label) = some label := by
  induction items with
  | nil => simp at hex
  | cons it rest ih =>
    unfold change_label
    by_cases hi : it.index = index
    · simp [hi, List.find?_cons]
    · have hb : (it.index == index) = false := by simpa using hi
      simp only [if_neg hi, List.find?_cons, hb]
      simp only [List.find?_cons, hb] at hex
      exact ih hex

/-- Relabelling a row leaves the label of every other row as it is. -/
theorem submenu_label_change_other (menu : Submenu) (index other : Nat) (label : String)
    (hne : other ≠ index) :
    submenu_label (submenu_change_item_label menu index label) other =
      submenu_label menu other := by
  simp only [submenu_label, submenu_change_item_label, change_label_other index other label hne]

/-- Relabelling a row that exists makes it show the new label. -/
theorem submenu_label_change_same (menu : Submenu) (index : Nat) (label : String)
    (hex : (submenu_label menu index).isSome = true) :
    submenu_label (submenu_change_item_label menu index label) index = some label := by
  simp only [submenu_label, submenu_change_item_label]
  apply change_label_same
  simpa [submenu_label] using hex

/-- C7: on a cyclable page with row 0 highlighted and the cycle index i inside its table of
length N, a short-press Right is consumed and gives exactly the state in which the cycle index
of that table is (i+1) mod N and row 0 of the page's list view is relabelled with the label of
the new variant; Left likewise with (i+N-1) mod N.  Every other field of the state is as
before: the other list views, current_view, current_index, previous_view, the remembered
selections, the other three cycle indices and the transport, so nothing is sent.  Relabelling
row 0 shows the new label there, leaves the label of every other row and the highlighted row
as they are.  One Right from index 0 on view 11 shows the label of Sniff Raw Packets, and a
following OK (transport connected, sink opening) sends capture -raw and a newline. -/
theorem variant_cycler_step (h : HeaderDecls) (state : AppState) :
    (state.current_view = 11 → state.wifi_capture_menu.selected = 0 →
      state.current_sniff_index < sniff_commands.length →
      menu_input_handler h { type := InputType.InputTypeShort, key := InputKey.InputKeyRight } state =
        (true, { state with
          current_sniff_index := (state.current_sniff_index + 1) % sniff_commands.length,
          wifi_capture_menu := submenu_change_item_label state.wifi_capture_menu 0
            (sniff_at ((state.current_sniff_index + 1) % sniff_commands.length)).label }) ∧
      menu_input_handler h { type := InputType.InputTypeShort, key := InputKey.InputKeyLeft } state =
        (true, { state with
          current_sniff_index := (state.current_sniff_index + sniff_commands.length - 1) % sniff_commands.length,
          wifi_capture_menu := submenu_change_item_label state.wifi_capture_menu 0
            (sniff_at ((state.current_sniff_index + sniff_commands.length - 1) % sniff_commands.length)).label })) ∧
    (state.current_view = 12 → state.wifi_attack_menu.selected = 0 →
      state.current_beacon_index < beacon_spam_commands.length →
      menu_input_handler h { type := InputType.InputTypeShort, key := InputKey.InputKeyRight } state =
        (true, { state with
          current_beacon_index := (state.current_beacon_index + 1) % beacon_spam_commands.length,
          wifi_attack_menu := submenu_change_item_label state.wifi_attack_menu 0
            (variant_at beacon_spam_commands ((state.current_beacon_index + 1) % beacon_spam_commands.length)).label }) ∧
      menu_input_handler h { type := InputType.InputTypeShort, key := InputKey.InputKeyLeft } state =
        (true, { state with
          current_beacon_index := (state.current_beacon_index + beacon_spam_commands.length - 1) % beacon_spam_commands.length,
          wifi_attack_menu := submenu_change_item_label state.wifi_attack_menu 0
            (variant_at beacon_spam_commands ((state.current_beacon_index + beacon_spam_commands.length - 1) % beacon_spam_commands.length)).label })) ∧
    (state.current_view = 14 → state.wifi_settings_menu.selected = 0 →
      state.current_rgb_index < rgbmode_commands.length →
      menu_input_handler h { type := InputType.InputTypeShort, key := InputKey.InputKeyRight } state =
        (true, { state with
          current_rgb_index := (state.current_rgb_index + 1) % rgbmode_commands.length,
          wifi_settings_menu := submenu_change_item_label state.wifi_settings_menu 0
            (variant_at rgbmode_commands ((state.current_rgb_index + 1) % rgbmode_commands.length)).label }) ∧
      menu_input_handler h { type := InputType.InputTypeShort, key := InputKey.InputKeyLeft } state =
        (true, { state with
          current_rgb_index := (state.current_rgb_index + rgbmode_commands.length - 1) % rgbmode_commands.length,
          wifi_settings_menu := submenu_change_item_label state.wifi_settings_menu 0
            (variant_at rgbmode_commands ((state.current_rgb_index + rgbmode_commands.length - 1) % rgbmode_commands.length)).label })) ∧
    (state.current_view = 22 → state.ble_attack_menu.selected = 0 →
      state.current_ble_spam_index < ble_spam_commands.length →
      menu_input_handler h { type := InputType.InputTypeShort, key := InputKey.InputKeyRight } state =
        (true, { state with
          current_ble_spam_index := (state.current_ble_spam_index + 1) % ble_spam_commands.length,
          ble_attack_menu := submenu_change_item_label state.ble_attack_menu 0
            (variant_at ble_spam_commands ((state.current_ble_spam_index + 1) % ble_spam_commands.length)).label }) ∧
      menu_input_handler h { type := InputType.InputTypeShort, key := InputKey.InputKeyLeft } state =
        (true, { state with
          current_ble_spam_index := (state.current_ble_spam_index + ble_spam_commands.length - 1) % ble_spam_commands.length,
          ble_attack_menu := submenu_change_item_label state.ble_attack_menu 0
            (variant_at ble_spam_commands ((state.current_ble_spam_index + ble_spam_commands.length - 1) % ble_spam_commands.length)).label })) ∧
    (∀ (menu : Submenu) (label : String),
      ((submenu_label menu 0).isSome = true →
        submenu_label (submenu_change_item_label menu 0 label) 0 = some label) ∧
      (∀ other : Nat, other ≠ 0 →
        submenu_label (submenu_change_item_label menu 0 label) other =
          submenu_label menu other) ∧
      (submenu_change_item_label menu 0 label).selected = menu.selected) ∧
    (state.current_view = 11 → state.wifi_capture_menu.selected = 0 →
      state.current_sniff_index = 0 →
      (submenu_label state.wifi_capture_menu 0).isSome = true →
      state.uart_context.esp_connected = true → state.uart_context.file_opens = true →
      submenu_label (press h InputKey.InputKeyRight state).wifi_capture_menu 0 =
        some "< Sniff Raw Packets >" ∧
      (press h InputKey.InputKeyOk (press h InputKey.InputKeyRight state)).uart_context.sent =
        state.uart_context.sent ++ ["capture -raw\n"]) := by
  refine ⟨?_, ?_, ?_, ?_, ?_, ?_⟩
  · intro hv hsel hidx
    have hl := cycle_index_left state.current_sniff_index sniff_commands.length hidx
    constructor
    · simp [menu_input_handler, menu_context, hv, hsel, submenu_get_selected_item,
        cycle_index_right]
    · simp [menu_input_handler, menu_context, hv, hsel, submenu_get_selected_item, hl]
  · intro hv hsel hidx
    have hl := cycle_index_left state.current_beacon_index beacon_spam_commands.length hidx
    constructor
    · simp [menu_input_handler, menu_context, hv, hsel, submenu_get_selected_item,
        cycle_index_right]
    · simp [menu_input_handler, menu_context, hv, hsel, submenu_get_selected_item, hl]
  · intro hv hsel hidx
    have hl := cycle_index_left state.current_rgb_index rgbmode_commands.length hidx
    constructor
    · simp [menu_input_handler, menu_context, hv, hsel, submenu_get_selected_item,
        cycle_index_right]
    · simp [menu_input_handler, menu_context, hv, hsel, submenu_get_selected_item, hl]
  · intro hv hsel hidx
    have hl := cycle_index_left state.current_ble_spam_index ble_spam_commands.length hidx
    constructor
    · simp [menu_input_handler, menu_context, hv, hsel, submenu_get_selected_item,
        cycle_index_right]
    · simp [menu_input_handler, menu_context, hv, hsel, submenu_get_selected_item, hl]
  · intro menu label
    exact ⟨submenu_label_change_same menu 0 label,
      fun other hne => submenu_label_change_other menu 0 other label hne, rfl⟩
  · intro hv hsel hidx hrow hconn hopen
    have hstep : press h InputKey.InputKeyRight state =
        { state with
          current_sniff_index := 1,
          wifi_capture_menu := submenu_change_item_label state.wifi_capture_menu 0
            "< Sniff Raw Packets >" } := by
      simp [press, menu_input_handler, menu_context, hv, hsel, submenu_get_selected_item,
        cycle_index_right, hidx, sniff_commands, sniff_at]
    rw [hstep]
    refine ⟨submenu_label_change_same _ 0 _ hrow, ?_⟩
    exact (press_ok_sniff_slot h
      { state with
        current_sniff_index := 1,
        wifi_capture_menu := submenu_change_item_label state.wifi_capture_menu 0
          "< Sniff Raw Packets >" } hconn hv hsel hopen (by show 1 < 7; decide)).1

/-- Witness of C7: one Right on the freshly shown sniff page, then OK. -/
theorem variant_cycler_step_witness :
    submenu_label (press sample_decls InputKey.InputKeyRight
      (show_wifi_capture_menu sample_decls (initial_state true true 0))).wifi_capture_menu 0 =
      some "< Sniff Raw Packets >" ∧
    (press sample_decls InputKey.InputKeyOk (press sample_decls InputKey.InputKeyRight
      (show_wifi_capture_menu sample_decls (initial_state true true 0)))).uart_context.sent =
      [] ++ ["capture -raw\n"] :=
  (variant_cycler_step sample_decls
    (show_wifi_capture_menu sample_decls (initial_state true true 0))).2.2.2.2.2
    rfl rfl rfl rfl rfl rfl

/-! ## C8 -/

theorem key_up_eq (current count : Nat) :
    key_up current count = if current = 0 then count - 1 else current - 1 := by
  unfold key_up
  by_cases h0 : current = 0
  · simp [h0]
  · have : current > 0 := Nat.pos_of_ne_zero h0
    simp [h0, this]

theorem key_down_eq (current count : Nat) (hlt : current < count) :
    key_down current count = if current = count - 1 then 0 else current + 1 := by
  unfold key_down
  by_cases hlast : current = count - 1
  · have : ¬ current < count - 1 := by omega
    simp [hlast]
  · have : current < count - 1 := by omega
    simp [hlast, this]

theorem key_up_lt (current count : Nat) (hlt : current < count) : key_up current count < count := by
  unfold key_up
  split <;> omega

theorem key_down_lt (current count : Nat) (hlt : current < count) :
    key_down current count < count := by
  unfold key_down
  split <;> omega

/-- C9: on every leaf list view (3, 10 to 14, 20 to 23) with an in-range highlighted row r of
its n rows, a short-press or repeat Up is consumed and gives exactly the state in which the
list view of that page highlights row n-1 when r = 0 and row r-1 otherwise; Down likewise
row 0 when r = n-1 and row r+1 otherwise.  Every other field of the state is as before, and
the new highlighted row is again below n. -/
theorem up_down_wraparound (h : HeaderDecls) (state : AppState) (ty : InputType)
    (hty : ty = InputType.InputTypeShort ∨ ty = InputType.InputTypeRepeat) :
    (state.current_view = 3 → state.gps_menu.selected < gps_commands.length →
      menu_input_handler h { type := ty, key := InputKey.InputKeyUp } state =
        (true, { state with gps_menu := { state.gps_menu with
          selected := if state.gps_menu.selected = 0 then gps_commands.length - 1
            else state.gps_menu.selected - 1 } }) ∧
      menu_input_handler h { type := ty, key := InputKey.InputKeyDown } state =
        (true, { state with gps_menu := { state.gps_menu with
          selected := if state.gps_menu.selected = gps_commands.length - 1 then 0
            else state.gps_menu.selected + 1 } }) ∧
      (if state.gps_menu.selected = 0 then gps_commands.length - 1
        else state.gps_menu.selected - 1) < gps_commands.length ∧
      (if state.gps_menu.selected = gps_commands.length - 1 then 0
        else state.gps_menu.selected + 1) < gps_commands.length) ∧
    (state.current_view = 10 → state.wifi_scanning_menu.selected < wifi_scanning_commands.length →
      menu_input_handler h { type := ty, key := InputKey.InputKeyUp } state =
        (true, { state with wifi_scanning_menu := { state.wifi_scanning_menu with
          selected := if state.wifi_scanning_menu.selected = 0 then wifi_scanning_commands.length - 1
            else state.wifi_scanning_menu.selected - 1 } }) ∧
      menu_input_handler h { type := ty, key := InputKey.InputKeyDown } state =
        (true, { state with wifi_scanning_menu := { state.wifi_scanning_menu with
          selected := if state.wifi_scanning_menu.selected = wifi_scanning_commands.length - 1 then 0
            else state.wifi_scanning_menu.selected + 1 } }) ∧
      (if state.wifi_scanning_menu.selected = 0 then wifi_scanning_commands.length - 1
        else state.wifi_scanning_menu.selected - 1) < wifi_scanning_commands.length ∧
      (if state.wifi_scanning_menu.selected = wifi_scanning_commands.length - 1 then 0
        else state.wifi_scanning_menu.selected + 1) < wifi_scanning_commands.length) ∧
    (state.current_view = 11 → state.wifi_capture_menu.selected < (wifi_capture_commands h).length →
      menu_input_handler h { type := ty, key := InputKey.InputKeyUp } state =
        (true, { state with wifi_capture_menu := { state.wifi_capture_menu with
          selected := if state.wifi_capture_menu.selected = 0 then (wifi_capture_commands h).length - 1
            else state.wifi_capture_menu.selected - 1 } }) ∧
      menu_input_handler h { type := ty, key := InputKey.InputKeyDown } state =
        (true, { state with wifi_capture_menu := { state.wifi_capture_menu with
          selected := if state.wifi_capture_menu.selected = (wifi_capture_commands h).length - 1 then 0
            else state.wifi_capture_menu.selected + 1 } }) ∧
      (if state.wifi_capture_menu.selected = 0 then (wifi_capture_commands h).length - 1
        else state.wifi_capture_menu.selected - 1) < (wifi_capture_commands h).length ∧
      (if state.wifi_capture_menu.selected = (wifi_capture_commands h).length - 1 then 0
        else state.wifi_capture_menu.selected + 1) < (wifi_capture_commands h).length) ∧
    (state.current_view = 12 → state.wifi_attack_menu.selected < wifi_attack_commands.length →
      menu_input_handler h { type := ty, key := InputKey.InputKeyUp } state =
        (true, { state with wifi_attack_menu := { state.wifi_attack_menu with
          selected := if state.wifi_attack_menu.selected = 0 then wifi_attack_commands.length - 1
            else state.wifi_attack_menu.selected - 1 } }) ∧
      menu_input_handler h { type := ty, key := InputKey.InputKeyDown } state =
        (true, { state with wifi_attack_menu := { state.wifi_attack_menu with
          selected := if state.wifi_attack_menu.selected = wifi_attack_commands.length - 1 then 0
            else state.wifi_attack_menu.selected + 1 } }) ∧
      (if state.wifi_attack_menu.selected = 0 then wifi_attack_commands.length - 1
        else state.wifi_attack_menu.selected - 1) < wifi_attack_commands.length ∧
      (if state.wifi_attack_menu.selected = wifi_attack_commands.length - 1 then 0
        else state.wifi_attack_menu.selected + 1) < wifi_attack_commands.length) ∧
    (state.current_view = 13 → state.wifi_network_menu.selected < wifi_network_commands.length →
      menu_input_handler h { type := ty, key := InputKey.InputKeyUp } state =
        (true, { state with wifi_network_menu := { state.wifi_network_menu with
          selected := if state.wifi_network_menu.selected = 0 then wifi_network_commands.length - 1
            else state.wifi_network_menu.selected - 1 } }) ∧
      menu_input_handler h { type := ty, key := InputKey.InputKeyDown } state =
        (true, { state with wifi_network_menu := { state.wifi_network_menu with
          selected := if state.wifi_network_menu.selected = wifi_network_commands.length - 1 then 0
            else state.wifi_network_menu.selected + 1 } }) ∧
      (if state.wifi_network_menu.selected = 0 then wifi_network_commands.length - 1
        else state.wifi_network_menu.selected - 1) < wifi_network_commands.length ∧
      (if state.wifi_network_menu.selected = wifi_network_commands.length - 1 then 0
        else state.wifi_network_menu.selected + 1) < wifi_network_commands.length) ∧
    (state.current_view = 14 → state.wifi_settings_menu.selected < wifi_settings_commands.length →
      menu_input_handler h { type := ty, key := InputKey.InputKeyUp } state =
        (true, { state with wifi_settings_menu := { state.wifi_settings_menu with
          selected := if state.wifi_settings_menu.selected = 0 then wifi_settings_commands.length - 1
            else state.wifi_settings_menu.selected - 1 } }) ∧
      menu_input_handler h { type := ty, key := InputKey.InputKeyDown } state =
        (true, { state with wifi_settings_menu := { state.wifi_settings_menu with
          selected := if state.wifi_settings_menu.selected = wifi_settings_commands.length - 1 then 0
            else state.wifi_settings_menu.selected + 1 } }) ∧
      (if state.wifi_settings_menu.selected = 0 then wifi_settings_commands.length - 1
        else state.wifi_settings_menu.selected - 1) < wifi_settings_commands.length ∧
      (if state.wifi_settings_menu.selected = wifi_settings_commands.length - 1 then 0
        else state.wifi_settings_menu.selected + 1) < wifi_settings_commands.length) ∧
    (state.current_view = 20 → state.ble_scanning_menu.selected < (ble_scanning_commands h).length →
      menu_input_handler h { type := ty, key := InputKey.InputKeyUp } state =
        (true, { state with ble_scanning_menu := { state.ble_scanning_menu with
          selected := if state.ble_scanning_menu.selected = 0 then (ble_scanning_commands h).length - 1
            else state.ble_scanning_menu.selected - 1 } }) ∧
      menu_input_handler h { type := ty, key := InputKey.InputKeyDown } state =
        (true, { state with ble_scanning_menu := { state.ble_scanning_menu with
          selected := if state.ble_scanning_menu.selected = (ble_scanning_commands h).length - 1 then 0
            else state.ble_scanning_menu.selected + 1 } }) ∧
      (if state.ble_scanning_menu.selected = 0 then (ble_scanning_commands h).length - 1
        else state.ble_scanning_menu.selected - 1) < (ble_scanning_commands h).length ∧
      (if state.ble_scanning_menu.selected = (ble_scanning_commands h).length - 1 then 0
        else state.ble_scanning_menu.selected + 1) < (ble_scanning_commands h).length) ∧
    (state.current_view = 21 → state.ble_capture_menu.selected < (ble_capture_commands h).length →
      menu_input_handler h { type := ty, key := InputKey.InputKeyUp } state =
        (true, { state with ble_capture_menu := { state.ble_capture_menu with
          selected := if state.ble_capture_menu.selected = 0 then (ble_capture_commands h).length - 1
            else state.ble_capture_menu.selected - 1 } }) ∧
      menu_input_handler h { type := ty, key := InputKey.InputKeyDown } state =
        (true, { state with ble_capture_menu := { state.ble_capture_menu with
          selected := if state.ble_capture_menu.selected = (ble_capture_commands h).length - 1 then 0
            else state.ble_capture_menu.selected + 1 } }) ∧
      (if state.ble_capture_menu.selected = 0 then (ble_capture_commands h).length - 1
        else state.ble_capture_menu.selected - 1) < (ble_capture_commands h).length ∧
      (if state.ble_capture_menu.selected = (ble_capture_commands h).length - 1 then 0
        else state.ble_capture_menu.selected + 1) < (ble_capture_commands h).length) ∧
    (state.current_view = 22 → state.ble_attack_menu.selected < ble_attack_commands.length →
      menu_input_handler h { type := ty, key := InputKey.InputKeyUp } state =
        (true, { state with ble_attack_menu := { state.ble_attack_menu with
          selected := if state.ble_attack_menu.selected = 0 then ble_attack_commands.length - 1
            else state.ble_attack_menu.selected - 1 } }) ∧
      menu_input_handler h { type := ty, key := InputKey.InputKeyDown } state =
        (true, { state with ble_attack_menu := { state.ble_attack_menu with
          selected := if state.ble_attack_menu.selected = ble_attack_commands.length - 1 then 0
            else state.ble_attack_menu.selected + 1 } }) ∧
      (if state.ble_attack_menu.selected = 0 then ble_attack_commands.length - 1
        else state.ble_attack_menu.selected - 1) < ble_attack_commands.length ∧
      (if state.ble_attack_menu.selected = ble_attack_commands.length - 1 then 0
        else state.ble_attack_menu.selected + 1) < ble_attack_commands.length) ∧
    (state.current_view = 23 → state.ble_chameleon_menu.selected < ble_chameleon_commands.length →
      menu_input_handler h { type := ty, key := InputKey.InputKeyUp } state =
        (true, { state with ble_chameleon_menu := { state.ble_chameleon_menu with
          selected := if state.ble_chameleon_menu.selected = 0 then ble_chameleon_commands.length - 1
            else state.ble_chameleon_menu.selected - 1 } }) ∧
      menu_input_handler h { type := ty, key := InputKey.InputKeyDown } state =
        (true, { state with ble_chameleon_menu := { state.ble_chameleon_menu with
          selected := if state.ble_chameleon_menu.selected = ble_chameleon_commands.length - 1 then 0
            else state.ble_chameleon_menu.selected + 1 } }) ∧
      (if state.ble_chameleon_menu.selected = 0 then ble_chameleon_commands.length - 1
        else state.ble_chameleon_menu.selected - 1) < ble_chameleon_commands.length ∧
      (if state.ble_chameleon_menu.selected = ble_chameleon_commands.length - 1 then 0
        else state.ble_chameleon_menu.selected + 1) < ble_chameleon_commands.length) := by
  refine ⟨?_, ?_, ?_, ?_, ?_, ?_, ?_, ?_, ?_, ?_⟩
  · intro hv hlt
    have hd := key_down_eq _ _ hlt
    refine ⟨?_, ?_, ?_, ?_⟩
    · rcases hty with ht | ht <;>
        simp [menu_input_handler, menu_context, hv, ht, submenu_get_selected_item,
          submenu_set_selected_item, key_up_eq]
    · rcases hty with ht | ht <;>
        simp [menu_input_handler, menu_context, hv, ht, submenu_get_selected_item,
          submenu_set_selected_item, hd]
    · rw [← key_up_eq]; exact key_up_lt _ _ hlt
    · rw [← hd]; exact key_down_lt _ _ hlt
  · intro hv hlt
    have hd := key_down_eq _ _ hlt
    refine ⟨?_, ?_, ?_, ?_⟩
    · rcases hty with ht | ht <;>
        simp [menu_input_handler, menu_context, hv, ht, submenu_get_selected_item,
          submenu_set_selected_item, key_up_eq]
    · rcases hty with ht | ht <;>
        simp [menu_input_handler, menu_context, hv, ht, submenu_get_selected_item,
          submenu_set_selected_item, hd]
    · rw [← key_up_eq]; exact key_up_lt _ _ hlt
    · rw [← hd]; exact key_down_lt _ _ hlt
  · intro hv hlt
    have hd := key_down_eq _ _ hlt
    refine ⟨?_, ?_, ?_, ?_⟩
    · rcases hty with ht | ht <;>
        simp [menu_input_handler, menu_context, hv, ht, submenu_get_selected_item,
          submenu_set_selected_item, key_up_eq]
    · rcases hty with ht | ht <;>
        simp [menu_input_handler, menu_context, hv, ht, submenu_get_selected_item,
          submenu_set_selected_item, hd]
    · rw [← key_up_eq]; exact key_up_lt _ _ hlt
    · rw [← hd]; exact key_down_lt _ _ hlt
  · intro hv hlt
    have hd := key_down_eq _ _ hlt
    refine ⟨?_, ?_, ?_, ?_⟩
    · rcases hty with ht | ht <;>
        simp [menu_input_handler, menu_context, hv, ht, submenu_get_selected_item,
          submenu_set_selected_item, key_up_eq]
    · rcases hty with ht | ht <;>
        simp [menu_input_handler, menu_context, hv, ht, submenu_get_selected_item,
          submenu_set_selected_item, hd]
    · rw [← key_up_eq]; exact key_up_lt _ _ hlt
    · rw [← hd]; exact key_down_lt _ _ hlt
  · intro hv hlt
    have hd := key_down_eq _ _ hlt
    refine ⟨?_, ?_, ?_, ?_⟩
    · rcases hty with ht | ht <;>
        simp [menu_input_handler, menu_context, hv, ht, submenu_get_selected_item,
          submenu_set_selected_item, key_up_eq]
    · rcases hty with ht | ht <;>
        simp [menu_input_handler, menu_context, hv, ht, submenu_get_selected_item,
          submenu_set_selected_item, hd]
    · rw [← key_up_eq]; exact key_up_lt _ _ hlt
    · rw [← hd]; exact key_down_lt _ _ hlt
  · intro hv hlt
    have hd := key_down_eq _ _ hlt
    refine ⟨?_, ?_, ?_, ?_⟩
    · rcases hty with ht | ht <;>
        simp [menu_input_handler, menu_context, hv, ht, submenu_get_selected_item,
          submenu_set_selected_item, key_up_eq]
    · rcases hty with ht | ht <;>
        simp [menu_input_handler, menu_context, hv, ht, submenu_get_selected_item,
          submenu_set_selected_item, hd]
    · rw [← key_up_eq]; exact key_up_lt _ _ hlt
    · rw [← hd]; exact key_down_lt _ _ hlt
  · intro hv hlt
    have hd := key_down_eq _ _ hlt
    refine ⟨?_, ?_, ?_, ?_⟩
    · rcases hty with ht | ht <;>
        simp [menu_input_handler, menu_context, hv, ht, submenu_get_selected_item,
          submenu_set_selected_item, key_up_eq]
    · rcases hty with ht | ht <;>
        simp [menu_input_handler, menu_context, hv, ht, submenu_get_selected_item,
          submenu_set_selected_item, hd]
    · rw [← key_up_eq]; exact key_up_lt _ _ hlt
    · rw [← hd]; exact key_down_lt _ _ hlt
  · intro hv hlt
    have hd := key_down_eq _ _ hlt
    refine ⟨?_, ?_, ?_, ?_⟩
    · rcases hty with ht | ht <;>
        simp [menu_input_handler, menu_context, hv, ht, submenu_get_selected_item,
          submenu_set_selected_item, key_up_eq]
    · rcases hty with ht | ht <;>
        simp [menu_input_handler, menu_context, hv, ht, submenu_get_selected_item,
          submenu_set_selected_item, hd]
    · rw [← key_up_eq]; exact key_up_lt _ _ hlt
    · rw [← hd]; exact key_down_lt _ _ hlt
  · intro hv hlt
    have hd := key_down_eq _ _ hlt
    refine ⟨?_, ?_, ?_, ?_⟩
    · rcases hty with ht | ht <;>
        simp [menu_input_handler, menu_context, hv, ht, submenu_get_selected_item,
          submenu_set_selected_item, key_up_eq]
    · rcases hty with ht | ht <;>
        simp [menu_input_handler, menu_context, hv, ht, submenu_get_selected_item,
          submenu_set_selected_item, hd]
    · rw [← key_up_eq]; exact key_up_lt _ _ hlt
    · rw [← hd]; exact key_down_lt _ _ hlt
  · intro hv hlt
    have hd := key_down_eq _ _ hlt
    refine ⟨?_, ?_, ?_, ?_⟩
    · rcases hty with ht | ht <;>
        simp [menu_input_handler, menu_context, hv, ht, submenu_get_selected_item,
          submenu_set_selected_item, key_up_eq]
    · rcases hty with ht | ht <;>
        simp [menu_input_handler, menu_context, hv, ht, submenu_get_selected_item,
          submenu_set_selected_item, hd]
    · rw [← key_up_eq]; exact key_up_lt _ _ hlt
    · rw [← hd]; exact key_down_lt _ _ hlt

/-- Witness of C9: Up on row 0 of the freshly shown scanning page wraps to the last of its
14 rows, and Down from there wraps to row 0. -/
theorem up_down_wraparound_witness :
    (menu_input_handler sample_decls
      { type := InputType.InputTypeShort, key := InputKey.InputKeyUp }
      (show_wifi_scanning_menu (initial_state true true 0))).2.wifi_scanning_menu.selected = 13 ∧
    (menu_input_handler sample_decls
      { type := InputType.InputTypeShort, key := InputKey.InputKeyDown }
      (menu_input_handler sample_decls
        { type := InputType.InputTypeShort, key := InputKey.InputKeyUp }
        (show_wifi_scanning_menu (initial_state true true 0))).2).2.wifi_scanning_menu.selected
      = 0 :=
  ⟨congrArg (fun r => r.2.wifi_scanning_menu.selected)
      ((up_down_wraparound sample_decls (show_wifi_scanning_menu (initial_state true true 0))
        InputType.InputTypeShort (Or.inl rfl)).2.1 rfl (by decide)).1,
    congrArg (fun r => r.2.wifi_scanning_menu.selected)
      ((up_down_wraparound sample_decls
        (menu_input_handler sample_decls
          { type := InputType.InputTypeShort, key := InputKey.InputKeyUp }
          (show_wifi_scanning_menu (initial_state true true 0))).2
        InputType.InputTypeShort (Or.inl rfl)).2.1 rfl (by decide)).2.1⟩

/-! ## C10 -/

/-- C10: in every state with current_view in 10 to 14 a Back event, handled by
back_event_callback or as a short-press Back by menu_input_handler, is consumed and makes
current_view 1 when came_from_settings is false and 8 when it is true, and leaves the
transport untouched, so nothing is sent. -/
theorem back_from_wifi_leaf (h : HeaderDecls) (state : AppState)
    (hlo : 10 ≤ state.current_view) (hhi : state.current_view ≤ 14) :
    (back_event_callback h state).1 = true ∧
    (back_event_callback h state).2.current_view =
      (if state.came_from_settings = true then 8 else 1) ∧
    (back_event_callback h state).2.uart_context = state.uart_context ∧
    (menu_input_handler h { type := InputType.InputTypeShort, key := InputKey.InputKeyBack }
      state).1 = true ∧
    (menu_input_handler h { type := InputType.InputTypeShort, key := InputKey.InputKeyBack }
      state).2.current_view = (if state.came_from_settings = true then 8 else 1) ∧
    (menu_input_handler h { type := InputType.InputTypeShort, key := InputKey.InputKeyBack }
      state).2.uart_context = state.uart_context := by
  have hcases : state.current_view = 10 ∨ state.current_view = 11 ∨ state.current_view = 12 ∨
      state.current_view = 13 ∨ state.current_view = 14 := by omega
  have hback : back_event_callback h state =
      (true, if state.came_from_settings = true then
        { state with
          view_dispatcher := view_dispatcher_switch_to_view state.view_dispatcher 8,
          current_view := 8 }
      else
        { show_wifi_menu state with
          wifi_menu := submenu_set_selected_item (show_wifi_menu state).wifi_menu
            state.last_wifi_category_index,
          current_view := 1 }) := by
    have h7 : state.current_view ≠ 7 := by omega
    have h5 : state.current_view ≠ 5 := by omega
    have h8 : state.current_view ≠ 8 := by omega
    have h4 : state.current_view ≠ 4 := by omega
    have h13 : ¬ (state.current_view ≥ 1 ∧ state.current_view ≤ 3) := by omega
    have hin : state.current_view ≥ 10 ∧ state.current_view ≤ 14 := ⟨hlo, hhi⟩
    unfold back_event_callback
    simp only [if_neg h7, if_neg h5, if_neg h8, if_neg h4, if_neg h13, if_pos hin]
    cases hs : state.came_from_settings <;> simp [show_wifi_menu]
  have hinput : menu_input_handler h
      { type := InputType.InputTypeShort, key := InputKey.InputKeyBack } state =
      (true, if state.came_from_settings = true then
        { state with
          view_dispatcher := view_dispatcher_switch_to_view state.view_dispatcher 8,
          current_view := 8 }
      else
        { show_wifi_menu state with
          wifi_menu := submenu_set_selected_item (show_wifi_menu state).wifi_menu
            state.last_wifi_category_index,
          current_view := 1 }) := by
    rcases hcases with hv | hv | hv | hv | hv <;>
      cases hs : state.came_from_settings <;>
      simp [menu_input_handler, menu_context, hv, hs, show_wifi_menu]
  rw [hback, hinput]
  cases hs : state.came_from_settings <;> simp [show_wifi_menu]

/-- Witness of C10: Back on the freshly shown attack page returns to the WiFi category
list. -/
theorem back_from_wifi_leaf_witness :
    (show_wifi_attack_menu (initial_state true true 0)).current_view = 12 ∧
    (back_event_callback sample_decls
      (show_wifi_attack_menu (initial_state true true 0))).2.current_view = 1 :=
  ⟨rfl, (back_from_wifi_leaf sample_decls (show_wifi_attack_menu (initial_state true true 0))
    (by decide) (by decide)).2.1⟩

/-! ## C12 -/

/-- C12, counterexample: on the main menu as first shown (current_view 0, previous_view 0),
selecting row 0 through submenu_callback gives current_view 1, but previous_view is still
0, not 1. -/
theorem select_wifi_previous_view_not_set :
    (show_main_menu (initial_state true true 0)).current_view = 0 ∧
    (submenu_callback sample_decls (show_main_menu (initial_state true true 0)) 0).current_view
      = 1 ∧
    (submenu_callback sample_decls (show_main_menu (initial_state true true 0)) 0).previous_view
      ≠ 1 := by
  decide

/-- C12, amended: in every state with current_view 0, selecting row 0 through
submenu_callback results in current_view 1 (the dispatcher shows view 1 and current_index is
0) and leaves previous_view as it was; selecting row 1 likewise results in current_view 2.
Only rows 2 and 3 write previous_view, to 3 and to 8. -/
theorem select_wifi_from_main (h : HeaderDecls) (state : AppState)
    (hv : state.current_view = 0) :
    (submenu_callback h state 0).current_view = 1 ∧
    (submenu_callback h state 0).view_dispatcher.current_view = 1 ∧
    (submenu_callback h state 0).current_index = 0 ∧
    (submenu_callback h state 0).previous_view = state.previous_view ∧
    (submenu_callback h state 1).current_view = 2 ∧
    (submenu_callback h state 1).previous_view = state.previous_view ∧
    (submenu_callback h state 2).current_view = 3 ∧
    (submenu_callback h state 2).previous_view = 3 ∧
    (submenu_callback h state 3).current_view = 8 ∧
    (submenu_callback h state 3).previous_view = 8 := by
  simp [submenu_callback, hv, show_wifi_menu, show_ble_menu, show_gps_menu, show_menu,
    view_dispatcher_switch_to_view]

/-- Witness of C12, amended: the main menu as first shown. -/
theorem select_wifi_from_main_witness :
    (submenu_callback sample_decls (show_main_menu (initial_state true true 0)) 0).current_view
      = 1 ∧
    (submenu_callback sample_decls (show_main_menu (initial_state true true 0)) 0).previous_view
      = 0 :=
  ⟨(select_wifi_from_main sample_decls (show_main_menu (initial_state true true 0)) rfl).1,
    (select_wifi_from_main sample_decls (show_main_menu (initial_state true true 0))
      rfl).2.2.2.1⟩

/-! ## C13 -/

/-- C13: in every state with current_view 1, connected or not, selecting row r in 0 to 3
through submenu_callback sets last_wifi_category_index to r and makes current_view and
previous_view 10 + r; with current_view 2 it sets last_ble_category_index to r and makes
current_view and previous_view 20 + r.  In both cases the transport is left untouched, so
nothing is sent, and the modal view is left untouched, so no connection error is raised. -/
theorem category_list_transitions (h : HeaderDecls) (state : AppState) (r : Nat)
    (hr : r ≤ 3) :
    (state.current_view = 1 →
      (submenu_callback h state r).last_wifi_category_index = r ∧
      (submenu_callback h state r).current_view = 10 + r ∧
      (submenu_callback h state r).previous_view = 10 + r ∧
      (submenu_callback h state r).uart_context = state.uart_context ∧
      (submenu_callback h state r).confirmation_view = state.confirmation_view) ∧
    (state.current_view = 2 →
      (submenu_callback h state r).last_ble_category_index = r ∧
      (submenu_callback h state r).current_view = 20 + r ∧
      (submenu_callback h state r).previous_view = 20 + r ∧
      (submenu_callback h state r).uart_context = state.uart_context ∧
      (submenu_callback h state r).confirmation_view = state.confirmation_view) := by
  have hcases : r = 0 ∨ r = 1 ∨ r = 2 ∨ r = 3 := by omega
  constructor
  · intro hv
    rcases hcases with hr | hr | hr | hr <;> subst hr <;>
      simp [submenu_callback, hv, show_wifi_scanning_menu, show_wifi_capture_menu,
        show_wifi_attack_menu, show_wifi_network_menu, show_menu]
  · intro hv
    rcases hcases with hr | hr | hr | hr <;> subst hr <;>
      simp [submenu_callback, hv, show_ble_scanning_menu, show_ble_capture_menu,
        show_ble_attack_menu, show_ble_chameleon_menu, show_menu]

/-- Witness of C13: row 1 of the WiFi category list with the transport disconnected opens
the capture page. -/
theorem category_list_transitions_witness :
    (show_wifi_menu (initial_state false true 0)).current_view = 1 ∧
    (submenu_callback sample_decls (show_wifi_menu (initial_state false true 0)) 1).current_view
      = 10 + 1 ∧
    (submenu_callback sample_decls
      (show_wifi_menu (initial_state false true 0)) 1).last_wifi_category_index = 1 :=
  ⟨rfl, ((category_list_transitions sample_decls (show_wifi_menu (initial_state false true 0)) 1
      (by decide)).1 rfl).2.1,
    ((category_list_transitions sample_decls (show_wifi_menu (initial_state false true 0)) 1
      (by decide)).1 rfl).1⟩

/-! ## C14 -/

/-- C14, counterexample: on the WiFi category list with the transport connected, selecting
row 4 sends the stop command once, but current_view afterwards is 5, not 1. -/
theorem stop_all_leaves_category_list :
    (show_wifi_menu (initial_state true true 0)).current_view = 1 ∧
    (submenu_callback sample_decls (show_wifi_menu (initial_state true true 0))
      4).uart_context.sent = ["stop\n"] ∧
    (submenu_callback sample_decls (show_wifi_menu (initial_state true true 0)) 4).current_view
      ≠ 1 := by
  decide

/-- C14, amended: in every state with current_view 1 or 2 and the transport connected,
selecting row 4 (Stop All WiFi, Stop All BLE) through submenu_callback sends exactly the
stop command and a newline once, remembers the category list as previous_view and sets
current_view to 5, the terminal view. -/
theorem stop_all_row (h : HeaderDecls) (state : AppState)
    (hv : state.current_view = 1 ∨ state.current_view = 2)
    (hconn : state.uart_context.esp_connected = true) :
    (submenu_callback h state 4).uart_context.sent = state.uart_context.sent ++ ["stop\n"] ∧
    (submenu_callback h state 4).previous_view = state.current_view ∧
    (submenu_callback h state 4).current_view = 5 := by
  rcases hv with hv | hv <;>
    simp [submenu_callback, hv, execute_menu_command, uart_is_esp_connected, hconn,
      wifi_stop_command, ble_stop_command, has_capture, uart_receive_data_sent,
      uart_receive_data_previous_view, send_uart_command, uart_send]

/-- Witness of C14, amended: the WiFi category list with the transport connected. -/
theorem stop_all_row_witness :
    (submenu_callback sample_decls (show_wifi_menu (initial_state true true 0))
      4).uart_context.sent = [] ++ ["stop\n"] ∧
    (submenu_callback sample_decls (show_wifi_menu (initial_state true true 0)) 4).current_view
      = 5 :=
  ⟨(stop_all_row sample_decls (show_wifi_menu (initial_state true true 0)) (Or.inl rfl) rfl).1,
    (stop_all_row sample_decls (show_wifi_menu (initial_state true true 0)) (Or.inl rfl)
      rfl).2.2⟩

/-! ## Back from the terminal view and from the text-input view -/

/-- The restore block of the Back handler never touches the transport, the settings, the
pending command or the connect stage. -/
theorem restore_previous_menu_frame (h : HeaderDecls) (with_23 : Bool) (state : AppState) :
    (restore_previous_menu h with_23 state).uart_context = state.uart_context ∧
    (restore_previous_menu h with_23 state).settings = state.settings ∧
    (restore_previous_menu h with_23 state).uart_command = state.uart_command ∧
    (restore_previous_menu h with_23 state).connect_input_stage = state.connect_input_stage := by
  unfold restore_previous_menu
  split <;> first
    | exact ⟨rfl, rfl, rfl, rfl⟩
    | (split <;> exact ⟨rfl, rfl, rfl, rfl⟩)

/-- The restore block of the Back handler on each list view it has a case for: the view
becomes the previous view and its list highlights the remembered row.  View 23 has a case
only in the block of the text-input view. -/
theorem restore_previous_menu_list (h : HeaderDecls) (with_23 : Bool) (state : AppState) :
    (state.previous_view = 1 →
      (restore_previous_menu h with_23 state).current_view = 1 ∧
      (restore_previous_menu h with_23 state).wifi_menu.selected = state.last_wifi_category_index) ∧
    (state.previous_view = 10 →
      (restore_previous_menu h with_23 state).current_view = 10 ∧
      (restore_previous_menu h with_23 state).wifi_scanning_menu.selected = state.last_wifi_scanning_index) ∧
    (state.previous_view = 11 →
      (restore_previous_menu h with_23 state).current_view = 11 ∧
      (restore_previous_menu h with_23 state).wifi_capture_menu.selected = state.last_wifi_capture_index) ∧
    (state.previous_view = 12 →
      (restore_previous_menu h with_23 state).current_view = 12 ∧
      (restore_previous_menu h with_23 state).wifi_attack_menu.selected = state.last_wifi_attack_index) ∧
    (state.previous_view = 13 →
      (restore_previous_menu h with_23 state).current_view = 13 ∧
      (restore_previous_menu h with_23 state).wifi_network_menu.selected = state.last_wifi_network_index) ∧
    (state.previous_view = 14 →
      (restore_previous_menu h with_23 state).current_view = 14 ∧
      (restore_previous_menu h with_23 state).wifi_settings_menu.selected = state.last_wifi_settings_index) ∧
    (state.previous_view = 2 →
      (restore_previous_menu h with_23 state).current_view = 2 ∧
      (restore_previous_menu h with_23 state).ble_menu.selected = state.last_ble_category_index) ∧
    (state.previous_view = 20 →
      (restore_previous_menu h with_23 state).current_view = 20 ∧
      (restore_previous_menu h with_23 state).ble_scanning_menu.selected = state.last_ble_scanning_index) ∧
    (state.previous_view = 21 →
      (restore_previous_menu h with_23 state).current_view = 21 ∧
      (restore_previous_menu h with_23 state).ble_capture_menu.selected = state.last_ble_capture_index) ∧
    (state.previous_view = 22 →
      (restore_previous_menu h with_23 state).current_view = 22 ∧
      (restore_previous_menu h with_23 state).ble_attack_menu.selected = state.last_ble_attack_index) ∧
    (state.previous_view = 23 → with_23 = true →
      (restore_previous_menu h with_23 state).current_view = 23 ∧
      (restore_previous_menu h with_23 state).ble_chameleon_menu.selected = state.last_ble_chameleon_index) ∧
    (state.previous_view = 3 →
      (restore_previous_menu h with_23 state).current_view = 3 ∧
      (restore_previous_menu h with_23 state).gps_menu.selected = state.last_gps_index) := by
  refine ⟨?_, ?_, ?_, ?_, ?_, ?_, ?_, ?_, ?_, ?_, ?_, ?_⟩
  · intro hp
    simp [restore_previous_menu, hp, show_wifi_menu, show_menu, submenu_set_selected_item]
  · intro hp
    simp [restore_previous_menu, hp, show_wifi_scanning_menu, show_menu, submenu_set_selected_item]
  · intro hp
    simp [restore_previous_menu, hp, show_wifi_capture_menu, show_menu, submenu_set_selected_item]
  · intro hp
    simp [restore_previous_menu, hp, show_wifi_attack_menu, show_menu, submenu_set_selected_item]
  · intro hp
    simp [restore_previous_menu, hp, show_wifi_network_menu, show_menu, submenu_set_selected_item]
  · intro hp
    simp [restore_previous_menu, hp, show_wifi_settings_menu, show_menu, submenu_set_selected_item]
  · intro hp
    simp [restore_previous_menu, hp, show_ble_menu, show_menu, submenu_set_selected_item]
  · intro hp
    simp [restore_previous_menu, hp, show_ble_scanning_menu, show_menu, submenu_set_selected_item]
  · intro hp
    simp [restore_previous_menu, hp, show_ble_capture_menu, show_menu, submenu_set_selected_item]
  · intro hp
    simp [restore_previous_menu, hp, show_ble_attack_menu, show_menu, submenu_set_selected_item]
  · intro hp hb
    simp [restore_previous_menu, hp, hb, show_ble_chameleon_menu, show_menu, submenu_set_selected_item]
  · intro hp
    simp [restore_previous_menu, hp, show_gps_menu, show_menu, submenu_set_selected_item]

/-- The Back handler on the terminal view, in terms of its steps. -/
theorem back_event_view5 (h : HeaderDecls) (state : AppState) (hv : state.current_view = 5) :
    back_event_callback h state =
      (true,
        if state.previous_view = 8 ∨ state.previous_view = 4 then
          { terminal_exit state with
            view_dispatcher := view_dispatcher_switch_to_view state.view_dispatcher
              state.previous_view,
            current_view := state.previous_view }
        else restore_previous_menu h false (terminal_exit state)) := by
  cases hb : state.textBoxBuffer.isSome <;>
    by_cases hs : state.settings.stop_on_back_index = 0 <;>
    simp [back_event_callback, terminal_exit, hv, hb, hs, send_uart_command] <;>
    split <;> rfl

/-- The Back handler on the text-input view, in terms of its steps. -/
theorem back_event_view6 (h : HeaderDecls) (state : AppState) (hv : state.current_view = 6) :
    back_event_callback h state = (true, restore_previous_menu h true (text_input_exit state)) := by
  by_cases hs : state.settings.stop_on_back_index = 0 <;>
    simp [back_event_callback, text_input_exit, hv, hs, send_uart_command]

/-- What the first steps of the terminal-view block leave alone, and what they send. -/
theorem terminal_exit_frame (state : AppState) :
    (terminal_exit state).previous_view = state.previous_view ∧
    (terminal_exit state).settings = state.settings ∧
    (terminal_exit state).uart_context.sent =
      (if state.settings.stop_on_back_index ≠ 0 then state.uart_context.sent ++ ["stop\n"]
        else state.uart_context.sent) := by
  cases hb : state.textBoxBuffer.isSome <;>
    by_cases hs : state.settings.stop_on_back_index = 0 <;>
    simp [terminal_exit, hb, hs, send_uart_command, uart_send, wifi_stop_command]

/-- What the first steps of the text-input block leave alone, and what they send. -/
theorem text_input_exit_frame (state : AppState) :
    (text_input_exit state).previous_view = state.previous_view ∧
    (text_input_exit state).settings = state.settings ∧
    (text_input_exit state).uart_command = none ∧
    (text_input_exit state).uart_context.sent =
      (if state.settings.stop_on_back_index ≠ 0 then state.uart_context.sent ++ ["stop\n"]
        else state.uart_context.sent) := by
  by_cases hs : state.settings.stop_on_back_index = 0 <;>
    simp [text_input_exit, hs, send_uart_command, uart_send, wifi_stop_command]

/-! ## C15 -/

/-- C15, the code at the failing input: OK on the first row of the Chameleon page (view 23)
leads to the terminal view with previous_view 23 and remembered row 0; Back from there
returns true but makes current_view 0, the main menu, where the claim has view 23 with its
remembered row re-selected.  The restore block of the terminal view has no case for 23. -/
theorem back_from_terminal_misses_chameleon :
    chameleon_terminal.current_view = 5 ∧
    chameleon_terminal.previous_view = 23 ∧
    chameleon_terminal.uart_context.sent = ["chameleon connect\n"] ∧
    (back_event_callback sample_decls chameleon_terminal).1 = true ∧
    (back_event_callback sample_decls chameleon_terminal).2.current_view = 0 ∧
    (back_event_callback sample_decls chameleon_terminal).2.view_dispatcher.current_view = 0 ∧
    (back_event_callback sample_decls chameleon_terminal).2.current_view ≠
      chameleon_terminal.previous_view := by
  decide

/-- Back from the terminal view on the previous views the code has a case for: it returns
true; for a list view other than 23 the view becomes the previous view and its list
highlights the remembered row; for 8 and 4 the view becomes the previous view and no list
view is touched. -/
theorem back_from_terminal_restores (h : HeaderDecls) (state : AppState)
    (hv : state.current_view = 5) :
    (back_event_callback h state).1 = true ∧
    (state.previous_view = 1 →
      (back_event_callback h state).2.current_view = 1 ∧
      (back_event_callback h state).2.wifi_menu.selected = state.last_wifi_category_index) ∧
    (state.previous_view = 10 →
      (back_event_callback h state).2.current_view = 10 ∧
      (back_event_callback h state).2.wifi_scanning_menu.selected = state.last_wifi_scanning_index) ∧
    (state.previous_view = 11 →
      (back_event_callback h state).2.current_view = 11 ∧
      (back_event_callback h state).2.wifi_capture_menu.selected = state.last_wifi_capture_index) ∧
    (state.previous_view = 12 →
      (back_event_callback h state).2.current_view = 12 ∧
      (back_event_callback h state).2.wifi_attack_menu.selected = state.last_wifi_attack_index) ∧
    (state.previous_view = 13 →
      (back_event_callback h state).2.current_view = 13 ∧
      (back_event_callback h state).2.wifi_network_menu.selected = state.last_wifi_network_index) ∧
    (state.previous_view = 14 →
      (back_event_callback h state).2.current_view = 14 ∧
      (back_event_callback h state).2.wifi_settings_menu.selected = state.last_wifi_settings_index) ∧
    (state.previous_view = 2 →
      (back_event_callback h state).2.current_view = 2 ∧
      (back_event_callback h state).2.ble_menu.selected = state.last_ble_category_index) ∧
    (state.previous_view = 20 →
      (back_event_callback h state).2.current_view = 20 ∧
      (back_event_callback h state).2.ble_scanning_menu.selected = state.last_ble_scanning_index) ∧
    (state.previous_view = 21 →
      (back_event_callback h state).2.current_view = 21 ∧
      (back_event_callback h state).2.ble_capture_menu.selected = state.last_ble_capture_index) ∧
    (state.previous_view = 22 →
      (back_event_callback h state).2.current_view = 22 ∧
      (back_event_callback h state).2.ble_attack_menu.selected = state.last_ble_attack_index) ∧
    (state.previous_view = 3 →
      (back_event_callback h state).2.current_view = 3 ∧
      (back_event_callback h state).2.gps_menu.selected = state.last_gps_index) ∧
    (state.previous_view = 8 ∨ state.previous_view = 4 →
      (back_event_callback h state).2.current_view = state.previous_view ∧
      (back_event_callback h state).2.wifi_menu = state.wifi_menu ∧
      (back_event_callback h state).2.wifi_scanning_menu = state.wifi_scanning_menu ∧
      (back_event_callback h state).2.wifi_capture_menu = state.wifi_capture_menu ∧
      (back_event_callback h state).2.wifi_attack_menu = state.wifi_attack_menu ∧
      (back_event_callback h state).2.wifi_network_menu = state.wifi_network_menu ∧
      (back_event_callback h state).2.wifi_settings_menu = state.wifi_settings_menu ∧
      (back_event_callback h state).2.ble_menu = state.ble_menu ∧
      (back_event_callback h state).2.ble_scanning_menu = state.ble_scanning_menu ∧
      (back_event_callback h state).2.ble_capture_menu = state.ble_capture_menu ∧
      (back_event_callback h state).2.ble_attack_menu = state.ble_attack_menu ∧
      (back_event_callback h state).2.ble_chameleon_menu = state.ble_chameleon_menu ∧
      (back_event_callback h state).2.gps_menu = state.gps_menu) := by
  rw [back_event_view5 h state hv]
  refine ⟨rfl, ?_, ?_, ?_, ?_, ?_, ?_, ?_, ?_, ?_, ?_, ?_, ?_⟩
  · intro hp
    cases hb : state.textBoxBuffer.isSome <;>
      by_cases hs : state.settings.stop_on_back_index = 0 <;>
      simp [terminal_exit, hp, hb, hs, send_uart_command, restore_previous_menu, show_wifi_menu,
        show_menu, submenu_set_selected_item]
  · intro hp
    cases hb : state.textBoxBuffer.isSome <;>
      by_cases hs : state.settings.stop_on_back_index = 0 <;>
      simp [terminal_exit, hp, hb, hs, send_uart_command, restore_previous_menu, show_wifi_scanning_menu,
        show_menu, submenu_set_selected_item]
  · intro hp
    cases hb : state.textBoxBuffer.isSome <;>
      by_cases hs : state.settings.stop_on_back_index = 0 <;>
      simp [terminal_exit, hp, hb, hs, send_uart_command, restore_previous_menu, show_wifi_capture_menu,
        show_menu, submenu_set_selected_item]
  · intro hp
    cases hb : state.textBoxBuffer.isSome <;>
      by_cases hs : state.settings.stop_on_back_index = 0 <;>
      simp [terminal_exit, hp, hb, hs, send_uart_command, restore_previous_menu, show_wifi_attack_menu,
        show_menu, submenu_set_selected_item]
  · intro hp
    cases hb : state.textBoxBuffer.isSome <;>
      by_cases hs : state.settings.stop_on_back_index = 0 <;>
      simp [terminal_exit, hp, hb, hs, send_uart_command, restore_previous_menu, show_wifi_network_menu,
        show_menu, submenu_set_selected_item]
  · intro hp
    cases hb : state.textBoxBuffer.isSome <;>
      by_cases hs : state.settings.stop_on_back_index = 0 <;>
      simp [terminal_exit, hp, hb, hs, send_uart_command, restore_previous_menu, show_wifi_settings_menu,
        show_menu, submenu_set_selected_item]
  · intro hp
    cases hb : state.textBoxBuffer.isSome <;>
      by_cases hs : state.settings.stop_on_back_index = 0 <;>
      simp [terminal_exit, hp, hb, hs, send_uart_command, restore_previous_menu, show_ble_menu,
        show_menu, submenu_set_selected_item]
  · intro hp
    cases hb : state.textBoxBuffer.isSome <;>
      by_cases hs : state.settings.stop_on_back_index = 0 <;>
      simp [terminal_exit, hp, hb, hs, send_uart_command, restore_previous_menu, show_ble_scanning_menu,
        show_menu, submenu_set_selected_item]
  · intro hp
    cases hb : state.textBoxBuffer.isSome <;>
      by_cases hs : state.settings.stop_on_back_index = 0 <;>
      simp [terminal_exit, hp, hb, hs, send_uart_command, restore_previous_menu, show_ble_capture_menu,
        show_menu, submenu_set_selected_item]
  · intro hp
    cases hb : state.textBoxBuffer.isSome <;>
      by_cases hs : state.settings.stop_on_back_index = 0 <;>
      simp [terminal_exit, hp, hb, hs, send_uart_command, restore_previous_menu, show_ble_attack_menu,
        show_menu, submenu_set_selected_item]
  · intro hp
    cases hb : state.textBoxBuffer.isSome <;>
      by_cases hs : state.settings.stop_on_back_index = 0 <;>
      simp [terminal_exit, hp, hb, hs, send_uart_command, restore_previous_menu, show_gps_menu,
        show_menu, submenu_set_selected_item]
  · intro hp
    cases hb : state.textBoxBuffer.isSome <;>
      by_cases hs : state.settings.stop_on_back_index = 0 <;>
      simp [terminal_exit, hp, hb, hs, send_uart_command]

/-! ## C16 -/

/-- C16: in every state with current_view 6 and previous_view a list view (1, 2, 3, 10 to
14, 20 to 23), back_event_callback returns true, clears the pending command, makes
current_view equal to previous_view and sets the highlighted row of that list view to its
remembered index. -/
theorem back_from_text_input (h : HeaderDecls) (state : AppState)
    (hv : state.current_view = 6) :
    (back_event_callback h state).1 = true ∧
    (back_event_callback h state).2.uart_command = none ∧
    (state.previous_view = 1 →
      (back_event_callback h state).2.current_view = 1 ∧
      (back_event_callback h state).2.wifi_menu.selected = state.last_wifi_category_index) ∧
    (state.previous_view = 10 →
      (back_event_callback h state).2.current_view = 10 ∧
      (back_event_callback h state).2.wifi_scanning_menu.selected = state.last_wifi_scanning_index) ∧
    (state.previous_view = 11 →
      (back_event_callback h state).2.current_view = 11 ∧
      (back_event_callback h state).2.wifi_capture_menu.selected = state.last_wifi_capture_index) ∧
    (state.previous_view = 12 →
      (back_event_callback h state).2.current_view = 12 ∧
      (back_event_callback h state).2.wifi_attack_menu.selected = state.last_wifi_attack_index) ∧
    (state.previous_view = 13 →
      (back_event_callback h state).2.current_view = 13 ∧
      (back_event_callback h state).2.wifi_network_menu.selected = state.last_wifi_network_index) ∧
    (state.previous_view = 14 →
      (back_event_callback h state).2.current_view = 14 ∧
      (back_event_callback h state).2.wifi_settings_menu.selected = state.last_wifi_settings_index) ∧
    (state.previous_view = 2 →
      (back_event_callback h state).2.current_view = 2 ∧
      (back_event_callback h state).2.ble_menu.selected = state.last_ble_category_index) ∧
    (state.previous_view = 20 →
      (back_event_callback h state).2.current_view = 20 ∧
      (back_event_callback h state).2.ble_scanning_menu.selected = state.last_ble_scanning_index) ∧
    (state.previous_view = 21 →
      (back_event_callback h state).2.current_view = 21 ∧
      (back_event_callback h state).2.ble_capture_menu.selected = state.last_ble_capture_index) ∧
    (state.previous_view = 22 →
      (back_event_callback h state).2.current_view = 22 ∧
      (back_event_callback h state).2.ble_attack_menu.selected = state.last_ble_attack_index) ∧
    (state.previous_view = 23 →
      (back_event_callback h state).2.current_view = 23 ∧
      (back_event_callback h state).2.ble_chameleon_menu.selected = state.last_ble_chameleon_index) ∧
    (state.previous_view = 3 →
      (back_event_callback h state).2.current_view = 3 ∧
      (back_event_callback h state).2.gps_menu.selected = state.last_gps_index) := by
  rw [back_event_view6 h state hv]
  refine ⟨rfl, ?_, ?_, ?_, ?_, ?_, ?_, ?_, ?_, ?_, ?_, ?_, ?_, ?_⟩
  · rw [(restore_previous_menu_frame h true (text_input_exit state)).2.2.1]
    exact (text_input_exit_frame state).2.2.1
  · intro hp
    by_cases hs : state.settings.stop_on_back_index = 0 <;>
      simp [text_input_exit, hp, hs, send_uart_command, restore_previous_menu, show_wifi_menu,
        show_menu, submenu_set_selected_item]
  · intro hp
    by_cases hs : state.settings.stop_on_back_index = 0 <;>
      simp [text_input_exit, hp, hs, send_uart_command, restore_previous_menu, show_wifi_scanning_menu,
        show_menu, submenu_set_selected_item]
  · intro hp
    by_cases hs : state.settings.stop_on_back_index = 0 <;>
      simp [text_input_exit, hp, hs, send_uart_command, restore_previous_menu, show_wifi_capture_menu,
        show_menu, submenu_set_selected_item]
  · intro hp
    by_cases hs : state.settings.stop_on_back_index = 0 <;>
      simp [text_input_exit, hp, hs, send_uart_command, restore_previous_menu, show_wifi_attack_menu,
        show_menu, submenu_set_selected_item]
  · intro hp
    by_cases hs : state.settings.stop_on_back_index = 0 <;>
      simp [text_input_exit, hp, hs, send_uart_command, restore_previous_menu, show_wifi_network_menu,
        show_menu, submenu_set_selected_item]
  · intro hp
    by_cases hs : state.settings.stop_on_back_index = 0 <;>
      simp [text_input_exit, hp, hs, send_uart_command, restore_previous_menu, show_wifi_settings_menu,
        show_menu, submenu_set_selected_item]
  · intro hp
    by_cases hs : state.settings.stop_on_back_index = 0 <;>
      simp [text_input_exit, hp, hs, send_uart_command, restore_previous_menu, show_ble_menu,
        show_menu, submenu_set_selected_item]
  · intro hp
    by_cases hs : state.settings.stop_on_back_index = 0 <;>
      simp [text_input_exit, hp, hs, send_uart_command, restore_previous_menu, show_ble_scanning_menu,
        show_menu, submenu_set_selected_item]
  · intro hp
    by_cases hs : state.settings.stop_on_back_index = 0 <;>
      simp [text_input_exit, hp, hs, send_uart_command, restore_previous_menu, show_ble_capture_menu,
        show_menu, submenu_set_selected_item]
  · intro hp
    by_cases hs : state.settings.stop_on_back_index = 0 <;>
      simp [text_input_exit, hp, hs, send_uart_command, restore_previous_menu, show_ble_attack_menu,
        show_menu, submenu_set_selected_item]
  · intro hp
    by_cases hs : state.settings.stop_on_back_index = 0 <;>
      simp [text_input_exit, hp, hs, send_uart_command, restore_previous_menu, show_ble_chameleon_menu,
        show_menu, submenu_set_selected_item]
  · intro hp
    by_cases hs : state.settings.stop_on_back_index = 0 <;>
      simp [text_input_exit, hp, hs, send_uart_command, restore_previous_menu, show_gps_menu,
        show_menu, submenu_set_selected_item]

/-- Witness of C16: the SSID prompt opened from Portal & Network with row 2 remembered;
Back returns to view 13 with row 2 highlighted. -/
theorem back_from_text_input_witness :
    (press sample_decls InputKey.InputKeyOk
      (press sample_decls InputKey.InputKeyDown (press sample_decls InputKey.InputKeyDown
        (show_wifi_network_menu (initial_state true true 0))))).current_view = 6 ∧
    (back_event_callback sample_decls (press sample_decls InputKey.InputKeyOk
      (press sample_decls InputKey.InputKeyDown (press sample_decls InputKey.InputKeyDown
        (show_wifi_network_menu (initial_state true true 0)))))).2.current_view = 13 ∧
    (back_event_callback sample_decls (press sample_decls InputKey.InputKeyOk
      (press sample_decls InputKey.InputKeyDown (press sample_decls InputKey.InputKeyDown
        (show_wifi_network_menu (initial_state true true 0)))))).2.wifi_network_menu.selected
      = 2 :=
  ⟨rfl, (back_from_text_input sample_decls (press sample_decls InputKey.InputKeyOk
      (press sample_decls InputKey.InputKeyDown (press sample_decls InputKey.InputKeyDown
        (show_wifi_network_menu (initial_state true true 0))))) rfl).2.2.2.2.2.2.1 rfl⟩

/-! ## C17 -/

/-- C17: back_event_callback never writes the settings, and what it sends is decided by the
view and the stop-on-back setting alone: on view 5 and on view 6 exactly one send, the stop
command and a newline, when stop_on_back_index is non-zero and nothing when it is zero; on
every other view nothing. -/
theorem back_stop_gate (h : HeaderDecls) (state : AppState) :
    (back_event_callback h state).2.settings = state.settings ∧
    (back_event_callback h state).2.uart_context.sent =
      (if (state.current_view = 5 ∨ state.current_view = 6) ∧
          state.settings.stop_on_back_index ≠ 0
        then state.uart_context.sent ++ ["stop\n"]
        else state.uart_context.sent) := by
  by_cases h5 : state.current_view = 5
  · rw [back_event_view5 h state h5]
    have hf := terminal_exit_frame state
    have hr := restore_previous_menu_frame h false (terminal_exit state)
    by_cases hp : state.previous_view = 8 ∨ state.previous_view = 4
    · simp only [if_pos hp]
      refine ⟨hf.2.1, ?_⟩
      show (terminal_exit state).uart_context.sent = _
      rw [hf.2.2]
      simp [h5]
    · simp only [if_neg hp]
      refine ⟨hr.2.1.trans hf.2.1, ?_⟩
      rw [hr.1, hf.2.2]
      simp [h5]
  · by_cases h6 : state.current_view = 6
    · rw [back_event_view6 h state h6]
      have hf := text_input_exit_frame state
      have hr := restore_previous_menu_frame h true (text_input_exit state)
      refine ⟨hr.2.1.trans hf.2.1, ?_⟩
      rw [hr.1, hf.2.2.2]
      simp [h6]
    · have hno : ¬ ((state.current_view = 5 ∨ state.current_view = 6) ∧
          state.settings.stop_on_back_index ≠ 0) := fun hh => hh.1.elim h5 h6
      rw [if_neg hno]
      unfold back_event_callback
      simp only [if_neg h5, if_neg h6]
      split_ifs <;> exact ⟨rfl, rfl⟩

/-! ## C18 -/

/-- C18: with the transport connected, a descriptor with needs_input and needs_confirmation
clear and no capture field, dispatched from a view and row that is none of the four variant
slots, makes execute_menu_command send exactly the bytes of its command, once and
unmodified, set previous_view to the current_view on entry and current_view to 5. -/
theorem plain_dispatch (h : HeaderDecls) (state : AppState) (command : MenuCommand)
    (hconn : state.uart_context.esp_connected = true)
    (hinput : command.needs_input = false)
    (hconf : command.needs_confirmation = false)
    (hcap : has_capture command = false)
    (hsniff : ¬ sniff_slot state)
    (hplain : ¬ plain_variant_slot state) :
    (execute_menu_command h state command).uart_context.sent =
      state.uart_context.sent ++ [command.command] ∧
    (execute_menu_command h state command).previous_view = state.current_view ∧
    (execute_menu_command h state command).current_view = 5 := by
  have h11 : ¬ (state.current_view = 11 ∧ state.current_index = 0) := hsniff
  have h12 : ¬ (state.current_view = 12 ∧ state.current_index = 0) :=
    fun hh => hplain ⟨Or.inl hh.1, hh.2⟩
  have h14 : ¬ (state.current_view = 14 ∧ state.current_index = 0) :=
    fun hh => hplain ⟨Or.inr (Or.inl hh.1), hh.2⟩
  have h22 : ¬ (state.current_view = 22 ∧ state.current_index = 0) :=
    fun hh => hplain ⟨Or.inr (Or.inr hh.1), hh.2⟩
  simp only [execute_menu_command, uart_is_esp_connected, hconn, hinput, hconf, hcap,
    if_neg h11, if_neg h12, if_neg h14, if_neg h22]
  simp [uart_receive_data_sent, uart_receive_data_previous_view, send_uart_command, uart_send]

/-- Witness of C18: the Deauth row of the attack page, dispatched with row 1 current. -/
theorem plain_dispatch_witness :
    (execute_menu_command sample_decls
      { show_wifi_attack_menu (initial_state true true 0) with current_index := 1 }
      (wifi_attack_commands.getD 1 wifi_stop_command)).uart_context.sent = [] ++ ["attack -d\n"] ∧
    (execute_menu_command sample_decls
      { show_wifi_attack_menu (initial_state true true 0) with current_index := 1 }
      (wifi_attack_commands.getD 1 wifi_stop_command)).previous_view = 12 ∧
    (execute_menu_command sample_decls
      { show_wifi_attack_menu (initial_state true true 0) with current_index := 1 }
      (wifi_attack_commands.getD 1 wifi_stop_command)).current_view = 5 :=
  plain_dispatch sample_decls
    { show_wifi_attack_menu (initial_state true true 0) with current_index := 1 }
    (wifi_attack_commands.getD 1 wifi_stop_command) rfl rfl rfl rfl
    (by unfold sniff_slot; decide) (by unfold plain_variant_slot; decide)

/-! ## C19 -/

/-- C19: on view 12 with row 0 highlighted and the beacon cycle index at the last entry of
its table (3, the custom variant), a short-press OK with the transport connected sends
nothing, sets current_view to 6 with the text-input header SSID Name and remembers
beaconspam as the pending command; with no connect flow in progress (stage neither 1 nor 2)
submitting a text of at most 127 bytes then sends exactly once, the bytes beaconspam, a
blank, the text and a newline. -/
theorem beacon_custom_flow (h : HeaderDecls) (state : AppState) (text : String)
    (hv : state.current_view = 12)
    (hsel : state.wifi_attack_menu.selected = 0)
    (hidx : state.current_beacon_index = beacon_spam_commands.length - 1)
    (hconn : state.uart_context.esp_connected = true)
    (h1 : state.connect_input_stage ≠ 1) (h2 : state.connect_input_stage ≠ 2)
    (hlen : text.length ≤ 127) :
    (press h InputKey.InputKeyOk state).uart_context.sent = state.uart_context.sent ∧
    (press h InputKey.InputKeyOk state).current_view = 6 ∧
    (press h InputKey.InputKeyOk state).view_dispatcher.current_view = 6 ∧
    (press h InputKey.InputKeyOk state).text_input.header = some "SSID Name" ∧
    (press h InputKey.InputKeyOk state).uart_command = some "beaconspam" ∧
    (submit_text h text (press h InputKey.InputKeyOk state)).uart_context.sent =
      state.uart_context.sent ++ ["beaconspam " ++ text ++ "\n"] := by
  have hline : snprintf 256 ("beaconspam " ++ text ++ "\n") = "beaconspam " ++ text ++ "\n" := by
    apply snprintf_fits
    simp only [String.length_append]
    have e1 : "beaconspam ".length = 11 := by decide
    have e2 : "\n".length = 1 := by decide
    omega
  have hline2 : snprintf 256 ("beaconspam" ++ " " ++ text ++ "\n") =
      "beaconspam " ++ text ++ "\n" := by
    have : "beaconspam" ++ " " = "beaconspam " := by decide
    rw [this, hline]
  have hidx3 : state.current_beacon_index = 3 := hidx
  simp [press, menu_input_handler, menu_context, hv, hsel, submenu_get_selected_item,
    wifi_attack_commands, save_last_selection, execute_menu_command, uart_is_esp_connected,
    hconn, hidx3, beacon_spam_commands, variant_at, begin_text_input, submit_text,
    text_input_result_callback, h1, h2, send_uart_command_with_text, uart_send,
    uart_receive_data_sent, text_input_reset, text_input_set_header_text,
    text_input_set_result_callback, view_dispatcher_switch_to_view, c_str, hline, hline2]

/-- Witness of C19: the attack page cycled once to the left, which selects the custom
variant, then OK and the text FreeWifi. -/
theorem beacon_custom_flow_witness :
    (press sample_decls InputKey.InputKeyLeft
      (show_wifi_attack_menu (initial_state true true 0))).current_beacon_index = 3 ∧
    (submit_text sample_decls "FreeWifi" (press sample_decls InputKey.InputKeyOk
      (press sample_decls InputKey.InputKeyLeft
        (show_wifi_attack_menu (initial_state true true 0))))).uart_context.sent =
      [] ++ ["beaconspam " ++ "FreeWifi" ++ "\n"] :=
  ⟨rfl, (beacon_custom_flow sample_decls
    (press sample_decls InputKey.InputKeyLeft (show_wifi_attack_menu (initial_state true true 0)))
    "FreeWifi" rfl rfl rfl rfl (by decide) (by decide) (by decide)).2.2.2.2.2⟩

/-! ## C20 -/

/-- C20: confirmation_ok_callback on a context holding the state and a descriptor.  Without
a capture field it sends the command of the descriptor, once.  With a capture field it
first requests the capture sink with the three fields of the descriptor: when the sink
opens, the command is sent, once, in the state the request has left; when the sink fails to
open, nothing is sent.  On a context that is null or whose state or descriptor is missing it
returns the state unchanged, so it sends nothing and changes no navigation state. -/
theorem confirmation_ok_sends (state : AppState) :
    (∀ command : MenuCommand, has_capture command = false →
      (confirmation_ok_callback (some { state := true, command := some command })
        state).uart_context.sent = state.uart_context.sent ++ [command.command]) ∧
    (∀ command : MenuCommand, has_capture command = true →
      state.uart_context.file_opens = true →
      confirmation_ok_callback (some { state := true, command := some command }) state =
        send_uart_command command.command
          (uart_receive_data state (c_str command.capture_prefix) (c_str command.file_ext)
            (c_str command.folder)).2 ∧
      (uart_receive_data state (c_str command.capture_prefix) (c_str command.file_ext)
        (c_str command.folder)).2.uart_context.opened =
        state.uart_context.opened ++
          [(c_str command.capture_prefix, c_str command.file_ext, c_str command.folder)] ∧
      (uart_receive_data state (c_str command.capture_prefix) (c_str command.file_ext)
        (c_str command.folder)).2.uart_context.sent = state.uart_context.sent ∧
      (confirmation_ok_callback (some { state := true, command := some command })
        state).uart_context.sent = state.uart_context.sent ++ [command.command] ∧
      (confirmation_ok_callback (some { state := true, command := some command })
        state).uart_context.opened =
        state.uart_context.opened ++
          [(c_str command.capture_prefix, c_str command.file_ext, c_str command.folder)]) ∧
    (∀ command : MenuCommand, has_capture command = true →
      state.uart_context.file_opens = false →
      (confirmation_ok_callback (some { state := true, command := some command })
        state).uart_context.sent = state.uart_context.sent ∧
      (confirmation_ok_callback (some { state := true, command := some command })
        state).uart_context.opened =
        state.uart_context.opened ++
          [(c_str command.capture_prefix, c_str command.file_ext, c_str command.folder)]) ∧
    confirmation_ok_callback none state = state ∧
    (∀ command : Option MenuCommand,
      confirmation_ok_callback (some { state := false, command := command }) state = state) ∧
    (∀ present : Bool,
      confirmation_ok_callback (some { state := present, command := none }) state = state) := by
  refine ⟨?_, ?_, ?_, rfl, ?_, ?_⟩
  · intro command hcap
    simp [confirmation_ok_callback, hcap, uart_receive_data_sent, send_uart_command, uart_send]
  · intro command hcap hopen
    simp [confirmation_ok_callback, hcap, uart_receive_data, hopen, send_uart_command, uart_send]
  · intro command hcap hfail
    simp [confirmation_ok_callback, hcap, uart_receive_data, hfail]
  · intro command
    rfl
  · intro present
    cases present <;> rfl

/-- Witness of C20: confirming Reboot Device sends the reboot command; a context without a
descriptor sends nothing. -/
theorem confirmation_ok_sends_witness :
    (confirmation_ok_callback
      (some { state := true, command := some (wifi_settings_commands.getD 10 wifi_stop_command) })
      (initial_state true true 0)).uart_context.sent = [] ++ ["reboot\n"] ∧
    confirmation_ok_callback (some { state := true, command := none })
      (initial_state true true 0) = initial_state true true 0 :=
  ⟨(confirmation_ok_sends (initial_state true true 0)).1
      (wifi_settings_commands.getD 10 wifi_stop_command) rfl,
    (confirmation_ok_sends (initial_state true true 0)).2.2.2.2.2 true⟩

/-! ## C11 -/

theorem uart_receive_data_came_from_settings (state : AppState) (pfx ext folder : String) :
    (uart_receive_data state pfx ext folder).2.came_from_settings =
      state.came_from_settings := by
  cases hopen : state.uart_context.file_opens <;> simp [uart_receive_data, hopen]

/-- One step keeps the navigation invariant when it clears the flag, or keeps the flag and
can put view 0 into current_view or previous_view only if one of them held it before. -/
theorem nav_inv_step (before after : AppState)
    (hstep : after.came_from_settings = false ∨
      (after.came_from_settings = before.came_from_settings ∧
        (after.current_view = 0 → before.current_view = 0 ∨ before.previous_view = 0) ∧
        (after.previous_view = 0 → before.current_view = 0 ∨ before.previous_view = 0)))
    (hinv : nav_inv before) : nav_inv after := by
  intro hz
  rcases hstep with hf | ⟨hc, h1, h2⟩
  · exact hf
  · rw [hc]
    exact hinv (hz.elim h1 h2)

/-- The navigation fields after execute_menu_command: the flag is kept, current_view is
kept or becomes 5, 6 or 7, previous_view is kept or becomes the current_view on entry. -/
theorem execute_menu_command_nav (h : HeaderDecls) (state : AppState) (command : MenuCommand) :
    (execute_menu_command h state command).came_from_settings = state.came_from_settings ∧
    ((execute_menu_command h state command).current_view = state.current_view ∨
      (execute_menu_command h state command).current_view = 5 ∨
      (execute_menu_command h state command).current_view = 6 ∨
      (execute_menu_command h state command).current_view = 7) ∧
    ((execute_menu_command h state command).previous_view = state.previous_view ∨
      (execute_menu_command h state command).previous_view = state.current_view) := by
  by_cases hc : state.uart_context.esp_connected = true
  swap
  · simp [execute_menu_command, uart_is_esp_connected, hc]
  by_cases hi : command.needs_input = true
  · by_cases hcon : command.command = "connect" <;>
      simp [execute_menu_command, uart_is_esp_connected, hc, hi, hcon, begin_text_input]
  by_cases hconf : command.needs_confirmation = true
  · simp [execute_menu_command, uart_is_esp_connected, hc, hi, hconf]
  by_cases h11 : state.current_view = 11 ∧ state.current_index = 0
  · cases hp : SniffCommandDef.capture_prefix (sniff_at state.current_sniff_index) <;>
      cases ho : state.uart_context.file_opens <;>
      simp [execute_menu_command, uart_is_esp_connected, hc, hi, hconf, h11, hp, ho,
        show_terminal_and_send, send_uart_command, uart_receive_data]
  by_cases h12 : state.current_view = 12 ∧ state.current_index = 0
  · by_cases hb : state.current_beacon_index = beacon_spam_commands.length - 1 <;>
      simp [execute_menu_command, uart_is_esp_connected, hc, hi, hconf, h12, hb,
        begin_text_input, show_terminal_and_send, send_uart_command,
        uart_receive_data_came_from_settings, uart_receive_data_previous_view]
  by_cases h14 : state.current_view = 14 ∧ state.current_index = 0
  · simp [execute_menu_command, uart_is_esp_connected, hc, hi, hconf, h14,
      show_terminal_and_send, send_uart_command,
      uart_receive_data_came_from_settings, uart_receive_data_previous_view]
  by_cases h22 : state.current_view = 22 ∧ state.current_index = 0
  · simp [execute_menu_command, uart_is_esp_connected, hc, hi, hconf, h22,
      show_terminal_and_send, send_uart_command,
      uart_receive_data_came_from_settings, uart_receive_data_previous_view]
  simp only [execute_menu_command, uart_is_esp_connected, hc, hi, hconf,
    if_neg h11, if_neg h12, if_neg h14, if_neg h22]
  by_cases hcap : has_capture command = true <;>
    cases ho : state.uart_context.file_opens <;>
    simp [hcap, ho, send_uart_command, uart_receive_data]

theorem nav_step_inv (before after : AppState) (hstep : nav_step before after)
    (hinv : nav_inv before) : nav_inv after :=
  nav_inv_step before after hstep hinv

theorem nav_step_same (before after : AppState)
    (hc : after.came_from_settings = before.came_from_settings)
    (hv : after.current_view = before.current_view)
    (hp : after.previous_view = before.previous_view) : nav_step before after :=
  Or.inr ⟨hc, fun hz => Or.inl (hv ▸ hz), fun hz => Or.inr (hp ▸ hz)⟩

theorem nav_step_congr (before mid after : AppState)
    (hc : mid.came_from_settings = before.came_from_settings)
    (hv : mid.current_view = before.current_view)
    (hp : mid.previous_view = before.previous_view)
    (hstep : nav_step mid after) : nav_step before after := by
  unfold nav_step at *
  rw [hc, hv, hp] at hstep
  exact hstep

theorem nav_step_execute (h : HeaderDecls) (state : AppState) (command : MenuCommand) :
    nav_step state (execute_menu_command h state command) := by
  obtain ⟨hc, hv, hp⟩ := execute_menu_command_nav h state command
  refine Or.inr ⟨hc, ?_, ?_⟩
  · intro hz
    rcases hv with hv | hv | hv | hv <;> omega
  · intro hz
    rcases hp with hp | hp <;> omega

theorem nav_step_handle_wifi_menu (h : HeaderDecls) (state : AppState) (index : Nat) :
    nav_step state (handle_wifi_menu h state index) := by
  unfold handle_wifi_menu
  split <;> (try dsimp only) <;> (try split_ifs) <;> (try dsimp only) <;> (try split) <;>
    first
    | exact nav_step_same _ _ rfl rfl rfl
    | exact nav_step_congr _ _ _ rfl rfl rfl (nav_step_execute h _ _)

theorem nav_step_handle_ble_menu (h : HeaderDecls) (state : AppState) (index : Nat) :
    nav_step state (handle_ble_menu h state index) := by
  unfold handle_ble_menu
  split <;> (try dsimp only) <;> (try split_ifs) <;> (try dsimp only) <;> (try split) <;>
    first
    | exact nav_step_same _ _ rfl rfl rfl
    | exact nav_step_congr _ _ _ rfl rfl rfl (nav_step_execute h _ _)

theorem nav_step_handle_gps_menu (h : HeaderDecls) (state : AppState) (index : Nat) :
    nav_step state (handle_gps_menu h state index) := by
  unfold handle_gps_menu
  split <;>
    first
    | exact nav_step_same _ _ rfl rfl rfl
    | exact nav_step_congr _ _ _ rfl rfl rfl (nav_step_execute h _ _)

theorem nav_step_show_main_menu (state : AppState) : nav_step state (show_main_menu state) :=
  Or.inl rfl

theorem nav_step_show_gps_menu (state : AppState) : nav_step state (show_gps_menu state) :=
  Or.inl rfl

theorem nav_step_show_wifi_menu (state : AppState) : nav_step state (show_wifi_menu state) :=
  Or.inr ⟨rfl, fun hz => by simp [show_wifi_menu] at hz, fun hz => Or.inr hz⟩

theorem nav_step_show_ble_menu (state : AppState) : nav_step state (show_ble_menu state) :=
  Or.inr ⟨rfl, fun hz => by simp [show_ble_menu] at hz, fun hz => Or.inr hz⟩

/-- A step that keeps the flag and leaves both current_view and previous_view non-zero. -/
theorem nav_step_nonzero (before after : AppState)
    (hc : after.came_from_settings = before.came_from_settings)
    (hv : after.current_view ≠ 0) (hp : after.previous_view ≠ 0) : nav_step before after :=
  Or.inr ⟨hc, fun hz => absurd hz hv, fun hz => absurd hz hp⟩

theorem nav_step_show_leaf (h : HeaderDecls) (state : AppState) :
    nav_step state (show_wifi_scanning_menu state) ∧
    nav_step state (show_wifi_capture_menu h state) ∧
    nav_step state (show_wifi_attack_menu state) ∧
    nav_step state (show_wifi_network_menu state) ∧
    nav_step state (show_wifi_settings_menu state) ∧
    nav_step state (show_ble_scanning_menu h state) ∧
    nav_step state (show_ble_capture_menu h state) ∧
    nav_step state (show_ble_attack_menu state) ∧
    nav_step state (show_ble_chameleon_menu state) := by
  refine ⟨?_, ?_, ?_, ?_, ?_, ?_, ?_, ?_, ?_⟩ <;>
    refine nav_step_nonzero _ _ rfl ?_ ?_ <;>
    simp [show_wifi_scanning_menu, show_wifi_capture_menu, show_wifi_attack_menu,
      show_wifi_network_menu, show_wifi_settings_menu, show_ble_scanning_menu,
      show_ble_capture_menu, show_ble_attack_menu, show_ble_chameleon_menu, show_menu]

theorem nav_step_confirmation_ok (context : Option MenuCommandContext) (state : AppState) :
    nav_step state (confirmation_ok_callback context state) := by
  unfold confirmation_ok_callback
  split
  · rename_i command
    by_cases hcap : has_capture command = true <;>
      cases ho : state.uart_context.file_opens <;>
      refine nav_step_same _ _ ?_ ?_ ?_ <;>
      simp [hcap, ho, uart_receive_data, send_uart_command, uart_send]
  · exact nav_step_same _ _ rfl rfl rfl

theorem nav_step_confirmation_cancel (context : Option MenuCommandContext) (state : AppState) :
    nav_step state (confirmation_cancel_callback context state) := by
  unfold confirmation_cancel_callback
  split
  · split
    · exact nav_step_show_wifi_menu state
    · exact nav_step_show_ble_menu state
    · exact nav_step_show_gps_menu state
    · exact nav_step_show_main_menu state
  · exact nav_step_same _ _ rfl rfl rfl

theorem nav_step_to_previous (state : AppState) :
    nav_step state (app_info_ok_callback state) ∧ nav_step state (error_callback state) :=
  ⟨Or.inr ⟨rfl, fun hz => Or.inr hz, fun hz => Or.inr hz⟩,
    Or.inr ⟨rfl, fun hz => Or.inr hz, fun hz => Or.inr hz⟩⟩

theorem nav_step_show_command_details (state : AppState) (command : MenuCommand) :
    nav_step state (show_command_details state command) := by
  unfold show_command_details
  split_ifs
  · exact nav_step_same _ _ rfl rfl rfl
  · exact Or.inr ⟨rfl, fun hz => by simp at hz, fun hz => Or.inl hz⟩

theorem nav_step_show_menu_help (state : AppState) (index : Nat) :
    nav_step state (show_menu_help state index) :=
  Or.inr ⟨rfl, fun hz => by simp [show_menu_help] at hz, fun hz => Or.inl hz⟩

theorem nav_step_submit_text (h : HeaderDecls) (text : String) (state : AppState) :
    nav_step state (submit_text h text state) := by
  unfold submit_text text_input_result_callback
  split_ifs <;>
    exact nav_step_same _ _
      (by simp [send_uart_command_with_text, uart_receive_data_came_from_settings])
      (by simp [send_uart_command_with_text, uart_receive_data_current_view])
      (by simp [send_uart_command_with_text, uart_receive_data_previous_view])

theorem nav_step_submenu_callback (h : HeaderDecls) (state : AppState) (index : Nat) :
    nav_step state (submenu_callback h state index) := by
  unfold submenu_callback
  dsimp only
  split <;> (try split) <;>
    first
    | exact nav_step_same _ _ rfl rfl rfl
    | exact nav_step_nonzero _ _ rfl (Nat.succ_ne_zero 7) (Nat.succ_ne_zero 7)
    | exact nav_step_congr _ _ _ rfl rfl rfl (nav_step_show_wifi_menu _)
    | exact nav_step_congr _ _ _ rfl rfl rfl (nav_step_show_ble_menu _)
    | exact nav_step_congr _ _ _ rfl rfl rfl (nav_step_show_gps_menu _)
    | exact nav_step_congr _ _ _ rfl rfl rfl (nav_step_show_leaf h _).1
    | exact nav_step_congr _ _ _ rfl rfl rfl (nav_step_show_leaf h _).2.1
    | exact nav_step_congr _ _ _ rfl rfl rfl (nav_step_show_leaf h _).2.2.1
    | exact nav_step_congr _ _ _ rfl rfl rfl (nav_step_show_leaf h _).2.2.2.1
    | exact nav_step_congr _ _ _ rfl rfl rfl (nav_step_show_leaf h _).2.2.2.2.2.1
    | exact nav_step_congr _ _ _ rfl rfl rfl (nav_step_show_leaf h _).2.2.2.2.2.2.1
    | exact nav_step_congr _ _ _ rfl rfl rfl (nav_step_show_leaf h _).2.2.2.2.2.2.2.1
    | exact nav_step_congr _ _ _ rfl rfl rfl (nav_step_show_leaf h _).2.2.2.2.2.2.2.2
    | exact nav_step_congr _ _ _ rfl rfl rfl (nav_step_execute h _ _)
    | exact nav_step_congr _ _ _ rfl rfl rfl (nav_step_handle_gps_menu h _ _)
    | exact nav_step_congr _ _ _ rfl rfl rfl (nav_step_handle_ble_menu h _ _)

theorem nav_step_post (before mid after : AppState)
    (hc : after.came_from_settings = mid.came_from_settings)
    (hv : after.current_view = mid.current_view)
    (hp : after.previous_view = mid.previous_view)
    (hstep : nav_step before mid) : nav_step before after := by
  unfold nav_step at *
  rw [hc, hv, hp]
  exact hstep

theorem nav_step_restore (h : HeaderDecls) (with_23 : Bool) (state : AppState) :
    nav_step state (restore_previous_menu h with_23 state) := by
  unfold restore_previous_menu
  split <;> (try split_ifs) <;>
    first
    | exact nav_step_show_main_menu state
    | exact nav_step_post _ _ _ rfl rfl rfl (nav_step_show_wifi_menu state)
    | exact nav_step_post _ _ _ rfl rfl rfl (nav_step_show_ble_menu state)
    | exact nav_step_post _ _ _ rfl rfl rfl (nav_step_show_gps_menu state)
    | exact nav_step_post _ _ _ rfl rfl rfl (nav_step_show_leaf h state).1
    | exact nav_step_post _ _ _ rfl rfl rfl (nav_step_show_leaf h state).2.1
    | exact nav_step_post _ _ _ rfl rfl rfl (nav_step_show_leaf h state).2.2.1
    | exact nav_step_post _ _ _ rfl rfl rfl (nav_step_show_leaf h state).2.2.2.1
    | exact nav_step_post _ _ _ rfl rfl rfl (nav_step_show_leaf h state).2.2.2.2.1
    | exact nav_step_post _ _ _ rfl rfl rfl (nav_step_show_leaf h state).2.2.2.2.2.1
    | exact nav_step_post _ _ _ rfl rfl rfl (nav_step_show_leaf h state).2.2.2.2.2.2.1
    | exact nav_step_post _ _ _ rfl rfl rfl (nav_step_show_leaf h state).2.2.2.2.2.2.2.1
    | exact nav_step_post _ _ _ rfl rfl rfl (nav_step_show_leaf h state).2.2.2.2.2.2.2.2

theorem terminal_exit_nav (state : AppState) :
    (terminal_exit state).came_from_settings = state.came_from_settings ∧
    (terminal_exit state).current_view = state.current_view ∧
    (terminal_exit state).previous_view = state.previous_view := by
  cases hb : state.textBoxBuffer.isSome <;>
    by_cases hs : state.settings.stop_on_back_index = 0 <;>
    simp [terminal_exit, hb, hs, send_uart_command]

theorem text_input_exit_nav (state : AppState) :
    (text_input_exit state).came_from_settings = state.came_from_settings ∧
    (text_input_exit state).current_view = state.current_view ∧
    (text_input_exit state).previous_view = state.previous_view := by
  by_cases hs : state.settings.stop_on_back_index = 0 <;>
    simp [text_input_exit, hs, send_uart_command]

theorem nav_step_back_event (h : HeaderDecls) (state : AppState) :
    nav_step state (back_event_callback h state).2 := by
  by_cases h5 : state.current_view = 5
  · rw [back_event_view5 h state h5]
    obtain ⟨hc, hv, hp⟩ := terminal_exit_nav state
    dsimp only
    split_ifs with hprev
    · refine nav_step_nonzero _ _ hc ?_ ?_
      · show state.previous_view ≠ 0
        omega
      · show (terminal_exit state).previous_view ≠ 0
        omega
    · exact nav_step_congr _ _ _ hc hv hp (nav_step_restore h false _)
  · by_cases h6 : state.current_view = 6
    · rw [back_event_view6 h state h6]
      obtain ⟨hc, hv, hp⟩ := text_input_exit_nav state
      exact nav_step_congr _ _ _ hc hv hp (nav_step_restore h true _)
    · unfold back_event_callback
      simp only [if_neg h5, if_neg h6]
      split_ifs <;>
        first
        | exact nav_step_same _ _ rfl rfl rfl
        | exact Or.inl rfl
        | exact Or.inr ⟨rfl, fun hz => absurd hz (Nat.succ_ne_zero _), fun hz => Or.inr hz⟩

theorem menu_context_store_nav (h : HeaderDecls) (state : AppState) (menu : Submenu)
    (store : Submenu → AppState → AppState) (commands : List MenuCommand)
    (hctx : menu_context h state = some (menu, store, commands))
    (m : Submenu) (s : AppState) :
    (store m s).came_from_settings = s.came_from_settings ∧
    (store m s).current_view = s.current_view ∧
    (store m s).previous_view = s.previous_view := by
  unfold menu_context at hctx
  split at hctx <;>
    first
    | (cases hctx; exact ⟨rfl, rfl, rfl⟩)
    | simp at hctx

theorem save_last_selection_nav (state : AppState) (index : Nat) :
    (save_last_selection state index).came_from_settings = state.came_from_settings ∧
    (save_last_selection state index).current_view = state.current_view ∧
    (save_last_selection state index).previous_view = state.previous_view := by
  unfold save_last_selection
  split_ifs <;> (try split) <;> exact ⟨rfl, rfl, rfl⟩

theorem nav_step_menu_input (h : HeaderDecls) (event : InputEvent) (state : AppState) :
    nav_step state (menu_input_handler h event state).2 := by
  unfold menu_input_handler
  split
  · exact nav_step_same _ _ rfl rfl rfl
  · rename_i menu store commands hctx
    have hst := menu_context_store_nav h state menu store commands hctx
    obtain ⟨ty, key⟩ := event
    cases ty <;> cases key <;> dsimp only
    all_goals first
      | exact nav_step_same _ _ rfl rfl rfl
      | exact nav_step_same _ _ (hst _ _).1 (hst _ _).2.1 (hst _ _).2.2
      | skip
    · split_ifs <;>
        first
        | exact nav_step_same _ _ rfl rfl rfl
        | exact nav_step_same _ _ (hst _ _).1 (hst _ _).2.1 (hst _ _).2.2
    · split_ifs <;>
        first
        | exact nav_step_same _ _ rfl rfl rfl
        | exact nav_step_same _ _ (hst _ _).1 (hst _ _).2.1 (hst _ _).2.2
    · split
      · dsimp only
        refine nav_step_congr _ _ _ ?_ ?_ ?_ (nav_step_execute h _ _)
        · exact (save_last_selection_nav _ _).1
        · exact (save_last_selection_nav _ _).2.1
        · exact (save_last_selection_nav _ _).2.2
      · exact nav_step_same _ _ rfl rfl rfl
    · split_ifs <;>
        first
        | exact nav_step_same _ _ rfl rfl rfl
        | exact Or.inl rfl
        | exact Or.inr ⟨rfl, fun hz => absurd hz (Nat.succ_ne_zero _), fun hz => Or.inr hz⟩
    · split
      · split_ifs
        · exact nav_step_show_command_details _ _
        · exact nav_step_same _ _ rfl rfl rfl
      · exact nav_step_same _ _ rfl rfl rfl

theorem nav_step_apply_op (h : HeaderDecls) (op : Op) (state : AppState) :
    nav_step state (apply_op h op state) := by
  cases op
  case send_uart_command command => exact nav_step_same _ _ rfl rfl rfl
  case send_uart_command_with_text command text => exact nav_step_same _ _ rfl rfl rfl
  case confirmation_ok_callback context => exact nav_step_confirmation_ok context state
  case confirmation_cancel_callback context => exact nav_step_confirmation_cancel context state
  case app_info_ok_callback => exact (nav_step_to_previous state).1
  case show_command_details command => exact nav_step_show_command_details state command
  case error_callback => exact (nav_step_to_previous state).2
  case text_input_result_callback text => exact nav_step_submit_text h text state
  case execute_menu_command command => exact nav_step_execute h state command
  case show_wifi_scanning_menu => exact (nav_step_show_leaf h state).1
  case show_wifi_capture_menu => exact (nav_step_show_leaf h state).2.1
  case show_wifi_attack_menu => exact (nav_step_show_leaf h state).2.2.1
  case show_wifi_network_menu => exact (nav_step_show_leaf h state).2.2.2.1
  case show_wifi_settings_menu => exact (nav_step_show_leaf h state).2.2.2.2.1
  case show_ble_scanning_menu => exact (nav_step_show_leaf h state).2.2.2.2.2.1
  case show_ble_capture_menu => exact (nav_step_show_leaf h state).2.2.2.2.2.2.1
  case show_ble_attack_menu => exact (nav_step_show_leaf h state).2.2.2.2.2.2.2.1
  case show_ble_chameleon_menu => exact (nav_step_show_leaf h state).2.2.2.2.2.2.2.2
  case show_wifi_menu => exact nav_step_show_wifi_menu state
  case show_ble_menu => exact nav_step_show_ble_menu state
  case show_gps_menu => exact nav_step_show_gps_menu state
  case handle_wifi_menu index => exact nav_step_handle_wifi_menu h state index
  case handle_ble_menu index => exact nav_step_handle_ble_menu h state index
  case handle_gps_menu index => exact nav_step_handle_gps_menu h state index
  case submenu_callback index => exact nav_step_submenu_callback h state index
  case show_menu_help index => exact nav_step_show_menu_help state index
  case back_event_callback => exact nav_step_back_event h state
  case show_main_menu => exact nav_step_show_main_menu state
  case menu_input_handler event => exact nav_step_menu_input h event state

theorem nav_inv_run_ops (h : HeaderDecls) (ops : List Op) (state : AppState)
    (hinv : nav_inv state) : nav_inv (run_ops h ops state) := by
  induction ops generalizing state with
  | nil => exact hinv
  | cons op rest ih =>
    exact ih (apply_op h op state) (nav_step_inv _ _ (nav_step_apply_op h op state) hinv)

theorem main_step_same (before after : AppState)
    (hv : after.current_view = before.current_view) : main_step before after :=
  Or.inr (fun hz => hv ▸ hz)

theorem main_step_nonzero (before after : AppState) (hv : after.current_view ≠ 0) :
    main_step before after :=
  Or.inr (fun hz => absurd hz hv)

theorem main_step_congr (before mid after : AppState)
    (hv : mid.current_view = before.current_view)
    (hstep : main_step mid after) : main_step before after := by
  unfold main_step at *
  rw [hv] at hstep
  exact hstep

theorem main_step_execute (h : HeaderDecls) (state : AppState) (command : MenuCommand) :
    main_step state (execute_menu_command h state command) := by
  obtain ⟨_, hv, _⟩ := execute_menu_command_nav h state command
  refine Or.inr (fun hz => ?_)
  rcases hv with hv | hv | hv | hv <;> omega

/-- The restore block of the Back handler ends on the main menu only through
show_main_menu, which clears the flag. -/
theorem main_step_restore (h : HeaderDecls) (with_23 : Bool) (state : AppState) :
    main_step state (restore_previous_menu h with_23 state) := by
  unfold restore_previous_menu
  split <;> (try split_ifs) <;>
    first
    | exact Or.inl rfl
    | exact main_step_nonzero _ _ (Nat.succ_ne_zero _)

/-- A Back event handled by back_event_callback ends on the main menu only with the flag
cleared, unless the main menu was already the current view. -/
theorem main_step_back_event (h : HeaderDecls) (state : AppState) :
    main_step state (back_event_callback h state).2 := by
  by_cases h5 : state.current_view = 5
  · rw [back_event_view5 h state h5]
    dsimp only
    split_ifs with hprev
    · refine main_step_nonzero _ _ ?_
      show state.previous_view ≠ 0
      omega
    · exact main_step_congr _ _ _ (terminal_exit_nav state).2.1 (main_step_restore h false _)
  · by_cases h6 : state.current_view = 6
    · rw [back_event_view6 h state h6]
      exact main_step_congr _ _ _ (text_input_exit_nav state).2.1 (main_step_restore h true _)
    · unfold back_event_callback
      simp only [if_neg h5, if_neg h6]
      split_ifs <;>
        first
        | exact main_step_same _ _ rfl
        | exact Or.inl rfl
        | exact main_step_nonzero _ _ (Nat.succ_ne_zero _)

/-- An input event handled by menu_input_handler ends on the main menu only with the flag
cleared, unless the main menu was already the current view. -/
theorem main_step_menu_input (h : HeaderDecls) (event : InputEvent) (state : AppState) :
    main_step state (menu_input_handler h event state).2 := by
  unfold menu_input_handler
  split
  · exact main_step_same _ _ rfl
  · rename_i menu store commands hctx
    have hst := menu_context_store_nav h state menu store commands hctx
    obtain ⟨ty, key⟩ := event
    cases ty <;> cases key <;> dsimp only
    all_goals first
      | exact main_step_same _ _ rfl
      | exact main_step_same _ _ (hst _ _).2.1
      | skip
    · split_ifs <;>
        first
        | exact main_step_same _ _ rfl
        | exact main_step_same _ _ (hst _ _).2.1
    · split_ifs <;>
        first
        | exact main_step_same _ _ rfl
        | exact main_step_same _ _ (hst _ _).2.1
    · split
      · dsimp only
        refine main_step_congr _ _ _ ?_ (main_step_execute h _ _)
        exact (save_last_selection_nav _ _).2.1
      · exact main_step_same _ _ rfl
    · split_ifs <;>
        first
        | exact main_step_same _ _ rfl
        | exact Or.inl rfl
        | exact main_step_nonzero _ _ (Nat.succ_ne_zero _)
    · split
      · split_ifs
        · unfold show_command_details
          split_ifs
          · exact main_step_same _ _ rfl
          · exact main_step_nonzero _ _ (Nat.succ_ne_zero _)
        · exact main_step_same _ _ rfl
      · exact main_step_same _ _ rfl

/-- C11: show_main_menu makes the main menu the current view and clears came_from_settings.
A Back event, handled by back_event_callback or by menu_input_handler, that starts on another
view and ends with current_view 0 leaves the flag false.  The navigation invariant (the flag
is false whenever view 0 is the current or the remembered previous view) is kept by every
operation of the module, it holds at application start and in every state whose current and
previous view are both non-zero, whatever the flag; hence in every state reached from such a
state through operations of the module, current_view 0 implies that the flag is false. -/
theorem main_menu_clears_came_from_settings (h : HeaderDecls) :
    (∀ state : AppState,
      (show_main_menu state).current_view = 0 ∧
      (show_main_menu state).came_from_settings = false) ∧
    (∀ state : AppState, state.current_view ≠ 0 →
      (back_event_callback h state).2.current_view = 0 →
      (back_event_callback h state).2.came_from_settings = false) ∧
    (∀ (state : AppState) (event : InputEvent), state.current_view ≠ 0 →
      (menu_input_handler h event state).2.current_view = 0 →
      (menu_input_handler h event state).2.came_from_settings = false) ∧
    (∀ (op : Op) (state : AppState), nav_inv state → nav_inv (apply_op h op state)) ∧
    (∀ (connected opens : Bool) (stop : Nat), nav_inv (initial_state connected opens stop)) ∧
    (∀ state : AppState, state.current_view ≠ 0 → state.previous_view ≠ 0 → nav_inv state) ∧
    (∀ (ops : List Op) (state : AppState), nav_inv state →
      (run_ops h ops state).current_view = 0 →
      (run_ops h ops state).came_from_settings = false) := by
  refine ⟨fun state => ⟨rfl, rfl⟩, ?_, ?_, ?_, ?_, ?_, ?_⟩
  · intro state h0 hz
    rcases main_step_back_event h state with hf | hstep
    · exact hf
    · exact absurd (hstep hz) h0
  · intro state event h0 hz
    rcases main_step_menu_input h event state with hf | hstep
    · exact hf
    · exact absurd (hstep hz) h0
  · intro op state hinv
    exact nav_step_inv _ _ (nav_step_apply_op h op state) hinv
  · intro connected opens stop _
    rfl
  · intro state h0 hp hz
    rcases hz with hz | hz
    · exact absurd hz h0
    · exact absurd hz hp
  · intro ops state hinv hz
    exact nav_inv_run_ops h ops state hinv (Or.inl hz)

/-- Witness of C11: from the Settings & Hardware page with the flag set, Back leads to view
8 and a second Back to the main menu, where the flag is false. -/
theorem main_menu_clears_came_from_settings_witness :
    flagged_settings_page.came_from_settings = true ∧
    (run_ops sample_decls [Op.back_event_callback] flagged_settings_page).current_view = 8 ∧
    (run_ops sample_decls [Op.back_event_callback, Op.back_event_callback]
      flagged_settings_page).current_view = 0 ∧
    (run_ops sample_decls [Op.back_event_callback, Op.back_event_callback]
      flagged_settings_page).came_from_settings = false :=
  ⟨rfl, rfl, rfl,
    (main_menu_clears_came_from_settings sample_decls).2.2.2.2.2.2
      [Op.back_event_callback, Op.back_event_callback] flagged_settings_page
      ((main_menu_clears_came_from_settings sample_decls).2.2.2.2.2.1 flagged_settings_page
        (by decide) (by decide))
      rfl⟩

/-! ## C21 -/

/-- Back on a state whose current_view is 7 is refused: back_event_callback returns false
and the state is unchanged.  The three functions that set current_view to 7 are the
connection error of execute_menu_command, show_command_details and show_menu_help. -/
theorem back_refused_on_view7 (h : HeaderDecls) (state : AppState) :
    (state.current_view = 7 → back_event_callback h state = (false, state)) ∧
    (∀ command : MenuCommand, state.uart_context.esp_connected = false →
      (execute_menu_command h state command).current_view = 7) ∧
    (∀ command : MenuCommand, command.details_header.isSome = true →
      command.details_text.isSome = true →
      (show_command_details state command).current_view = 7) ∧
    (∀ index : Nat, (show_menu_help state index).current_view = 7) := by
  refine ⟨?_, ?_, ?_, fun _ => rfl⟩
  · intro hv
    simp [back_event_callback, hv]
  · intro command hdisc
    simp [execute_menu_command, uart_is_esp_connected, hdisc]
  · intro command h1 h2
    cases hh : command.details_header <;> cases ht : command.details_text <;>
      simp_all [show_command_details]

/-- C22, the code at the failing input: the confirmation prompt of Cast Random Video is the
active view of the dispatcher (view 7), raised by execute_menu_command with nothing sent, but
current_view is still 13.  A Back event delivered to back_event_callback is therefore not
refused: it returns true and makes current_view 1 and the dispatcher show view 1, where the
claim has the result false and no navigation state changed. -/
theorem back_during_confirmation_prompt :
    cast_video_prompt.view_dispatcher.current_view = 7 ∧
    cast_video_prompt.confirmation_view.header = some "Cast Video" ∧
    cast_video_prompt.uart_context.sent = [] ∧
    cast_video_prompt.current_view = 13 ∧
    (back_event_callback sample_decls cast_video_prompt).1 = true ∧
    (back_event_callback sample_decls cast_video_prompt).2.current_view = 1 ∧
    (back_event_callback sample_decls cast_video_prompt).2.view_dispatcher.current_view = 1 ∧
    (back_event_callback sample_decls cast_video_prompt).2 ≠ cast_video_prompt := by
  decide

/-! ## C23 -/

/-- C23, the code at the failing input: after one Right on the sniff page, Back and
re-entering the page with the transport connected, the cycle index is still 1, but row 0 of
the re-shown page displays the label of entry 0, Sniff WPS, while OK sends the command of
entry 1, capture -raw.  The claim has the label of entry 1, Sniff Raw Packets, displayed. -/
theorem reentered_page_shows_stale_label :
    reentered_sniff_page.current_view = 11 ∧
    reentered_sniff_page.current_sniff_index = 1 ∧
    submenu_label reentered_sniff_page.wifi_capture_menu 0 = some "< Sniff WPS >" ∧
    (sniff_at 1).label = "< Sniff Raw Packets >" ∧
    submenu_label reentered_sniff_page.wifi_capture_menu 0 ≠ some (sniff_at 1).label ∧
    (press sample_decls InputKey.InputKeyOk reentered_sniff_page).uart_context.sent =
      ["capture -raw\n"] ∧
    (sniff_at 1).command = "capture -raw\n" := by
  decide

/-! ## C24 -/

/-- The capture triple of every descriptor of the catalog, as a Boolean check. -/
theorem catalog_triples (h : HeaderDecls) :
    (catalog h).all (fun command =>
      capture_triple_ok command &&
        (has_capture command ==
          (command.capture_prefix.isSome && command.file_ext.isSome &&
            command.folder.isSome))) = true := by
  rfl

/-- C24: every descriptor of the catalog, the five WiFi tables, the four BLE tables, the GPS
table and the two stop descriptors, has capture_prefix, file_ext and folder all present or
all absent, so the test of the code, any field set, agrees with all fields set. -/
theorem capture_triple_all_or_none (h : HeaderDecls) :
    (catalog h).length = 82 ∧
    ∀ command ∈ catalog h,
      ((command.capture_prefix.isSome = true ∧ command.file_ext.isSome = true ∧
          command.folder.isSome = true) ∨
        (command.capture_prefix = none ∧ command.file_ext = none ∧ command.folder = none)) ∧
      (has_capture command = true ↔
        (command.capture_prefix.isSome = true ∧ command.file_ext.isSome = true ∧
          command.folder.isSome = true)) := by
  refine ⟨rfl, ?_⟩
  intro command hmem
  have hall := List.all_eq_true.mp (catalog_triples h) command hmem
  simp only [Bool.and_eq_true, capture_triple_ok, Bool.or_eq_true, Option.isNone_iff_eq_none,
    beq_iff_eq] at hall
  obtain ⟨htriple, hhas⟩ := hall
  refine ⟨?_, ?_⟩
  · rcases htriple with ⟨⟨h1, h2⟩, h3⟩ | ⟨⟨h1, h2⟩, h3⟩
    · exact Or.inl ⟨h1, h2, h3⟩
    · exact Or.inr ⟨h1, h2, h3⟩
  · rw [hhas]
    simp [Bool.and_eq_true, and_assoc]

/-! ## C29 -/

/-- The commands of the catalog that are sent as they stand, needs_input clear, end with a
newline, with two exceptions in the Device Settings table: sd_config and sd_save_config.
Every command of the four variant tables ends with a newline except the custom entry of
the beacon table. -/
theorem verbatim_commands_newline (h : HeaderDecls) :
    (catalog h).all (fun command =>
      command.needs_input || ends_with_newline command.command ||
        command.command == "sd_config" || command.command == "sd_save_config") = true ∧
    sniff_commands.all (fun entry => ends_with_newline entry.command) = true ∧
    beacon_spam_commands.all (fun entry =>
      ends_with_newline entry.command || entry.command == "beaconspam") = true ∧
    rgbmode_commands.all (fun entry => ends_with_newline entry.command) = true ∧
    ble_spam_commands.all (fun entry => ends_with_newline entry.command) = true := by
  refine ⟨?_, ?_, ?_, ?_, ?_⟩
  · rfl
  all_goals decide

/-- C29, the code at the failing input: on the Device Settings page, transport connected, OK
on row 2, Show SD Pin Config, a descriptor with needs_input and needs_confirmation clear,
hands the transport the bytes sd_config, which do not end with a newline.  The descriptor of
row 5, Save SD Pin Config, sent by confirmation_ok_callback, has no newline either. -/
theorem sd_config_sent_without_newline :
    sd_config_row.current_view = 14 ∧
    sd_config_row.wifi_settings_menu.selected = 2 ∧
    (wifi_settings_commands.getD 2 wifi_stop_command).label = "Show SD Pin Config" ∧
    (wifi_settings_commands.getD 2 wifi_stop_command).needs_input = false ∧
    (wifi_settings_commands.getD 2 wifi_stop_command).needs_confirmation = false ∧
    (press sample_decls InputKey.InputKeyOk sd_config_row).uart_context.sent = ["sd_config"] ∧
    ends_with_newline "sd_config" = false ∧
    (wifi_settings_commands.getD 5 wifi_stop_command).needs_confirmation = true ∧
    (confirmation_ok_callback
      (some { state := true, command := some (wifi_settings_commands.getD 5 wifi_stop_command) })
      (initial_state true true 0)).uart_context.sent = ["sd_save_config"] ∧
    ends_with_newline "sd_save_config" = false := by
  decide

/-! ## C25 -/

/-- The fields that execute_menu_command never writes: current_index, the twelve
remembered-selection slots and the four cycle indices. -/
theorem execute_menu_command_slots (h : HeaderDecls) (state : AppState)
    (command : MenuCommand) :
    (execute_menu_command h state command).current_index = state.current_index ∧
    remembered_slots (execute_menu_command h state command) = remembered_slots state ∧
    cycle_indices (execute_menu_command h state command) = cycle_indices state := by
  by_cases hc : state.uart_context.esp_connected = true
  swap
  · simp [execute_menu_command, uart_is_esp_connected, hc, remembered_slots, cycle_indices]
  by_cases hi : command.needs_input = true
  · by_cases hcon : command.command = "connect" <;>
      simp [execute_menu_command, uart_is_esp_connected, hc, hi, hcon, begin_text_input,
        remembered_slots, cycle_indices]
  by_cases hconf : command.needs_confirmation = true
  · simp [execute_menu_command, uart_is_esp_connected, hc, hi, hconf, remembered_slots,
      cycle_indices]
  by_cases h11 : state.current_view = 11 ∧ state.current_index = 0
  · cases hp : SniffCommandDef.capture_prefix (sniff_at state.current_sniff_index) <;>
      cases ho : state.uart_context.file_opens <;>
      simp [execute_menu_command, uart_is_esp_connected, hc, hi, hconf, h11, hp, ho,
        show_terminal_and_send, send_uart_command, uart_receive_data, remembered_slots,
        cycle_indices]
  by_cases h12 : state.current_view = 12 ∧ state.current_index = 0
  · by_cases hb : state.current_beacon_index = beacon_spam_commands.length - 1 <;>
      cases ho : state.uart_context.file_opens <;>
      simp [execute_menu_command, uart_is_esp_connected, hc, hi, hconf, h12, hb, ho,
        begin_text_input, show_terminal_and_send, send_uart_command, uart_receive_data,
        remembered_slots, cycle_indices]
  by_cases h14 : state.current_view = 14 ∧ state.current_index = 0
  · cases ho : state.uart_context.file_opens <;>
      simp [execute_menu_command, uart_is_esp_connected, hc, hi, hconf, h14, ho,
        show_terminal_and_send, send_uart_command, uart_receive_data, remembered_slots,
        cycle_indices]
  by_cases h22 : state.current_view = 22 ∧ state.current_index = 0
  · cases ho : state.uart_context.file_opens <;>
      simp [execute_menu_command, uart_is_esp_connected, hc, hi, hconf, h22, ho,
        show_terminal_and_send, send_uart_command, uart_receive_data, remembered_slots,
        cycle_indices]
  simp only [execute_menu_command, uart_is_esp_connected, hc, hi, hconf,
    if_neg h11, if_neg h12, if_neg h14, if_neg h22]
  by_cases hcap : has_capture command = true <;>
    cases ho : state.uart_context.file_opens <;>
    simp [hcap, ho, send_uart_command, uart_receive_data, remembered_slots, cycle_indices]

/-- The slot of a view is one of the twelve remembered-selection slots. -/
theorem remembered_selection_congr (view : Nat) (a b : AppState)
    (hslots : remembered_slots a = remembered_slots b) :
    remembered_selection view a = remembered_selection view b := by
  simp only [remembered_slots, List.cons.injEq, and_true] at hslots
  obtain ⟨_, h10, h11, h12, h13, h14, _, h20, h21, h22, h23, h3⟩ := hslots
  unfold remembered_selection
  split <;> first | assumption | rfl

/-- The writes of the OK case: on every view with a command list other than view 23 the
slot of the view receives the row, and current_index is kept. -/
theorem save_last_selection_slot (h : HeaderDecls) (state : AppState) (menu : Submenu)
    (store : Submenu → AppState → AppState) (commands : List MenuCommand)
    (hctx : menu_context h state = some (menu, store, commands))
    (hview : state.current_view ≠ 23) (row : Nat) :
    remembered_selection state.current_view
      (save_last_selection { state with current_index := row } row) = row ∧
    (save_last_selection { state with current_index := row } row).current_index = row := by
  unfold menu_context at hctx
  split at hctx <;>
    first
    | (rename_i hv; exact absurd hv hview)
    | exact Option.noConfusion hctx
    | (rename_i hv; simp [save_last_selection, remembered_selection, hv])

/-- Short-press OK on an in-range row of a leaf list view other than view 23: current_index
and the slot of the view hold the row afterwards, whatever the dispatch then does. -/
theorem ok_saves_selection (h : HeaderDecls) (state : AppState) (menu : Submenu)
    (store : Submenu → AppState → AppState) (commands : List MenuCommand)
    (command : MenuCommand)
    (hctx : menu_context h state = some (menu, store, commands))
    (hrow : commands.get? menu.selected = some command)
    (hview : state.current_view ≠ 23) :
    (press h InputKey.InputKeyOk state).current_index = menu.selected ∧
    remembered_selection state.current_view (press h InputKey.InputKeyOk state) =
      menu.selected := by
  have hres : press h InputKey.InputKeyOk state =
      execute_menu_command h
        (save_last_selection { state with current_index := menu.selected } menu.selected)
        command := by
    have hrow2 : commands[menu.selected]? = some command := by
      rw [← List.get?_eq_getElem?]
      exact hrow
    simp [press, menu_input_handler, hctx, hrow2, submenu_get_selected_item]
  obtain ⟨hslot, hidx⟩ := save_last_selection_slot h state menu store commands hctx hview
    menu.selected
  obtain ⟨hcur, hslots, _⟩ := execute_menu_command_slots h
    (save_last_selection { state with current_index := menu.selected } menu.selected) command
  rw [hres]
  refine ⟨hcur.trans hidx, ?_⟩
  rw [remembered_selection_congr _ _ _ hslots]
  exact hslot

/-- C25, the code at the failing input: on the Chameleon page, view 23, with row 3
highlighted and in range, short-press OK sets current_index to 3 and dispatches the row, but
the slot of the view, last_ble_chameleon_index, still holds 0 where the claim has 3 written
before the dispatch.  The list-select path through handle_ble_menu does write the slot. -/
theorem ok_on_chameleon_page_skips_slot :
    chameleon_row3.current_view = 23 ∧
    chameleon_row3.ble_chameleon_menu.selected = 3 ∧
    3 < ble_chameleon_commands.length ∧
    chameleon_row3.last_ble_chameleon_index = 0 ∧
    (press sample_decls InputKey.InputKeyOk chameleon_row3).current_index = 3 ∧
    (press sample_decls InputKey.InputKeyOk chameleon_row3).uart_context.sent =
      ["chameleon reader\n"] ∧
    (press sample_decls InputKey.InputKeyOk chameleon_row3).last_ble_chameleon_index = 0 ∧
    remembered_selection 23 (press sample_decls InputKey.InputKeyOk chameleon_row3) ≠ 3 ∧
    (handle_ble_menu sample_decls chameleon_row3 3).last_ble_chameleon_index = 3 := by
  decide

/-! ## C26 -/

/-- Back on a BLE leaf page: back_event_callback on views 20 to 23 and short-press Back in
menu_input_handler on views 20 to 22 are consumed and show the BLE category list with its
remembered row selected; the transport is untouched. -/
theorem back_from_ble_leaf (h : HeaderDecls) (state : AppState)
    (hlo : 20 ≤ state.current_view) (hhi : state.current_view ≤ 23) :
    back_event_callback h state =
      (true, { show_ble_menu state with
        ble_menu := submenu_set_selected_item (show_ble_menu state).ble_menu
          state.last_ble_category_index,
        current_view := 2 }) ∧
    (state.current_view ≤ 22 →
      menu_input_handler h { type := InputType.InputTypeShort, key := InputKey.InputKeyBack }
        state =
      (true, { show_ble_menu state with
        ble_menu := submenu_set_selected_item (show_ble_menu state).ble_menu
          state.last_ble_category_index,
        current_view := 2 })) ∧
    (show_ble_menu state).uart_context = state.uart_context := by
  refine ⟨?_, ?_, rfl⟩
  · have h7 : state.current_view ≠ 7 := by omega
    have h5 : state.current_view ≠ 5 := by omega
    have h8 : state.current_view ≠ 8 := by omega
    have h4 : state.current_view ≠ 4 := by omega
    have h13 : ¬ (state.current_view ≥ 1 ∧ state.current_view ≤ 3) := by omega
    have h14 : ¬ (state.current_view ≥ 10 ∧ state.current_view ≤ 14) := by omega
    have hin : state.current_view ≥ 20 ∧ state.current_view ≤ 23 := ⟨hlo, hhi⟩
    unfold back_event_callback
    simp only [if_neg h7, if_neg h5, if_neg h8, if_neg h4, if_neg h13, if_neg h14, if_pos hin]
    simp [show_ble_menu]
  · intro h22
    have hcases : state.current_view = 20 ∨ state.current_view = 21 ∨
        state.current_view = 22 := by omega
    rcases hcases with hv | hv | hv <;>
      simp [menu_input_handler, menu_context, hv, show_ble_menu]

/-- C26, the code at the failing input: on the Chameleon page, view 23, a short-press Back
handled by menu_input_handler is consumed and changes nothing: current_view is still 23,
where the claim has 2.  back_event_callback on the same state does go to view 2. -/
theorem short_back_on_chameleon_page_stays :
    (show_ble_chameleon_menu (initial_state true true 0)).current_view = 23 ∧
    menu_input_handler sample_decls
      { type := InputType.InputTypeShort, key := InputKey.InputKeyBack }
      (show_ble_chameleon_menu (initial_state true true 0)) =
      (true, show_ble_chameleon_menu (initial_state true true 0)) ∧
    (menu_input_handler sample_decls
      { type := InputType.InputTypeShort, key := InputKey.InputKeyBack }
      (show_ble_chameleon_menu (initial_state true true 0))).2.current_view ≠ 2 ∧
    (back_event_callback sample_decls
      (show_ble_chameleon_menu (initial_state true true 0))).2.current_view = 2 := by
  decide

/-! ## C30 -/

/-- A plain descriptor dispatched with current_index other than 0 and the transport
connected: exactly its command is appended to what was sent. -/
theorem execute_plain_nonzero_index (h : HeaderDecls) (state : AppState)
    (command : MenuCommand)
    (hconn : state.uart_context.esp_connected = true)
    (hinput : command.needs_input = false)
    (hconf : command.needs_confirmation = false)
    (hcap : has_capture command = false)
    (hidx : state.current_index ≠ 0) :
    (execute_menu_command h state command).uart_context.sent =
      state.uart_context.sent ++ [command.command] := by
  simp [execute_menu_command, uart_is_esp_connected, hconn, hinput, hconf, hcap, hidx,
    uart_receive_data_sent, send_uart_command, uart_send]

/-- The list handlers with a current_index other than 0: handle_wifi_menu on views 10 to 14
and handle_ble_menu on views 20 to 23 send the command of the row they are called with, for
every in-range row that holds a plain descriptor. -/
theorem handle_menu_sends_row (h : HeaderDecls) (state : AppState) (menu : Submenu)
    (store : Submenu → AppState → AppState) (commands : List MenuCommand)
    (index : Nat) (command : MenuCommand)
    (hctx : menu_context h state = some (menu, store, commands))
    (hrow : commands.get? index = some command)
    (hconn : state.uart_context.esp_connected = true)
    (hinput : command.needs_input = false)
    (hconf : command.needs_confirmation = false)
    (hcap : has_capture command = false)
    (hidx : state.current_index ≠ 0) :
    (10 ≤ state.current_view ∧ state.current_view ≤ 14 →
      (handle_wifi_menu h state index).uart_context.sent =
        state.uart_context.sent ++ [command.command]) ∧
    (20 ≤ state.current_view ∧ state.current_view ≤ 23 →
      (handle_ble_menu h state index).uart_context.sent =
        state.uart_context.sent ++ [command.command]) := by
  have hlt : index < commands.length := by
    rw [List.get?_eq_getElem?] at hrow
    exact (List.getElem?_eq_some_iff.mp hrow).1
  unfold menu_context at hctx
  split at hctx <;>
    first
    | exact Option.noConfusion hctx
    | (rename_i hv
       simp only [Option.some.injEq, Prod.mk.injEq] at hctx
       obtain ⟨_, _, htable⟩ := hctx
       subst htable
       refine ⟨fun hr => ?_, fun hr => ?_⟩
       all_goals first
         | (exfalso; omega)
         | (simp only [handle_wifi_menu, handle_ble_menu, hv, if_pos hlt, hrow]
            exact execute_plain_nonzero_index h _ command hconn hinput hconf hcap hidx))

/-- C27, counterexample: on the WiFi category list, view 1 with five rows, submenu_callback
with the out-of-range index 5 sends nothing and makes no view transition, but writes 5 into
the remembered-selection slot last_wifi_category_index, which held 0. -/
theorem out_of_range_category_row_is_remembered :
    (show_wifi_menu (initial_state true true 0)).current_view = 1 ∧
    row_count sample_decls 1 ≤ 5 ∧
    (show_wifi_menu (initial_state true true 0)).last_wifi_category_index = 0 ∧
    (submenu_callback sample_decls (show_wifi_menu (initial_state true true 0))
      5).last_wifi_category_index = 5 ∧
    remembered_slots (submenu_callback sample_decls (show_wifi_menu (initial_state true true 0))
      5) ≠ remembered_slots (show_wifi_menu (initial_state true true 0)) ∧
    (submenu_callback sample_decls (show_wifi_menu (initial_state true true 0))
      5).uart_context.sent = [] ∧
    (submenu_callback sample_decls (show_wifi_menu (initial_state true true 0))
      5).current_view = 1 := by
  decide

/-- The guards of the three list handlers: a row at or past the row count of the current
view leaves the state as it is. -/
theorem handle_menu_out_of_range (h : HeaderDecls) (state : AppState) (index : Nat)
    (hrange : row_count h state.current_view ≤ index) :
    handle_wifi_menu h state index = state ∧
    handle_ble_menu h state index = state ∧
    (state.current_view = 3 → handle_gps_menu h state index = state) := by
  refine ⟨?_, ?_, ?_⟩
  · unfold handle_wifi_menu
    unfold row_count at hrange
    split <;> rename_i hv <;> (try simp only [hv] at hrange)
    all_goals first
      | rfl
      | (rw [if_neg (Nat.not_lt.mpr hrange)])
  · unfold handle_ble_menu
    unfold row_count at hrange
    split <;> rename_i hv <;> (try simp only [hv] at hrange)
    all_goals first
      | rfl
      | (rw [if_neg (Nat.not_lt.mpr hrange)])
  · intro hv
    have hlen : gps_commands.length ≤ index := by
      simpa [row_count, hv] using hrange
    have hnone : gps_commands.get? index = none := List.get?_eq_none.mpr hlen
    simp only [handle_gps_menu, hnone]

/-- The state after submenu_callback with a row at or past the row count of the current
view: current_index holds the row, on the category lists 1 and 2 the category slot holds it
too, and nothing else is written. -/
theorem submenu_callback_out_of_range (h : HeaderDecls) (state : AppState) (index : Nat)
    (hrange : row_count h state.current_view ≤ index) :
    submenu_callback h state index =
      if state.current_view = 1 then
        { state with current_index := index, last_wifi_category_index := index }
      else if state.current_view = 2 then
        { state with current_index := index, last_ble_category_index := index }
      else { state with current_index := index } := by
  have hguard := handle_menu_out_of_range h { state with current_index := index } index hrange
  unfold submenu_callback
  dsimp only
  unfold row_count at hrange
  split <;> rename_i hv <;> (try simp only [hv] at hrange)
  · split <;> first | (exfalso; omega) | simp [hv]
  · split <;> first | (exfalso; omega) | simp [hv]
  · split <;> first | (exfalso; omega) | simp [hv]
  · rw [hguard.2.2 hv]
    simp [hv]
  · rw [hguard.2.1]
    simp [hv]
  · rw [hguard.2.1]
    simp [hv]
  · rw [hguard.2.1]
    simp [hv]
  · rw [hguard.2.1]
    simp [hv]
  · have h1 : state.current_view ≠ 1 := by
      intro hh
      simp_all
    have h2 : state.current_view ≠ 2 := by
      intro hh
      simp_all
    rw [if_neg h1, if_neg h2]

/-- C27, amended: for every list view and every index at or past its row count, the
list-select path and short-press OK send nothing and make no view transition:
handle_wifi_menu, handle_ble_menu, handle_gps_menu on view 3 and short-press OK in
menu_input_handler leave the whole state unchanged, OK being not consumed, and
submenu_callback leaves the transport, current_view and the dispatcher unchanged; on every
view other than the category lists 1 and 2 submenu_callback writes current_index only, so
every remembered-selection slot is unchanged there. -/
theorem out_of_range_selection_ignored (h : HeaderDecls) (state : AppState) (index : Nat)
    (hrange : row_count h state.current_view ≤ index) :
    handle_wifi_menu h state index = state ∧
    handle_ble_menu h state index = state ∧
    (state.current_view = 3 → handle_gps_menu h state index = state) ∧
    (submenu_callback h state index).uart_context = state.uart_context ∧
    (submenu_callback h state index).current_view = state.current_view ∧
    (submenu_callback h state index).view_dispatcher = state.view_dispatcher ∧
    (state.current_view ≠ 1 → state.current_view ≠ 2 →
      submenu_callback h state index = { state with current_index := index }) ∧
    (∀ menu store commands, menu_context h state = some (menu, store, commands) →
      menu.selected = index →
      menu_input_handler h { type := InputType.InputTypeShort, key := InputKey.InputKeyOk }
        state = (false, state)) := by
  obtain ⟨hwifi, hble, hgps⟩ := handle_menu_out_of_range h state index hrange
  have hsub := submenu_callback_out_of_range h state index hrange
  refine ⟨hwifi, hble, hgps, ?_, ?_, ?_, ?_, ?_⟩
  · rw [hsub]
    split_ifs <;> rfl
  · rw [hsub]
    split_ifs <;> rfl
  · rw [hsub]
    split_ifs <;> rfl
  · intro h1 h2
    rw [hsub, if_neg h1, if_neg h2]
  · intro menu store commands hctx hsel
    have hlen : commands.length ≤ menu.selected := by
      rw [hsel]
      unfold menu_context at hctx
      unfold row_count at hrange
      split at hctx <;> rename_i hv <;> (try simp only [hv] at hrange) <;>
        first
        | exact Option.noConfusion hctx
        | (simp only [Option.some.injEq, Prod.mk.injEq] at hctx
           obtain ⟨_, _, htable⟩ := hctx
           subst htable
           exact hrange)
    have hnone : commands[menu.selected]? = none := List.getElem?_eq_none hlen
    simp [menu_input_handler, hctx, hnone, submenu_get_selected_item]

/-- Witness of C27, amended: row 13 on the attack page, which has 13 rows. -/
theorem out_of_range_selection_ignored_witness :
    row_count sample_decls (show_wifi_attack_menu (initial_state true true 0)).current_view ≤
      13 ∧
    handle_wifi_menu sample_decls (show_wifi_attack_menu (initial_state true true 0)) 13 =
      show_wifi_attack_menu (initial_state true true 0) :=
  ⟨by decide, (out_of_range_selection_ignored sample_decls
    (show_wifi_attack_menu (initial_state true true 0)) 13 (by decide)).1⟩

/-! ## C28 -/

theorem cycle_step_same (before after : AppState)
    (hsame : cycle_indices after = cycle_indices before) : cycle_step before after := by
  simp only [cycle_indices, List.cons.injEq, and_true] at hsame
  obtain ⟨h1, h2, h3, h4⟩ := hsame
  intro hinv
  unfold cycle_inv at *
  rw [h1, h2, h3, h4]
  exact hinv

theorem cycle_index_lt (key : InputKey) (current count : Nat) (hlt : current < count) :
    cycle_index key current count < count := by
  unfold cycle_index
  split_ifs
  · exact Nat.mod_lt _ (by omega)
  · omega
  · omega

theorem cycle_indices_show (h : HeaderDecls) (state : AppState) :
    cycle_indices (show_wifi_scanning_menu state) = cycle_indices state ∧
    cycle_indices (show_wifi_capture_menu h state) = cycle_indices state ∧
    cycle_indices (show_wifi_attack_menu state) = cycle_indices state ∧
    cycle_indices (show_wifi_network_menu state) = cycle_indices state ∧
    cycle_indices (show_wifi_settings_menu state) = cycle_indices state ∧
    cycle_indices (show_ble_scanning_menu h state) = cycle_indices state ∧
    cycle_indices (show_ble_capture_menu h state) = cycle_indices state ∧
    cycle_indices (show_ble_attack_menu state) = cycle_indices state ∧
    cycle_indices (show_ble_chameleon_menu state) = cycle_indices state ∧
    cycle_indices (show_wifi_menu state) = cycle_indices state ∧
    cycle_indices (show_ble_menu state) = cycle_indices state ∧
    cycle_indices (show_gps_menu state) = cycle_indices state ∧
    cycle_indices (show_main_menu state) = cycle_indices state := by
  refine ⟨?_, ?_, ?_, ?_, ?_, ?_, ?_, ?_, ?_, ?_, ?_, ?_, ?_⟩ <;>
    simp [show_wifi_scanning_menu, show_wifi_capture_menu, show_wifi_attack_menu,
      show_wifi_network_menu, show_wifi_settings_menu, show_ble_scanning_menu,
      show_ble_capture_menu, show_ble_attack_menu, show_ble_chameleon_menu, show_menu,
      show_wifi_menu, show_ble_menu, show_gps_menu, show_main_menu, cycle_indices]

theorem cycle_indices_execute (h : HeaderDecls) (state : AppState) (command : MenuCommand) :
    cycle_indices (execute_menu_command h state command) = cycle_indices state :=
  (execute_menu_command_slots h state command).2.2

theorem cycle_indices_handle_wifi_menu (h : HeaderDecls) (state : AppState) (index : Nat) :
    cycle_indices (handle_wifi_menu h state index) = cycle_indices state := by
  unfold handle_wifi_menu
  split <;> (try dsimp only) <;> (try split_ifs) <;> (try dsimp only) <;> (try split) <;>
    first
    | rfl
    | exact (cycle_indices_execute h _ _).trans rfl

theorem cycle_indices_handle_ble_menu (h : HeaderDecls) (state : AppState) (index : Nat) :
    cycle_indices (handle_ble_menu h state index) = cycle_indices state := by
  unfold handle_ble_menu
  split <;> (try dsimp only) <;> (try split_ifs) <;> (try dsimp only) <;> (try split) <;>
    first
    | rfl
    | exact (cycle_indices_execute h _ _).trans rfl

theorem cycle_indices_handle_gps_menu (h : HeaderDecls) (state : AppState) (index : Nat) :
    cycle_indices (handle_gps_menu h state index) = cycle_indices state := by
  unfold handle_gps_menu
  split <;>
    first
    | rfl
    | exact (cycle_indices_execute h _ _).trans rfl

theorem cycle_indices_confirmation_ok (context : Option MenuCommandContext)
    (state : AppState) :
    cycle_indices (confirmation_ok_callback context state) = cycle_indices state := by
  unfold confirmation_ok_callback
  split
  · rename_i command
    by_cases hcap : has_capture command = true <;>
      cases ho : state.uart_context.file_opens <;>
      simp [hcap, ho, uart_receive_data, send_uart_command, uart_send, cycle_indices]
  · rfl

theorem cycle_indices_confirmation_cancel (context : Option MenuCommandContext)
    (state : AppState) :
    cycle_indices (confirmation_cancel_callback context state) = cycle_indices state := by
  unfold confirmation_cancel_callback
  split
  · split
    · exact (cycle_indices_show sample_decls state).2.2.2.2.2.2.2.2.2.1
    · exact (cycle_indices_show sample_decls state).2.2.2.2.2.2.2.2.2.2.1
    · exact (cycle_indices_show sample_decls state).2.2.2.2.2.2.2.2.2.2.2.1
    · exact (cycle_indices_show sample_decls state).2.2.2.2.2.2.2.2.2.2.2.2
  · rfl

theorem cycle_indices_show_command_details (state : AppState) (command : MenuCommand) :
    cycle_indices (show_command_details state command) = cycle_indices state := by
  unfold show_command_details
  split_ifs <;> rfl

theorem cycle_indices_submit_text (h : HeaderDecls) (text : String) (state : AppState) :
    cycle_indices (submit_text h text state) = cycle_indices state := by
  unfold submit_text text_input_result_callback
  split_ifs <;>
    cases ho : state.uart_context.file_opens <;>
    simp [send_uart_command_with_text, uart_receive_data, ho, cycle_indices, uart_send]

theorem cycle_indices_submenu_callback (h : HeaderDecls) (state : AppState) (index : Nat) :
    cycle_indices (submenu_callback h state index) = cycle_indices state := by
  unfold submenu_callback
  dsimp only
  split <;> (try split) <;>
    first
    | rfl
    | exact ((cycle_indices_show h _).1).trans rfl
    | exact ((cycle_indices_show h _).2.1).trans rfl
    | exact ((cycle_indices_show h _).2.2.1).trans rfl
    | exact ((cycle_indices_show h _).2.2.2.1).trans rfl
    | exact ((cycle_indices_show h _).2.2.2.2.1).trans rfl
    | exact ((cycle_indices_show h _).2.2.2.2.2.1).trans rfl
    | exact ((cycle_indices_show h _).2.2.2.2.2.2.1).trans rfl
    | exact ((cycle_indices_show h _).2.2.2.2.2.2.2.1).trans rfl
    | exact ((cycle_indices_show h _).2.2.2.2.2.2.2.2.1).trans rfl
    | exact ((cycle_indices_show h _).2.2.2.2.2.2.2.2.2.1).trans rfl
    | exact ((cycle_indices_show h _).2.2.2.2.2.2.2.2.2.2.1).trans rfl
    | exact ((cycle_indices_show h _).2.2.2.2.2.2.2.2.2.2.2.1).trans rfl
    | exact (cycle_indices_execute h _ _).trans rfl
    | exact (cycle_indices_handle_gps_menu h _ _).trans rfl
    | exact (cycle_indices_handle_ble_menu h _ _).trans rfl

theorem cycle_indices_restore (h : HeaderDecls) (with_23 : Bool) (state : AppState) :
    cycle_indices (restore_previous_menu h with_23 state) = cycle_indices state := by
  unfold restore_previous_menu
  split <;> (try split_ifs) <;> rfl

theorem cycle_indices_exit (state : AppState) :
    cycle_indices (terminal_exit state) = cycle_indices state ∧
    cycle_indices (text_input_exit state) = cycle_indices state := by
  constructor
  · cases hb : state.textBoxBuffer.isSome <;>
      by_cases hs : state.settings.stop_on_back_index = 0 <;>
      simp [terminal_exit, hb, hs, send_uart_command, cycle_indices]
  · by_cases hs : state.settings.stop_on_back_index = 0 <;>
      simp [text_input_exit, hs, send_uart_command, cycle_indices]

theorem cycle_indices_back_event (h : HeaderDecls) (state : AppState) :
    cycle_indices (back_event_callback h state).2 = cycle_indices state := by
  by_cases h5 : state.current_view = 5
  · rw [back_event_view5 h state h5]
    dsimp only
    split_ifs with hprev
    · exact Eq.trans rfl (cycle_indices_exit state).1
    · exact (cycle_indices_restore h false _).trans (cycle_indices_exit state).1
  · by_cases h6 : state.current_view = 6
    · rw [back_event_view6 h state h6]
      exact (cycle_indices_restore h true _).trans (cycle_indices_exit state).2
    · unfold back_event_callback
      simp only [if_neg h5, if_neg h6]
      split_ifs <;> rfl

theorem menu_context_store_cycle (h : HeaderDecls) (state : AppState) (menu : Submenu)
    (store : Submenu → AppState → AppState) (commands : List MenuCommand)
    (hctx : menu_context h state = some (menu, store, commands))
    (m : Submenu) (s : AppState) :
    cycle_indices (store m s) = cycle_indices s := by
  unfold menu_context at hctx
  split at hctx <;>
    first
    | exact Option.noConfusion hctx
    | (cases hctx; rfl)

theorem save_last_selection_cycle (state : AppState) (index : Nat) :
    cycle_indices (save_last_selection state index) = cycle_indices state := by
  unfold save_last_selection
  split_ifs <;> (try split) <;> rfl

theorem cycle_step_of (before mid after : AppState)
    (hsame : cycle_indices after = cycle_indices mid) (hmid : cycle_step before mid) :
    cycle_step before after :=
  fun hinv => cycle_step_same mid after hsame (hmid hinv)

/-- The four writes of a cycle index in the Right and Left case keep it below the length
of its table. -/
theorem cycle_step_write (key : InputKey) (state : AppState) :
    cycle_step state { state with
      current_sniff_index :=
        cycle_index key state.current_sniff_index sniff_commands.length } ∧
    cycle_step state { state with
      current_beacon_index :=
        cycle_index key state.current_beacon_index beacon_spam_commands.length } ∧
    cycle_step state { state with
      current_rgb_index :=
        cycle_index key state.current_rgb_index rgbmode_commands.length } ∧
    cycle_step state { state with
      current_ble_spam_index :=
        cycle_index key state.current_ble_spam_index ble_spam_commands.length } :=
  ⟨fun hinv => ⟨cycle_index_lt _ _ _ hinv.1, hinv.2.1, hinv.2.2.1, hinv.2.2.2⟩,
    fun hinv => ⟨hinv.1, cycle_index_lt _ _ _ hinv.2.1, hinv.2.2.1, hinv.2.2.2⟩,
    fun hinv => ⟨hinv.1, hinv.2.1, cycle_index_lt _ _ _ hinv.2.2.1, hinv.2.2.2⟩,
    fun hinv => ⟨hinv.1, hinv.2.1, hinv.2.2.1, cycle_index_lt _ _ _ hinv.2.2.2⟩⟩

theorem cycle_step_menu_input (h : HeaderDecls) (event : InputEvent) (state : AppState) :
    cycle_step state (menu_input_handler h event state).2 := by
  unfold menu_input_handler
  split
  · exact cycle_step_same _ _ rfl
  · rename_i menu store commands hctx
    have hst := menu_context_store_cycle h state menu store commands hctx
    obtain ⟨ty, key⟩ := event
    cases ty <;> cases key <;> dsimp only
    all_goals first
      | exact cycle_step_same _ _ rfl
      | exact cycle_step_same _ _ (hst _ _)
      | skip
    all_goals first
      | (split_ifs <;>
          first
          | exact cycle_step_same _ _ rfl
          | exact cycle_step_same _ _ (hst _ _)
          | exact cycle_step_of _ _ _ (hst _ _) (cycle_step_write _ state).1
          | exact cycle_step_of _ _ _ (hst _ _) (cycle_step_write _ state).2.1
          | exact cycle_step_of _ _ _ (hst _ _) (cycle_step_write _ state).2.2.1
          | exact cycle_step_of _ _ _ (hst _ _) (cycle_step_write _ state).2.2.2)
      | (split
         · dsimp only
           exact cycle_step_same _ _
             ((cycle_indices_execute h _ _).trans (save_last_selection_cycle _ _))
         · exact cycle_step_same _ _ rfl)
      | (split
         · split_ifs
           · exact cycle_step_same _ _ (cycle_indices_show_command_details _ _)
           · exact cycle_step_same _ _ rfl
         · exact cycle_step_same _ _ rfl)

theorem cycle_step_apply_op (h : HeaderDecls) (op : Op) (state : AppState) :
    cycle_step state (apply_op h op state) := by
  cases op
  case send_uart_command command => exact cycle_step_same _ _ rfl
  case send_uart_command_with_text command text =>
    refine cycle_step_same _ _ ?_
    cases ho : state.uart_context.file_opens <;>
      simp [apply_op, send_uart_command_with_text, uart_receive_data, ho, cycle_indices,
        uart_send]
  case confirmation_ok_callback context =>
    exact cycle_step_same _ _ (cycle_indices_confirmation_ok context state)
  case confirmation_cancel_callback context =>
    exact cycle_step_same _ _ (cycle_indices_confirmation_cancel context state)
  case app_info_ok_callback => exact cycle_step_same _ _ rfl
  case show_command_details command =>
    exact cycle_step_same _ _ (cycle_indices_show_command_details state command)
  case error_callback => exact cycle_step_same _ _ rfl
  case text_input_result_callback text =>
    exact cycle_step_same _ _ (cycle_indices_submit_text h text state)
  case execute_menu_command command =>
    exact cycle_step_same _ _ (cycle_indices_execute h state command)
  case show_wifi_scanning_menu => exact cycle_step_same _ _ (cycle_indices_show h state).1
  case show_wifi_capture_menu => exact cycle_step_same _ _ (cycle_indices_show h state).2.1
  case show_wifi_attack_menu => exact cycle_step_same _ _ (cycle_indices_show h state).2.2.1
  case show_wifi_network_menu =>
    exact cycle_step_same _ _ (cycle_indices_show h state).2.2.2.1
  case show_wifi_settings_menu =>
    exact cycle_step_same _ _ (cycle_indices_show h state).2.2.2.2.1
  case show_ble_scanning_menu =>
    exact cycle_step_same _ _ (cycle_indices_show h state).2.2.2.2.2.1
  case show_ble_capture_menu =>
    exact cycle_step_same _ _ (cycle_indices_show h state).2.2.2.2.2.2.1
  case show_ble_attack_menu =>
    exact cycle_step_same _ _ (cycle_indices_show h state).2.2.2.2.2.2.2.1
  case show_ble_chameleon_menu =>
    exact cycle_step_same _ _ (cycle_indices_show h state).2.2.2.2.2.2.2.2.1
  case show_wifi_menu =>
    exact cycle_step_same _ _ (cycle_indices_show h state).2.2.2.2.2.2.2.2.2.1
  case show_ble_menu =>
    exact cycle_step_same _ _ (cycle_indices_show h state).2.2.2.2.2.2.2.2.2.2.1
  case show_gps_menu =>
    exact cycle_step_same _ _ (cycle_indices_show h state).2.2.2.2.2.2.2.2.2.2.2.1
  case handle_wifi_menu index =>
    exact cycle_step_same _ _ (cycle_indices_handle_wifi_menu h state index)
  case handle_ble_menu index =>
    exact cycle_step_same _ _ (cycle_indices_handle_ble_menu h state index)
  case handle_gps_menu index =>
    exact cycle_step_same _ _ (cycle_indices_handle_gps_menu h state index)
  case submenu_callback index =>
    exact cycle_step_same _ _ (cycle_indices_submenu_callback h state index)
  case show_menu_help index => exact cycle_step_same _ _ rfl
  case back_event_callback => exact cycle_step_same _ _ (cycle_indices_back_event h state)
  case show_main_menu =>
    exact cycle_step_same _ _ (cycle_indices_show h state).2.2.2.2.2.2.2.2.2.2.2.2
  case menu_input_handler event => exact cycle_step_menu_input h event state

theorem cycle_inv_run_ops (h : HeaderDecls) (ops : List Op) (state : AppState)
    (hinv : cycle_inv state) : cycle_inv (run_ops h ops state) := by
  induction ops generalizing state with
  | nil => exact hinv
  | cons op rest ih => exact ih (apply_op h op state) (cycle_step_apply_op h op state hinv)

/-- C28: each of the four cycle indices is 0 in the state at application start, and from any
state in which the four are 0 every sequence of operations of menu.c, input events
included, leaves each of them strictly below the length of its variant table, so the reads
of the variant tables in execute_menu_command and menu_input_handler are in bounds. -/
theorem cycle_indices_stay_in_bounds (h : HeaderDecls) (ops : List Op) (state : AppState)
    (esp_connected file_opens : Bool) (stop_on_back_index : Nat)
    (hzero : cycle_indices state = [0, 0, 0, 0]) :
    cycle_indices (initial_state esp_connected file_opens stop_on_back_index) = [0, 0, 0, 0] ∧
    (run_ops h ops state).current_sniff_index < sniff_commands.length ∧
    (run_ops h ops state).current_beacon_index < beacon_spam_commands.length ∧
    (run_ops h ops state).current_rgb_index < rgbmode_commands.length ∧
    (run_ops h ops state).current_ble_spam_index < ble_spam_commands.length ∧
    sniff_commands.get? (run_ops h ops state).current_sniff_index =
      some (sniff_at (run_ops h ops state).current_sniff_index) ∧
    beacon_spam_commands.get? (run_ops h ops state).current_beacon_index =
      some (variant_at beacon_spam_commands (run_ops h ops state).current_beacon_index) ∧
    rgbmode_commands.get? (run_ops h ops state).current_rgb_index =
      some (variant_at rgbmode_commands (run_ops h ops state).current_rgb_index) ∧
    ble_spam_commands.get? (run_ops h ops state).current_ble_spam_index =
      some (variant_at ble_spam_commands (run_ops h ops state).current_ble_spam_index) := by
  have hstart : cycle_inv state := by
    simp only [cycle_indices, List.cons.injEq, and_true] at hzero
    obtain ⟨h1, h2, h3, h4⟩ := hzero
    unfold cycle_inv
    rw [h1, h2, h3, h4]
    decide
  obtain ⟨h1, h2, h3, h4⟩ := cycle_inv_run_ops h ops state hstart
  refine ⟨rfl, h1, h2, h3, h4, ?_, ?_, ?_, ?_⟩
  · simp [sniff_at, List.getD, List.get?_eq_getElem?, List.getElem?_eq_getElem h1]
  · simp [variant_at, List.getD, List.get?_eq_getElem?, List.getElem?_eq_getElem h2]
  · simp [variant_at, List.getD, List.get?_eq_getElem?, List.getElem?_eq_getElem h3]
  · simp [variant_at, List.getD, List.get?_eq_getElem?, List.getElem?_eq_getElem h4]

/-- Witness of C28: from the state at application start, the sniff page is shown and Left
is pressed on row 0; the sniff index wraps to 6, below the 7 entries of its table. -/
theorem cycle_indices_stay_in_bounds_witness :
    cycle_indices (initial_state true true 0) = [0, 0, 0, 0] ∧
    (run_ops sample_decls
      [Op.show_wifi_capture_menu,
        Op.menu_input_handler { type := InputType.InputTypeShort, key := InputKey.InputKeyLeft }]
      (initial_state true true 0)).current_sniff_index = 6 ∧
    (run_ops sample_decls
      [Op.show_wifi_capture_menu,
        Op.menu_input_handler { type := InputType.InputTypeShort, key := InputKey.InputKeyLeft }]
      (initial_state true true 0)).current_sniff_index < sniff_commands.length :=
  ⟨by decide, by decide,
    (cycle_indices_stay_in_bounds sample_decls
      [Op.show_wifi_capture_menu,
        Op.menu_input_handler { type := InputType.InputTypeShort, key := InputKey.InputKeyLeft }]
      (initial_state true true 0) true true 0 (by decide)).2.1⟩

end GhostEsp
